import Mathlib

/-!
Shallow embedding of the payment-ledger service (`src/unnamed/part_000`,
an Express router over MongoDB).

Modelling conventions:
* JS `Number` is modelled as `Rat` (exact arithmetic; the source performs no
  rounding, only a `0.001` tolerance comparison at the balance gate).
* `uuidv4()` is modelled as a fresh-counter draw from `LedgerState.nextId`.
* Mongo collections (`Account`, `LedgerEntry`) are lists in insertion order;
  `findOne` / `find` become `List.find?` / `List.filter`.
* Thrown JS errors become `LedgerError` values.  Because the original code
  persists documents one at a time with no transaction, an operation that
  throws can still have mutated storage, so every stateful operation returns
  `Except LedgerError α × LedgerState`: the state component is the storage
  as it stands when the operation returns or throws.
* Fields that no claim touches and that never feed back into the control
  flow (timestamps, descriptions, free-form metadata other than the recorded
  exchange rate, transaction/event correlation ids, account status) are
  dropped from the model.
-/

/-- Entry type and account nature, the `enum: ['Debit', 'Credit']` of the
Mongoose schemas. -/
inductive EntryType where
  | Debit
  | Credit
deriving Repr, DecidableEq

/-- An `Account` document (schema lines 110-127 of the source). -/
structure Account where
  account_id : Nat
  account_name : String
  account_type : String
  nature : EntryType
  currency : String
  balance : Rat
deriving Repr, DecidableEq

/-- A `LedgerEntry` document (schema lines 134-149).  `metaExchangeRate`
models the `metadata.exchangeRate` field written by the reversal route. -/
structure LedgerEntry where
  entry_id : Nat
  entryGroupId : Nat
  account_id : Nat
  entry_type : EntryType
  amount : Rat
  currency : String
  isReversal : Bool
  isReversed : Bool
  originalEntryId : Option Nat
  metaExchangeRate : Option Rat
deriving Repr, DecidableEq

/-- The persistent storage: the two Mongo collections plus the fresh-id
counter standing in for `uuidv4()`. -/
structure LedgerState where
  accounts : List Account
  entries : List LedgerEntry
  nextId : Nat
deriving Repr, DecidableEq

def emptyState : LedgerState := { accounts := [], entries := [], nextId := 0 }

/-- The distinct `throw new Error(...)` sites of the source. -/
inductive LedgerError where
  | accountNotFound (accountId : Nat)
  | currencyMismatch
  | exchangeRateUnavailable
  | missingFields
  | imbalance
  | insufficientFunds
  | refundExceedsOriginal
  | unsupportedEvent
  | entryGroupNotFound
  | alreadyReversed
deriving Repr, DecidableEq

/-- Seed data for one account of `ledgerConfig.accounts` (the source spreads
these objects into `findOrCreateAccount` criteria). -/
structure AccountSeed where
  account_name : String
  account_type : String
  nature : EntryType
  currency : String
deriving Repr, DecidableEq

/-- The ledger configuration (the `defaultConfig` shape, lines 13-89).
Rate and fee maps are association lists, mirroring the JSON objects. -/
structure LedgerConfig where
  exchange_base : String
  exchange_rates : List (String × Rat)
  fx_fees : List (String × List (String × Rat))
  revenue_transaction_fees : AccountSeed
  revenue_fx_fees : AccountSeed
  transaction_fee_percentage : Rat
  transaction_fee_fixed : List (String × Rat)
  payment_processing_expense_percentage : Rat
deriving Repr, DecidableEq

/-- `defaultConfig` of the source, restricted to the modelled fields. -/
def defaultConfig : LedgerConfig :=
  { exchange_base := "USD"
    exchange_rates := [("EUR", 92/100), ("GBP", 79/100), ("USD", 1)]
    fx_fees := [("USD", [("EUR", 1/100), ("GBP", 1/100)]),
                ("EUR", [("USD", 1/100), ("GBP", 1/100)]),
                ("GBP", [("USD", 1/100), ("EUR", 1/100)])]
    revenue_transaction_fees :=
      { account_name := "Transaction Fee Revenue", account_type := "Revenue",
        nature := EntryType.Credit, currency := "USD" }
    revenue_fx_fees :=
      { account_name := "FX Fee Revenue", account_type := "Revenue",
        nature := EntryType.Credit, currency := "USD" }
    transaction_fee_percentage := 29/1000
    transaction_fee_fixed := [("USD", 3/10), ("EUR", 1/4), ("GBP", 1/5)]
    payment_processing_expense_percentage := 3/10 }

/-- Object-key lookup on an association list (`obj[key]`, `undefined ↦ none`). -/
def alist.lookup (l : List (String × Rat)) (k : String) : Option Rat :=
  (l.find? (fun kv => kv.1 == k)).map (fun kv => kv.2)

/-- `ledgerConfig.fx_fees[from]?.[to]` (optional chaining on two levels). -/
def fxFeeLookup (fees : List (String × List (String × Rat))) (f t : String) :
    Option Rat :=
  match (fees.find? (fun kv => kv.1 == f)).map (fun kv => kv.2) with
  | none => none
  | some inner => alist.lookup inner t

/-- `ledgerConfig.fx_fees[source]?.[settlement] || 0` (line 265): `undefined`
falls back to `0`; a configured `0` is falsy and also yields `0`. -/
def fxFeeRate (cfg : LedgerConfig) (f t : String) : Rat :=
  match fxFeeLookup cfg.fx_fees f t with
  | none => 0
  | some r => r

/-- `getExchangeRate` (lines 211-224).  The guard `!rates[from] ||
!rates[to]` is a JS falsiness test, so a currency mapped to `0` trips it
exactly as a missing currency does. -/
def getExchangeRate (cfg : LedgerConfig) (fromCurrency toCurrency : String) :
    Except LedgerError Rat :=
  if fromCurrency == toCurrency then Except.ok 1
  else
    match alist.lookup cfg.exchange_rates fromCurrency,
          alist.lookup cfg.exchange_rates toCurrency with
    | some rf, some rt =>
        if rf == 0 || rt == 0 then Except.error LedgerError.exchangeRateUnavailable
        else Except.ok (rt / rf)
    | _, _ => Except.error LedgerError.exchangeRateUnavailable

/-- `convertCurrency` (lines 226-229). -/
def convertCurrency (cfg : LedgerConfig) (amount : Rat) (f t : String) :
    Except LedgerError Rat :=
  match getExchangeRate cfg f t with
  | Except.error e => Except.error e
  | Except.ok r => Except.ok (amount * r)

/-- `Account.findOne({ account_id })`: first match in insertion order. -/
def findAccount (accounts : List Account) (accountId : Nat) : Option Account :=
  accounts.find? (fun a => a.account_id == accountId)

/-- `account.save()` after mutating the balance of the document returned by
`findOne`: only the first account with the given id is rewritten. -/
def setBalanceFirst : List Account → Nat → Rat → List Account
  | [], _, _ => []
  | a :: rest, accountId, newBal =>
      if a.account_id == accountId then { a with balance := newBal } :: rest
      else a :: setBalanceFirst rest accountId newBal

/-- `updateAccountBalance` (lines 157-177): find the account, reject a
currency mismatch, then add `amount` when the account nature equals the
entry type and subtract it otherwise. -/
def updateAccountBalance (st : LedgerState) (accountId : Nat)
    (entryType : EntryType) (amount : Rat) (currency : String) :
    Except LedgerError LedgerState :=
  match findAccount st.accounts accountId with
  | none => Except.error (LedgerError.accountNotFound accountId)
  | some account =>
      if account.currency ≠ currency then
        Except.error LedgerError.currencyMismatch
      else
        let balanceChange : Rat :=
          if account.nature == entryType then amount else -amount
        Except.ok { st with
          accounts := setBalanceFirst st.accounts accountId
            (account.balance + balanceChange) }

/-- Criteria passed to `findOrCreateAccount`.  Every call site of the source
supplies all four fields, so the `{...configAccount, ...accountCriteria}`
merge of lines 182-186 (which could only fill fields the criteria omit, and
whose config lookup misses for every key these call sites use) is the
identity and is not modelled. -/
structure AccountCriteria where
  account_name : String
  currency : String
  account_type : String
  nature : EntryType
deriving Repr, DecidableEq

/-- `findOrCreateAccount` (lines 180-209): look up by (account_name,
currency); otherwise create an Active account with a fresh id and zero
balance and append it. -/
def findOrCreateAccount (st : LedgerState) (c : AccountCriteria) :
    Account × LedgerState :=
  match st.accounts.find? (fun a =>
      a.account_name == c.account_name && a.currency == c.currency) with
  | some a => (a, st)
  | none =>
      let a : Account :=
        { account_id := st.nextId, account_name := c.account_name,
          account_type := c.account_type, nature := c.nature,
          currency := c.currency, balance := 0 }
      (a, { st with accounts := st.accounts ++ [a], nextId := st.nextId + 1 })

/-- The event payload (`req.body.payload`), a duck-typed JS object: each
field is `none` when absent.  Only the fields the three rules read are
modelled. -/
structure Payload where
  amount : Option Rat
  currency : Option String
  merchantId : Option String
  transactionFee : Option Rat
  settlementCurrency : Option String
  originalAmount : Option Rat
  refundAmount : Option Rat
deriving Repr, DecidableEq

/-- A proposed entry pushed onto `ledgerEntries` inside the `switch`
(before persistence): account id, type, amount, currency. -/
structure ProposedEntry where
  account_id : Nat
  entry_type : EntryType
  amount : Rat
  currency : String
deriving Repr, DecidableEq

/-- Sum of the amounts of the proposed entries of one type (the running
`totalDebits` / `totalCredits` accumulators of the source always equal
these sums over the pushed list). -/
def sumProposed (t : EntryType) (l : List ProposedEntry) : Rat :=
  ((l.filter (fun e => e.entry_type == t)).map (fun e => e.amount)).sum

/-- Same sums over persisted `LedgerEntry` records. -/
def sumEntries (t : EntryType) (l : List LedgerEntry) : Rat :=
  ((l.filter (fun e => e.entry_type == t)).map (fun e => e.amount)).sum

/-- The `Math.abs(totalDebits - totalCredits) > 0.001` tolerance. -/
def balanceTolerance : Rat := 1/1000

/-- Criteria of the Cash account lookups (`Cash - <currency>`, Asset,
Debit nature). -/
def cashCriteria (currency : String) : AccountCriteria :=
  { account_name := "Cash - " ++ currency, currency := currency,
    account_type := "Asset", nature := EntryType.Debit }

/-- Criteria of the Merchant Payable lookups
(`Merchant Payable - <merchantId>`, Liability, Credit nature). -/
def merchantCriteria (merchantId currency : String) : AccountCriteria :=
  { account_name := "Merchant Payable - " ++ merchantId,
    currency := currency,
    account_type := "Liability", nature := EntryType.Credit }

/-- Criteria of the Transaction Fee Revenue lookup:
`{...ledgerConfig.accounts.revenue.transaction_fees, currency}`. -/
def feeCriteria (cfg : LedgerConfig) (currency : String) : AccountCriteria :=
  { account_name := cfg.revenue_transaction_fees.account_name,
    currency := currency,
    account_type := cfg.revenue_transaction_fees.account_type,
    nature := cfg.revenue_transaction_fees.nature }

/-- Criteria of the FX Fee Revenue lookup:
`{...ledgerConfig.accounts.revenue.fx_fees, currency}`. -/
def fxCriteria (cfg : LedgerConfig) (currency : String) : AccountCriteria :=
  { account_name := cfg.revenue_fx_fees.account_name,
    currency := currency,
    account_type := cfg.revenue_fx_fees.account_type,
    nature := cfg.revenue_fx_fees.nature }

/-- The entry pushes of the `PaymentCaptured` case (lines 269-328): resolve
or create the Cash, Merchant Payable and Transaction Fee Revenue accounts,
push the Debit and the two Credits, and push the FX Fee Revenue Credit only
when `fxFee > 0`. -/
def capturedBuild (cfg : LedgerConfig) (st : LedgerState)
    (settlementCurrency merchantId : String)
    (totalAmountInSettlementCurrency transactionFeeInSettlementCurrency
      fxFee : Rat) : List ProposedEntry × LedgerState :=
  let fc1 := findOrCreateAccount st (cashCriteria settlementCurrency)
  let fc2 := findOrCreateAccount fc1.2
    (merchantCriteria merchantId settlementCurrency)
  let fc3 := findOrCreateAccount fc2.2 (feeCriteria cfg settlementCurrency)
  let base : List ProposedEntry :=
    [{ account_id := fc1.1.account_id,
       entry_type := EntryType.Debit,
       amount := totalAmountInSettlementCurrency,
       currency := settlementCurrency },
     { account_id := fc2.1.account_id,
       entry_type := EntryType.Credit,
       amount := totalAmountInSettlementCurrency -
         transactionFeeInSettlementCurrency - fxFee,
       currency := settlementCurrency },
     { account_id := fc3.1.account_id,
       entry_type := EntryType.Credit,
       amount := transactionFeeInSettlementCurrency,
       currency := settlementCurrency }]
  if fxFee > 0 then
    let fc4 := findOrCreateAccount fc3.2 (fxCriteria cfg settlementCurrency)
    (base ++
      [{ account_id := fc4.1.account_id,
         entry_type := EntryType.Credit, amount := fxFee,
         currency := settlementCurrency }], fc4.2)
  else (base, fc3.2)

/-- The `PaymentCaptured` case of the `switch` (lines 243-338) up to but not
including the balance gate: validation (`!amount || !currency ||
!merchantId || transactionFee === undefined`, all JS falsiness except the
fee which is compared against `undefined` only), settlement-currency
resolution (`payload.settlementCurrency || sourceCurrency`), conversion and
FX fee, and the three or four pushed entries. -/
def capturedEntries (cfg : LedgerConfig) (p : Payload) (st : LedgerState) :
    Except LedgerError (List ProposedEntry) × LedgerState :=
  match p.amount, p.currency, p.merchantId, p.transactionFee with
  | some amount, some currency, some merchantId, some transactionFee =>
    if amount == 0 || currency == "" || merchantId == "" then
      (Except.error LedgerError.missingFields, st)
    else
      let sourceCurrency := currency
      let settlementCurrency :=
        match p.settlementCurrency with
        | some sc => if sc == "" then sourceCurrency else sc
        | none => sourceCurrency
      let conv : Except LedgerError (Rat × Rat × Rat) :=
        if sourceCurrency == settlementCurrency then
          Except.ok (amount, transactionFee, 0)
        else
          match getExchangeRate cfg sourceCurrency settlementCurrency with
          | Except.error e => Except.error e
          | Except.ok exchangeRate =>
              Except.ok (amount * exchangeRate,
                transactionFee * exchangeRate,
                amount * fxFeeRate cfg sourceCurrency settlementCurrency *
                  exchangeRate)
      match conv with
      | Except.error e => (Except.error e, st)
      | Except.ok (totalAmountInSettlementCurrency,
                   transactionFeeInSettlementCurrency, fxFee) =>
        (Except.ok (capturedBuild cfg st settlementCurrency merchantId
            totalAmountInSettlementCurrency
            transactionFeeInSettlementCurrency fxFee).1,
         (capturedBuild cfg st settlementCurrency merchantId
            totalAmountInSettlementCurrency
            transactionFeeInSettlementCurrency fxFee).2)
  | _, _, _, _ => (Except.error LedgerError.missingFields, st)

/-- The `PaymentRefunded` case (lines 340-402) up to the balance gate:
validation, Merchant Payable lookup, insufficient-funds guard, Cash lookup,
and the two pushed entries. -/
def refundedEntries (p : Payload) (st : LedgerState) :
    Except LedgerError (List ProposedEntry) × LedgerState :=
  match p.amount, p.currency, p.merchantId with
  | some amount, some currency, some merchantId =>
    if amount == 0 || currency == "" || merchantId == "" then
      (Except.error LedgerError.missingFields, st)
    else
      let fm := findOrCreateAccount st (merchantCriteria merchantId currency)
      if fm.1.balance < amount then
        (Except.error LedgerError.insufficientFunds, fm.2)
      else
        let fcash := findOrCreateAccount fm.2 (cashCriteria currency)
        (Except.ok
          [{ account_id := fm.1.account_id,
             entry_type := EntryType.Debit, amount := amount,
             currency := currency },
           { account_id := fcash.1.account_id,
             entry_type := EntryType.Credit, amount := amount,
             currency := currency }], fcash.2)
  | _, _, _ => (Except.error LedgerError.missingFields, st)

/-- The `PaymentPartiallyRefunded` case (lines 404-479) up to the balance
gate: validation, the refund-exceeds-original guard, Merchant Payable
lookup, insufficient-funds guard, Cash lookup, and the two pushed
entries. -/
def partialRefundEntries (p : Payload) (st : LedgerState) :
    Except LedgerError (List ProposedEntry) × LedgerState :=
  match p.originalAmount, p.refundAmount, p.currency, p.merchantId with
  | some originalAmount, some refundAmount, some currency, some merchantId =>
    if originalAmount == 0 || refundAmount == 0 || currency == "" ||
        merchantId == "" then
      (Except.error LedgerError.missingFields, st)
    else if refundAmount > originalAmount then
      (Except.error LedgerError.refundExceedsOriginal, st)
    else
      let fm := findOrCreateAccount st (merchantCriteria merchantId currency)
      if fm.1.balance < refundAmount then
        (Except.error LedgerError.insufficientFunds, fm.2)
      else
        let fcash := findOrCreateAccount fm.2 (cashCriteria currency)
        (Except.ok
          [{ account_id := fm.1.account_id,
             entry_type := EntryType.Debit, amount := refundAmount,
             currency := currency },
           { account_id := fcash.1.account_id,
             entry_type := EntryType.Credit, amount := refundAmount,
             currency := currency }], fcash.2)
  | _, _, _, _ => (Except.error LedgerError.missingFields, st)

/-- The `switch (eventType)` dispatch of `executeActions`, producing the
proposed (not yet persisted) entry list of the matching case. -/
def buildEntries (cfg : LedgerConfig) (eventType : String) (p : Payload)
    (st : LedgerState) : Except LedgerError (List ProposedEntry) × LedgerState :=
  match eventType with
  | "PaymentCaptured" => capturedEntries cfg p st
  | "PaymentRefunded" => refundedEntries p st
  | "PaymentPartiallyRefunded" => partialRefundEntries p st
  | _ => (Except.error LedgerError.unsupportedEvent, st)

/-- One step of the persistence loops: append the already-built entry to
the store (`ledgerEntry.save()`), then `updateAccountBalance` with the
entry's data.  On a balance-update failure the entry stays persisted, as in
the source, which has no transaction or rollback. -/
def persistOne (st : LedgerState) (le : LedgerEntry) :
    Except LedgerError Unit × LedgerState :=
  match updateAccountBalance { st with entries := st.entries ++ [le] }
      le.account_id le.entry_type le.amount le.currency with
  | Except.error e => (Except.error e, { st with entries := st.entries ++ [le] })
  | Except.ok st2 => (Except.ok (), st2)

/-- `new LedgerEntry({...})` built from one proposed entry inside the
save loop of `executeActions` (lines 491-505). -/
def proposedToEntry (pe : ProposedEntry) (entryId entryGroupId : Nat) :
    LedgerEntry :=
  { entry_id := entryId, entryGroupId := entryGroupId,
    account_id := pe.account_id, entry_type := pe.entry_type,
    amount := pe.amount, currency := pe.currency,
    isReversal := false, isReversed := false,
    originalEntryId := none, metaExchangeRate := none }

/-- The save-and-apply loop of `executeActions` (lines 490-516): each
proposed entry becomes a `LedgerEntry` with a fresh id, is saved, and the
account balance is updated, accumulating `createdEntries`. -/
def saveProposed (st : LedgerState) (entryGroupId : Nat) :
    List ProposedEntry → Except LedgerError (List LedgerEntry) × LedgerState
  | [] => (Except.ok [], st)
  | pe :: rest =>
    match persistOne { st with nextId := st.nextId + 1 }
        (proposedToEntry pe st.nextId entryGroupId) with
    | (Except.error e, stE) => (Except.error e, stE)
    | (Except.ok _, st2) =>
      match saveProposed st2 entryGroupId rest with
      | (Except.error e, st3) => (Except.error e, st3)
      | (Except.ok les, st3) =>
          (Except.ok (proposedToEntry pe st.nextId entryGroupId :: les), st3)

/-- `executeActions` (lines 231-519): draw the group id, run the matching
`switch` case, apply the balance gate
(`Math.abs(totalDebits - totalCredits) > 0.001`), then persist each entry
and update its account balance. -/
def executeActions (cfg : LedgerConfig) (eventType : String) (p : Payload)
    (st : LedgerState) : Except LedgerError (List LedgerEntry) × LedgerState :=
  match buildEntries cfg eventType p { st with nextId := st.nextId + 1 } with
  | (Except.error e, st1) => (Except.error e, st1)
  | (Except.ok ledgerEntries, st1) =>
    if |sumProposed EntryType.Debit ledgerEntries -
        sumProposed EntryType.Credit ledgerEntries| > balanceTolerance then
      (Except.error LedgerError.imbalance, st1)
    else saveProposed st1 st.nextId ledgerEntries

/-- `entry_type === 'Debit' ? 'Credit' : 'Debit'` (line 823). -/
def flipType : EntryType → EntryType
  | EntryType.Debit => EntryType.Credit
  | EntryType.Credit => EntryType.Debit

/-- Mark one entry `isReversed` (`originalEntry.isReversed = true; save()`,
lines 842-843): rewrites every stored entry carrying that entry id. -/
def markReversed (entries : List LedgerEntry) (entryId : Nat) :
    List LedgerEntry :=
  entries.map (fun e =>
    if e.entry_id == entryId then { e with isReversed := true } else e)

/-- The conversion branch of the reversal loop (lines 807-815): when the
account's current currency differs from the entry's stored currency, the
reversal amount is converted through the rate table (the rate is also
recorded for the metadata); otherwise the stored amount and currency are
kept and the recorded rate is 1. -/
def reversalConversion (cfg : LedgerConfig) (account : Account)
    (originalEntry : LedgerEntry) : Except LedgerError (Rat × String × Rat) :=
  if account.currency ≠ originalEntry.currency then
    match getExchangeRate cfg originalEntry.currency account.currency with
    | Except.error e => Except.error e
    | Except.ok exchangeRate =>
        Except.ok (originalEntry.amount * exchangeRate, account.currency,
          exchangeRate)
  else Except.ok (originalEntry.amount, originalEntry.currency, (1 : Rat))

/-- The reversal `new LedgerEntry({...})` (lines 817-838), restricted to
the modelled fields. -/
def reversalEntryOf (originalEntry : LedgerEntry) (entryId rgid : Nat)
    (amount : Rat) (currency : String) (metaRate : Rat) : LedgerEntry :=
  { entry_id := entryId, entryGroupId := rgid,
    account_id := originalEntry.account_id,
    entry_type := flipType originalEntry.entry_type,
    amount := amount, currency := currency,
    isReversal := true, isReversed := false,
    originalEntryId := some originalEntry.entry_id,
    metaExchangeRate := some metaRate }

/-- The per-original-entry loop of the reversal route (lines 801-844):
resolve the account, convert the amount when the account's current currency
differs from the entry's stored currency, build the inverse entry (flipped
type, `isReversal`, `originalEntryId`, recorded exchange rate), and mark
the original reversed.  Errors abort the loop, leaving the originals
already marked — the source has no rollback. -/
def buildReversalEntries (cfg : LedgerConfig) (st : LedgerState)
    (reversalEntryGroupId : Nat) :
    List LedgerEntry → Except LedgerError (List LedgerEntry) × LedgerState
  | [] => (Except.ok [], st)
  | originalEntry :: rest =>
    match findAccount st.accounts originalEntry.account_id with
    | none =>
        (Except.error (LedgerError.accountNotFound originalEntry.account_id), st)
    | some account =>
      match reversalConversion cfg account originalEntry with
      | Except.error e => (Except.error e, st)
      | Except.ok (reversalAmount, reversalCurrency, metaRate) =>
        match buildReversalEntries cfg
            { st with
              nextId := st.nextId + 1
              entries := markReversed st.entries originalEntry.entry_id }
            reversalEntryGroupId rest with
        | (Except.error e, st2) => (Except.error e, st2)
        | (Except.ok res, st2) =>
            (Except.ok (reversalEntryOf originalEntry st.nextId
              reversalEntryGroupId reversalAmount reversalCurrency
              metaRate :: res), st2)

/-- The save-and-apply loop of the reversal route (lines 847-855). -/
def persistAndApply (st : LedgerState) :
    List LedgerEntry → Except LedgerError Unit × LedgerState
  | [] => (Except.ok (), st)
  | le :: rest =>
    match persistOne st le with
    | (Except.error e, stE) => (Except.error e, stE)
    | (Except.ok _, st2) => persistAndApply st2 rest

/-- `POST /accounting-entries/:entryGroupId/reverse` (lines 783-864): fetch
the group, reject an empty group (`404`) and an already-reversed group
(`400`), draw a fresh group id, build and mark, then persist and apply.
Returns the fresh group id and the reversal entries. -/
def reverseEntryGroup (cfg : LedgerConfig) (st : LedgerState)
    (entryGroupId : Nat) :
    Except LedgerError (Nat × List LedgerEntry) × LedgerState :=
  if (st.entries.filter (fun e => e.entryGroupId == entryGroupId)).isEmpty then
    (Except.error LedgerError.entryGroupNotFound, st)
  else if (st.entries.filter (fun e => e.entryGroupId == entryGroupId)).any
      (fun e => e.isReversed) then
    (Except.error LedgerError.alreadyReversed, st)
  else
    match buildReversalEntries cfg { st with nextId := st.nextId + 1 }
        st.nextId
        (st.entries.filter (fun e => e.entryGroupId == entryGroupId)) with
    | (Except.error e, st1) => (Except.error e, st1)
    | (Except.ok reversalEntries, st1) =>
      match persistAndApply st1 reversalEntries with
      | (Except.error e, st2) => (Except.error e, st2)
      | (Except.ok _, st2) =>
          (Except.ok (st.nextId, reversalEntries), st2)

/-- The post-conversion amount of the inverse of one entry, as the claim
about reversal states it: the stored amount, converted through the rate
table when the account's current currency differs from the entry's stored
currency. -/
def reversalAmountOf (cfg : LedgerConfig) (st : LedgerState)
    (e : LedgerEntry) : Rat :=
  match findAccount st.accounts e.account_id with
  | none => e.amount
  | some account =>
      if account.currency ≠ e.currency then
        match getExchangeRate cfg e.currency account.currency with
        | Except.error _ => e.amount
        | Except.ok r => e.amount * r
      else e.amount

/-- The FX fee the `PaymentCaptured` rule charges for a payload, written as
the specification states it: `amount * fxFeeRate(source, settlement) *
rate(source, settlement)`, and `0` when no conversion happens (or when the
rule cannot reach the fee computation). -/
def capturedFx (cfg : LedgerConfig) (p : Payload) : Rat :=
  match p.amount, p.currency with
  | some amount, some currency =>
    let settlementCurrency :=
      match p.settlementCurrency with
      | some sc => if sc == "" then currency else sc
      | none => currency
    if currency == settlementCurrency then 0
    else
      match getExchangeRate cfg currency settlementCurrency with
      | Except.ok r => amount * fxFeeRate cfg currency settlementCurrency * r
      | Except.error _ => 0
  | _, _ => 0

/-- The proposed entry is posted against an account of the given name and
currency present in the given storage state. -/
def entryAccountIs (st : LedgerState) (pe : ProposedEntry)
    (name cur : String) : Prop :=
  ∃ a, a ∈ st.accounts ∧ a.account_id = pe.account_id ∧
    a.account_name = name ∧ a.currency = cur

/-- The created entries of a successful `executeActions` result (empty list
on failure). -/
def okEntries (r : Except LedgerError (List LedgerEntry) × LedgerState) :
    List LedgerEntry :=
  match r.1 with
  | Except.ok les => les
  | Except.error _ => []

/-- The signed contribution of an entry to an account: `+amount` when the
entry type equals the account nature, `-amount` otherwise. -/
def signedAmount (a : Account) (e : LedgerEntry) : Rat :=
  if e.entry_type == a.nature then e.amount else -e.amount

/-- The signed sum of all stored entries posted against an account. -/
def acctSum (entries : List LedgerEntry) (a : Account) : Rat :=
  ((entries.filter (fun e => e.account_id == a.account_id)).map
    (signedAmount a)).sum

/-- Two account records agreeing on everything except possibly the
balance. -/
def eqExceptBalance (a b : Account) : Prop :=
  a.account_id = b.account_id ∧ a.account_name = b.account_name ∧
  a.account_type = b.account_type ∧ a.nature = b.nature ∧
  a.currency = b.currency

/-- Pointwise `eqExceptBalance` between two account collections: balance
updates preserve this relation. -/
def accountsShape (l1 l2 : List Account) : Prop :=
  List.Forall₂ eqExceptBalance l1 l2

/-- Mark every stored entry whose id occurs in `ids` as reversed. -/
def markAll (entries : List LedgerEntry) (ids : List Nat) :
    List LedgerEntry :=
  entries.map (fun e =>
    if e.entry_id ∈ ids then { e with isReversed := true } else e)

/-- Storage evolution of the rule-building phase: entries untouched, the
fresh-id counter only grows, accounts only appended with zero balance. -/
def buildStep (st st1 : LedgerState) : Prop :=
  st1.entries = st.entries ∧ st.nextId ≤ st1.nextId ∧
  ∃ new, st1.accounts = st.accounts ++ new ∧ ∀ b ∈ new, b.balance = 0

/-- Well-formed storage: distinct account ids, all ids below the fresh-id
counter, and every balance equal to the signed sum of the entries posted
against the account. -/
def WF (st : LedgerState) : Prop :=
  st.accounts.Pairwise (fun a b => a.account_id ≠ b.account_id) ∧
  (∀ a ∈ st.accounts, a.account_id < st.nextId) ∧
  (∀ e ∈ st.entries, e.account_id < st.nextId) ∧
  (∀ a ∈ st.accounts, a.balance = acctSum st.entries a)

/-- An operation of the core: process one inbound event (`POST /events`) or
reverse one entry group (`POST /accounting-entries/:id/reverse`). -/
inductive LedgerOp where
  | processEvent (eventType : String) (p : Payload)
  | reverseGroup (entryGroupId : Nat)
deriving Repr, DecidableEq

/-- The storage left behind by one operation (its result value aside). -/
def runOp (cfg : LedgerConfig) (st : LedgerState) : LedgerOp → LedgerState
  | LedgerOp.processEvent eventType p => (executeActions cfg eventType p st).2
  | LedgerOp.reverseGroup gid => (reverseEntryGroup cfg st gid).2

/-- The storage after a sequence of operations. -/
def runOps (cfg : LedgerConfig) : List LedgerOp → LedgerState → LedgerState
  | [], st => st
  | op :: rest, st => runOps cfg rest (runOp cfg st op)

/-- The PaymentCaptured payload of the specification's worked example:
amount 100 USD settled in EUR with a 2.9 transaction fee. -/
def examplePayload : Payload :=
  { amount := some 100, currency := some "USD", merchantId := some "M1",
    transactionFee := some (29/10), settlementCurrency := some "EUR",
    originalAmount := none, refundAmount := none }

/-- A configuration whose rate map carries EUR with multiplier `0`: the
currency is present in the map but falsy. -/
def cfgZeroRate : LedgerConfig :=
  { defaultConfig with exchange_rates := [("USD", 1), ("EUR", 0)] }

/-- An asset account that entries in USD were posted against before its
currency was edited to EUR (exercising the reversal conversion branch). -/
def editedCashAccount : Account :=
  { account_id := 0, account_name := "Cash - USD", account_type := "Asset",
    nature := EntryType.Debit, currency := "EUR", balance := 0 }

/-- The merchant-payable counterpart account, still in USD. -/
def usdPayableAccount : Account :=
  { account_id := 1, account_name := "Merchant Payable - M1",
    account_type := "Liability", nature := EntryType.Credit,
    currency := "USD", balance := 0 }

/-- Original entry: Debit 100 USD against the (later edited) cash
account. -/
def usdDebitEntry : LedgerEntry :=
  { entry_id := 10, entryGroupId := 5, account_id := 0,
    entry_type := EntryType.Debit, amount := 100, currency := "USD",
    isReversal := false, isReversed := false, originalEntryId := none,
    metaExchangeRate := none }

/-- Original entry: Credit 100 USD against the merchant payable account. -/
def usdCreditEntry : LedgerEntry :=
  { entry_id := 11, entryGroupId := 5, account_id := 1,
    entry_type := EntryType.Credit, amount := 100, currency := "USD",
    isReversal := false, isReversed := false, originalEntryId := none,
    metaExchangeRate := none }

/-- A storage state holding one balanced USD entry group (group id 5) where
the first account's currency has since been edited to EUR. -/
def editedCurrencyState : LedgerState :=
  { accounts := [editedCashAccount, usdPayableAccount],
    entries := [usdDebitEntry, usdCreditEntry], nextId := 20 }

/-- A minimal same-currency PaymentCaptured payload used for concrete
end-to-end runs: 100 USD, zero transaction fee, no settlement override. -/
def c8Payload : Payload :=
  { amount := some 100, currency := some "USD", merchantId := some "M1",
    transactionFee := some 0, settlementCurrency := none,
    originalAmount := none, refundAmount := none }

/-- One inbound `PaymentCaptured` event carrying `c8Payload`. -/
def c8Ops : List LedgerOp := [LedgerOp.processEvent "PaymentCaptured" c8Payload]

/-- The storage reached by processing `c8Ops` from the empty storage:
three freshly created accounts and the three persisted entries of the
group. -/
def c8State : LedgerState :=
  { accounts := [{ account_id := 1
                   account_name := "Cash - USD"
                   account_type := "Asset"
                   nature := EntryType.Debit
                   currency := "USD"
                   balance := 100 },
                 { account_id := 2
                   account_name := "Merchant Payable - M1"
                   account_type := "Liability"
                   nature := EntryType.Credit
                   currency := "USD"
                   balance := 100 },
                 { account_id := 3
                   account_name := "Transaction Fee Revenue"
                   account_type := "Revenue"
                   nature := EntryType.Credit
                   currency := "USD"
                   balance := 0 }]
    entries := [{ entry_id := 4
                  entryGroupId := 0
                  account_id := 1
                  entry_type := EntryType.Debit
                  amount := 100
                  currency := "USD"
                  isReversal := false
                  isReversed := false
                  originalEntryId := none
                  metaExchangeRate := none },
                { entry_id := 5
                  entryGroupId := 0
                  account_id := 2
                  entry_type := EntryType.Credit
                  amount := 100
                  currency := "USD"
                  isReversal := false
                  isReversed := false
                  originalEntryId := none
                  metaExchangeRate := none },
                { entry_id := 6
                  entryGroupId := 0
                  account_id := 3
                  entry_type := EntryType.Credit
                  amount := 0
                  currency := "USD"
                  isReversal := false
                  isReversed := false
                  originalEntryId := none
                  metaExchangeRate := none }]
    nextId := 7 }

/-- `c8State` after one further Debit of 5 USD applied to account 1: only
that account's balance moves from 100 to 105. -/
def c8Updated : LedgerState :=
  { c8State with accounts := [{ account_id := 1
                                account_name := "Cash - USD"
                                account_type := "Asset"
                                nature := EntryType.Debit
                                currency := "USD"
                                balance := 105 },
                              { account_id := 2
                                account_name := "Merchant Payable - M1"
                                account_type := "Liability"
                                nature := EntryType.Credit
                                currency := "USD"
                                balance := 100 },
                              { account_id := 3
                                account_name := "Transaction Fee Revenue"
                                account_type := "Revenue"
                                nature := EntryType.Credit
                                currency := "USD"
                                balance := 0 }] }

theorem buildStep_refl (st : LedgerState) : buildStep st st :=
  ⟨rfl, Nat.le_refl _, [], by simp⟩

theorem buildStep_trans {st1 st2 st3 : LedgerState} (h1 : buildStep st1 st2)
    (h2 : buildStep st2 st3) : buildStep st1 st3 := by
  obtain ⟨he1, hn1, n1, ha1, hb1⟩ := h1
  obtain ⟨he2, hn2, n2, ha2, hb2⟩ := h2
  refine ⟨he2.trans he1, Nat.le_trans hn1 hn2, n1 ++ n2, ?_, ?_⟩
  · rw [ha2, ha1, List.append_assoc]
  · intro b hb
    rcases List.mem_append.mp hb with h | h
    · exact hb1 b h
    · exact hb2 b h

theorem buildStep_mem {st st1 : LedgerState} (h : buildStep st st1)
    {b : Account} (hb : b ∈ st.accounts) : b ∈ st1.accounts := by
  obtain ⟨-, -, new, ha, -⟩ := h
  rw [ha]
  exact List.mem_append_left _ hb

theorem findOrCreateAccount_spec (st : LedgerState) (c : AccountCriteria) :
    (findOrCreateAccount st c).1.account_name = c.account_name ∧
    (findOrCreateAccount st c).1.currency = c.currency ∧
    (findOrCreateAccount st c).1 ∈ (findOrCreateAccount st c).2.accounts ∧
    buildStep st (findOrCreateAccount st c).2 := by
  unfold findOrCreateAccount
  cases h : st.accounts.find? (fun a =>
      a.account_name == c.account_name && a.currency == c.currency) with
  | none =>
      refine ⟨rfl, rfl, ?_, rfl, Nat.le_succ _, _, rfl, ?_⟩
      · simp
      · intro b hb
        simp only [List.mem_singleton] at hb
        rw [hb]
  | some a =>
      have hmem : a ∈ st.accounts := List.mem_of_find?_eq_some h
      have hpred := List.find?_some h
      simp only [Bool.and_eq_true, beq_iff_eq] at hpred
      exact ⟨hpred.1, hpred.2, hmem, buildStep_refl st⟩

theorem findAccount_cons (a : Account) (l : List Account) (accountId : Nat) :
    findAccount (a :: l) accountId =
      if a.account_id == accountId then some a else findAccount l accountId := by
  cases h : a.account_id == accountId <;> simp [findAccount, List.find?, h]

theorem eqExceptBalance_refl (a : Account) : eqExceptBalance a a :=
  ⟨rfl, rfl, rfl, rfl, rfl⟩

theorem eqExceptBalance_trans {a b c : Account} (h1 : eqExceptBalance a b)
    (h2 : eqExceptBalance b c) : eqExceptBalance a c :=
  ⟨h1.1.trans h2.1, h1.2.1.trans h2.2.1, h1.2.2.1.trans h2.2.2.1,
   h1.2.2.2.1.trans h2.2.2.2.1, h1.2.2.2.2.trans h2.2.2.2.2⟩

theorem accountsShape_refl (l : List Account) : accountsShape l l :=
  List.forall₂_same.mpr (fun a _ => eqExceptBalance_refl a)

theorem accountsShape_trans {l1 l2 l3 : List Account}
    (h1 : accountsShape l1 l2) (h2 : accountsShape l2 l3) :
    accountsShape l1 l3 := by
  induction h1 generalizing l3 with
  | nil => cases h2; exact List.Forall₂.nil
  | cons hab htail ih =>
      cases h2 with
      | cons hbc htail2 => exact List.Forall₂.cons (eqExceptBalance_trans hab hbc) (ih htail2)

theorem setBalanceFirst_shape (l : List Account) (accountId : Nat) (v : Rat) :
    accountsShape l (setBalanceFirst l accountId v) := by
  induction l with
  | nil => exact List.Forall₂.nil
  | cons a rest ih =>
      unfold setBalanceFirst
      by_cases h : (a.account_id == accountId) = true
      · rw [if_pos h]
        exact List.Forall₂.cons ⟨rfl, rfl, rfl, rfl, rfl⟩ (accountsShape_refl rest)
      · rw [if_neg h]
        exact List.Forall₂.cons (eqExceptBalance_refl a) ih

theorem findAccount_shape {l1 l2 : List Account} (h : accountsShape l1 l2)
    {accountId : Nat} {a : Account} (hf : findAccount l1 accountId = some a) :
    ∃ b, findAccount l2 accountId = some b ∧ eqExceptBalance a b := by
  induction h with
  | nil => simp [findAccount, List.find?] at hf
  | @cons x y l1t l2t hxy htail ih =>
      rw [findAccount_cons] at hf
      rw [findAccount_cons]
      by_cases hid : (x.account_id == accountId) = true
      · rw [if_pos hid] at hf
        have hyid : (y.account_id == accountId) = true := by
          rw [beq_iff_eq] at hid ⊢
          rw [← hxy.1]
          exact hid
        rw [if_pos hyid]
        exact ⟨y, rfl, by injection hf with h2; rw [← h2]; exact hxy⟩
      · rw [if_neg hid] at hf
        have hyid : ¬ (y.account_id == accountId) = true := by
          rw [beq_iff_eq] at hid ⊢
          rw [← hxy.1]
          exact hid
        rw [if_neg hyid]
        exact ih hf

theorem updateAccountBalance_ok_of {st : LedgerState} {accountId : Nat}
    {ty : EntryType} {amt : Rat} {cur : String} {a : Account}
    (hf : findAccount st.accounts accountId = some a) (hc : a.currency = cur) :
    updateAccountBalance st accountId ty amt cur =
      Except.ok { st with accounts := setBalanceFirst st.accounts accountId (a.balance + (if a.nature == ty then amt else -amt)) } := by
  unfold updateAccountBalance
  rw [hf]
  simp [hc]

theorem updateAccountBalance_mismatch {st : LedgerState} {accountId : Nat}
    (ty : EntryType) (amt : Rat) {cur : String} {a : Account}
    (hf : findAccount st.accounts accountId = some a) (hc : a.currency ≠ cur) :
    updateAccountBalance st accountId ty amt cur =
      Except.error LedgerError.currencyMismatch := by
  unfold updateAccountBalance
  rw [hf]
  simp [hc]

theorem updateAccountBalance_ok_state {st st' : LedgerState} {accountId : Nat}
    {ty : EntryType} {amt : Rat} {cur : String}
    (h : updateAccountBalance st accountId ty amt cur = Except.ok st') :
    st'.entries = st.entries ∧ st'.nextId = st.nextId ∧
    ∃ a, findAccount st.accounts accountId = some a ∧ a.currency = cur ∧
      st'.accounts = setBalanceFirst st.accounts accountId (a.balance + (if a.nature == ty then amt else -amt)) := by
  unfold updateAccountBalance at h
  split at h
  next => exact absurd h (by simp)
  next a hf =>
    split at h
    next => exact absurd h (by simp)
    next hc =>
      push_neg at hc
      simp only [Except.ok.injEq] at h
      rw [← h]
      exact ⟨rfl, rfl, a, hf, hc, rfl⟩

theorem findAccount_setBalanceFirst {l : List Account} {accountId : Nat}
    {a : Account} (v : Rat) (h : findAccount l accountId = some a) :
    findAccount (setBalanceFirst l accountId v) accountId =
      some { a with balance := v } := by
  induction l with
  | nil => simp [findAccount, List.find?] at h
  | cons x rest ih =>
      rw [findAccount_cons] at h
      unfold setBalanceFirst
      by_cases hid : (x.account_id == accountId) = true
      · rw [if_pos hid] at h
        rw [if_pos hid, findAccount_cons, if_pos hid]
        injection h with h2
        rw [h2]
      · rw [if_neg hid] at h
        rw [if_neg hid, findAccount_cons, if_neg hid]
        exact ih h

theorem setBalanceFirst_mem_ne {l : List Account} {accountId : Nat} {v : Rat}
    {b : Account} (hb : b ∈ l) (hne : b.account_id ≠ accountId) :
    b ∈ setBalanceFirst l accountId v := by
  induction l with
  | nil => simp at hb
  | cons x rest ih =>
      unfold setBalanceFirst
      rcases List.mem_cons.mp hb with h | h
      · have hid : ¬ (x.account_id == accountId) = true := by
          rw [beq_iff_eq]
          rw [← h]
          exact hne
        rw [if_neg hid]
        rw [← h]
        exact List.mem_cons_self _ _
      · by_cases hid : (x.account_id == accountId) = true
        · rw [if_pos hid]
          exact List.mem_cons_of_mem _ h
        · rw [if_neg hid]
          exact List.mem_cons_of_mem _ (ih h)

theorem findAccount_mem {l : List Account} {accountId : Nat} {a : Account}
    (h : findAccount l accountId = some a) : a ∈ l :=
  List.mem_of_find?_eq_some h

theorem findAccount_id {l : List Account} {accountId : Nat} {a : Account}
    (h : findAccount l accountId = some a) : a.account_id = accountId := by
  have := List.find?_some h
  rwa [beq_iff_eq] at this

theorem beq_comm_entryType (x y : EntryType) : (x == y) = (y == x) := by
  cases x <;> cases y <;> rfl

theorem acctSum_append_one (l : List LedgerEntry) (e : LedgerEntry)
    (a : Account) :
    acctSum (l ++ [e]) a = acctSum l a +
      (if e.account_id == a.account_id then signedAmount a e else 0) := by
  unfold acctSum
  rw [List.filter_append]
  by_cases h : (e.account_id == a.account_id) = true
  · simp [h]
  · simp [h]

theorem acctSum_map_preserve {f : LedgerEntry → LedgerEntry}
    (hid : ∀ e, (f e).account_id = e.account_id)
    (hty : ∀ e, (f e).entry_type = e.entry_type)
    (ham : ∀ e, (f e).amount = e.amount)
    (l : List LedgerEntry) (a : Account) :
    acctSum (l.map f) a = acctSum l a := by
  induction l with
  | nil => rfl
  | cons e rest ih =>
      unfold acctSum at ih ⊢
      rw [List.map_cons, List.filter_cons, List.filter_cons]
      by_cases h : (e.account_id == a.account_id) = true
      · rw [if_pos (by rw [hid e]; exact h), if_pos h]
        simp only [List.map_cons, List.sum_cons]
        rw [ih]
        have hs : signedAmount a (f e) = signedAmount a e := by
          unfold signedAmount
          rw [hty e, ham e]
        rw [hs]
      · rw [if_neg (by rw [hid e]; exact h), if_neg h]
        exact ih

theorem acctSum_markAll (l : List LedgerEntry) (ids : List Nat) (a : Account) :
    acctSum (markAll l ids) a = acctSum l a := by
  unfold markAll
  refine acctSum_map_preserve ?_ ?_ ?_ l a
  all_goals
    intro e
    by_cases h : e.entry_id ∈ ids
    · rw [if_pos h]
    · rw [if_neg h]

theorem accountsShape_pairwise {l1 l2 : List Account} (h : accountsShape l1 l2)
    (hp : l1.Pairwise (fun a b => a.account_id ≠ b.account_id)) :
    l2.Pairwise (fun a b => a.account_id ≠ b.account_id) := by
  induction h with
  | nil => exact List.Pairwise.nil
  | @cons x y l1t l2t hxy htail ih =>
      rcases List.pairwise_cons.mp hp with ⟨hhead, htl⟩
      refine List.pairwise_cons.mpr ⟨?_, ih htl⟩
      intro b2 hb2
      obtain ⟨i, hget⟩ := List.mem_iff_get.mp hb2
      obtain ⟨hlen, hrel⟩ := List.forall₂_iff_get.mp htail
      have hne := hhead (l1t.get ⟨i.1, by omega⟩) (List.get_mem _ _ _)
      have heq := hrel i.1 (by omega) i.isLt
      rw [← hget, ← hxy.1, ← heq.1]
      exact hne

theorem mem_setBalanceFirst_cases {l : List Account} {accountId : Nat}
    {v : Rat} {a b : Account}
    (hp : l.Pairwise (fun x y => x.account_id ≠ y.account_id))
    (hf : findAccount l accountId = some a)
    (hb : b ∈ setBalanceFirst l accountId v) :
    b = { a with balance := v } ∨ (b ∈ l ∧ b.account_id ≠ accountId) := by
  induction l with
  | nil => simp [setBalanceFirst] at hb
  | cons x rest ih =>
      rcases List.pairwise_cons.mp hp with ⟨hhead, htl⟩
      rw [findAccount_cons] at hf
      unfold setBalanceFirst at hb
      by_cases hid : (x.account_id == accountId) = true
      · rw [if_pos hid] at hf hb
        injection hf with hf2
        rcases List.mem_cons.mp hb with h | h
        · left
          rw [h, hf2]
        · right
          refine ⟨List.mem_cons_of_mem _ h, ?_⟩
          have := hhead b h
          rw [beq_iff_eq] at hid
          rw [← hid]
          exact fun hco => this hco.symm
      · rw [if_neg hid] at hf hb
        rcases List.mem_cons.mp hb with h | h
        · right
          refine ⟨by rw [h]; exact List.mem_cons_self _ _, ?_⟩
          rw [h]
          rw [beq_iff_eq] at hid
          exact hid
        · rcases ih htl hf h with h2 | h2
          · exact Or.inl h2
          · exact Or.inr ⟨List.mem_cons_of_mem _ h2.1, h2.2⟩

theorem acctSum_balance_irrel (l : List LedgerEntry) (a : Account) (v : Rat) :
    acctSum l { a with balance := v } = acctSum l a := rfl

theorem WF_nextId_mono {st : LedgerState} (hwf : WF st) {n : Nat}
    (hn : st.nextId ≤ n) : WF { st with nextId := n } := by
  obtain ⟨hpair, haid, heid, hbal⟩ := hwf
  exact ⟨hpair, fun a ha => Nat.lt_of_lt_of_le (haid a ha) hn,
    fun e he => Nat.lt_of_lt_of_le (heid e he) hn, hbal⟩

theorem persistOne_ok {st : LedgerState} {le : LedgerEntry} {a : Account}
    (hf : findAccount st.accounts le.account_id = some a)
    (hc : a.currency = le.currency) :
    persistOne st le = (Except.ok (),
      { accounts := setBalanceFirst st.accounts le.account_id (a.balance + (if a.nature == le.entry_type then le.amount else -le.amount)),
        entries := st.entries ++ [le], nextId := st.nextId }) := by
  unfold persistOne
  rw [@updateAccountBalance_ok_of { st with entries := st.entries ++ [le] }
    _ _ _ _ _ hf hc]

theorem WF_after_post {st : LedgerState} {le : LedgerEntry} {a : Account}
    (hf : findAccount st.accounts le.account_id = some a) (hwf : WF st) :
    WF { accounts := setBalanceFirst st.accounts le.account_id (a.balance + (if a.nature == le.entry_type then le.amount else -le.amount)),
         entries := st.entries ++ [le], nextId := st.nextId } := by
  obtain ⟨hpair, haid, heid, hbal⟩ := hwf
  refine ⟨accountsShape_pairwise (setBalanceFirst_shape _ _ _) hpair, ?_, ?_, ?_⟩
  · intro b hb
    rcases mem_setBalanceFirst_cases hpair hf hb with h | h
    · rw [h]
      exact haid a (findAccount_mem hf)
    · exact haid b h.1
  · intro e he
    rcases List.mem_append.mp he with h | h
    · exact heid e h
    · rw [List.mem_singleton] at h
      rw [h, ← findAccount_id hf]
      exact haid a (findAccount_mem hf)
  · intro b hb
    rcases mem_setBalanceFirst_cases hpair hf hb with h | h
    · have hcond : (le.account_id == a.account_id) = true := by
        rw [beq_iff_eq]
        exact (findAccount_id hf).symm
      have hsig : signedAmount a le =
          (if a.nature == le.entry_type then le.amount else -le.amount) := by
        unfold signedAmount
        rw [beq_comm_entryType]
      rw [h, acctSum_balance_irrel, acctSum_append_one, if_pos hcond,
        ← hbal a (findAccount_mem hf), hsig]
    · have hcond : ¬ (le.account_id == b.account_id) = true := by
        rw [beq_iff_eq]
        exact fun hco => h.2 hco.symm
      rw [acctSum_append_one, if_neg hcond, add_zero]
      exact hbal b h.1

theorem persistAndApply_ok : ∀ (es : List LedgerEntry) (st : LedgerState),
    (∀ e ∈ es, ∃ a, findAccount st.accounts e.account_id = some a ∧
      a.currency = e.currency) →
    ∃ st2, persistAndApply st es = (Except.ok (), st2) ∧
      st2.entries = st.entries ++ es ∧ st2.nextId = st.nextId ∧
      accountsShape st.accounts st2.accounts ∧ (WF st → WF st2) := by
  intro es
  induction es with
  | nil =>
      intro st _
      exact ⟨st, rfl, (List.append_nil _).symm, rfl, accountsShape_refl _,
        fun h => h⟩
  | cons e rest ih =>
      intro st hpre
      obtain ⟨a, hf, hc⟩ := hpre e (List.mem_cons_self _ _)
      have hstep := persistOne_ok hf hc
      have hshape1 : accountsShape st.accounts
          (setBalanceFirst st.accounts e.account_id (a.balance + (if a.nature == e.entry_type then e.amount else -e.amount))) :=
        setBalanceFirst_shape _ _ _
      obtain ⟨st2, hrun, hent, hnid, hshape2, hwf2⟩ := ih
        { accounts := setBalanceFirst st.accounts e.account_id (a.balance + (if a.nature == e.entry_type then e.amount else -e.amount)),
          entries := st.entries ++ [e], nextId := st.nextId }
        (by
          intro e2 he2
          obtain ⟨a2, hf2, hc2⟩ := hpre e2 (List.mem_cons_of_mem _ he2)
          obtain ⟨b2, hfb2, heb2⟩ := findAccount_shape hshape1 hf2
          exact ⟨b2, hfb2, heb2.2.2.2.2 ▸ hc2⟩)
      refine ⟨st2, ?_, ?_, hnid, accountsShape_trans hshape1 hshape2, ?_⟩
      · unfold persistAndApply
        rw [hstep]
        exact hrun
      · rw [hent]
        simp
      · intro hwf
        exact hwf2 (WF_after_post hf hwf)

theorem sumEntries_cons (t : EntryType) (e : LedgerEntry)
    (rest : List LedgerEntry) :
    sumEntries t (e :: rest) =
      (if e.entry_type == t then e.amount else 0) + sumEntries t rest := by
  unfold sumEntries
  rw [List.filter_cons]
  by_cases h : (e.entry_type == t) = true
  · simp [h]
  · simp [h]

theorem sumProposed_cons (t : EntryType) (pe : ProposedEntry)
    (rest : List ProposedEntry) :
    sumProposed t (pe :: rest) =
      (if pe.entry_type == t then pe.amount else 0) + sumProposed t rest := by
  unfold sumProposed
  rw [List.filter_cons]
  by_cases h : (pe.entry_type == t) = true
  · simp [h]
  · simp [h]

theorem sum_eq_of_shape : ∀ {les : List LedgerEntry} {ps : List ProposedEntry},
    les.map (fun e => (e.entry_type, e.amount)) =
      ps.map (fun p => (p.entry_type, p.amount)) →
    ∀ t, sumEntries t les = sumProposed t ps := by
  intro les
  induction les with
  | nil =>
      intro ps h t
      cases ps with
      | nil => rfl
      | cons p pr => simp at h
  | cons e rest ih =>
      intro ps h t
      cases ps with
      | nil => simp at h
      | cons p pr =>
          simp only [List.map_cons, List.cons.injEq, Prod.mk.injEq] at h
          rw [sumEntries_cons, sumProposed_cons, ih h.2 t, h.1.1, h.1.2]

theorem saveProposed_shape : ∀ (ps : List ProposedEntry) (st : LedgerState)
    (gid : Nat) {les : List LedgerEntry} {st2 : LedgerState},
    saveProposed st gid ps = (Except.ok les, st2) →
    les.map (fun e => (e.entry_type, e.amount)) =
      ps.map (fun p => (p.entry_type, p.amount)) := by
  intro ps
  induction ps with
  | nil =>
      intro st gid les st2 h
      unfold saveProposed at h
      simp only [Prod.mk.injEq, Except.ok.injEq] at h
      rw [← h.1]
      rfl
  | cons pe rest ih =>
      intro st gid les st2 h
      unfold saveProposed at h
      split at h
      next => exact absurd h (by simp)
      next st3 hstep =>
        split at h
        next => exact absurd h (by simp)
        next les2 st4 hrec =>
          simp only [Prod.mk.injEq, Except.ok.injEq] at h
          rw [← h.1]
          simp only [List.map_cons, List.cons.injEq]
          exact ⟨rfl, ih _ gid hrec⟩

theorem saveProposed_success : ∀ (ps : List ProposedEntry) (st : LedgerState)
    (gid : Nat),
    (∀ pe ∈ ps, ∃ a, findAccount st.accounts pe.account_id = some a ∧
      a.currency = pe.currency) →
    ∃ les st2, saveProposed st gid ps = (Except.ok les, st2) ∧
      accountsShape st.accounts st2.accounts ∧ (WF st → WF st2) ∧
      st2.entries = st.entries ++ les ∧
      List.Forall₂ (fun (pe : ProposedEntry) (e : LedgerEntry) =>
        e.account_id = pe.account_id ∧ e.entry_type = pe.entry_type ∧
        e.amount = pe.amount ∧ e.currency = pe.currency ∧
        e.entryGroupId = gid) ps les := by
  intro ps
  induction ps with
  | nil =>
      intro st gid _
      exact ⟨[], st, rfl, accountsShape_refl _, fun h => h,
        (List.append_nil _).symm, List.Forall₂.nil⟩
  | cons pe rest ih =>
      intro st gid hpre
      obtain ⟨a, hf, hc⟩ := hpre pe (List.mem_cons_self _ _)
      have hf2 : findAccount ({ st with nextId := st.nextId + 1 } : LedgerState).accounts
          (proposedToEntry pe st.nextId gid).account_id = some a := hf
      have hstep := persistOne_ok hf2 hc
      have hshape1 : accountsShape st.accounts
          (setBalanceFirst st.accounts pe.account_id (a.balance + (if a.nature == pe.entry_type then pe.amount else -pe.amount))) :=
        setBalanceFirst_shape _ _ _
      obtain ⟨les2, st2, hrun, hshape2, hwf2, hent2, hrel2⟩ := ih
        { accounts := setBalanceFirst st.accounts pe.account_id (a.balance + (if a.nature == pe.entry_type then pe.amount else -pe.amount)),
          entries := st.entries ++ [proposedToEntry pe st.nextId gid],
          nextId := st.nextId + 1 }
        gid
        (by
          intro pe2 hpe2
          obtain ⟨a2, hfa2, hca2⟩ := hpre pe2 (List.mem_cons_of_mem _ hpe2)
          obtain ⟨b2, hfb2, heb2⟩ := findAccount_shape hshape1 hfa2
          exact ⟨b2, hfb2, heb2.2.2.2.2 ▸ hca2⟩)
      refine ⟨proposedToEntry pe st.nextId gid :: les2, st2, ?_,
        accountsShape_trans hshape1 hshape2, ?_, ?_, ?_⟩
      · unfold saveProposed
        rw [hstep]
        dsimp only [proposedToEntry]
        dsimp only [proposedToEntry] at hrun
        rw [hrun]
      · intro hwf
        exact hwf2 (WF_after_post hf2 (WF_nextId_mono hwf (Nat.le_succ _)))
      · rw [hent2]
        simp
      · exact List.Forall₂.cons ⟨rfl, rfl, rfl, rfl, rfl⟩ hrel2


theorem findAccount_of_mem_unique {l : List Account}
    (hp : l.Pairwise (fun a b => a.account_id ≠ b.account_id))
    {a : Account} (ha : a ∈ l) : findAccount l a.account_id = some a := by
  induction l with
  | nil => simp at ha
  | cons x rest ih =>
      rcases List.pairwise_cons.mp hp with ⟨hhead, htl⟩
      rw [findAccount_cons]
      rcases List.mem_cons.mp ha with h | h
      · rw [h]
        simp
      · rw [if_neg (by rw [beq_iff_eq]; exact hhead a h)]
        exact ih htl h

theorem acctSum_zero_of_fresh {entries : List LedgerEntry} {aid : Nat}
    (h : ∀ e ∈ entries, e.account_id ≠ aid) {a : Account}
    (haid : a.account_id = aid) : acctSum entries a = 0 := by
  unfold acctSum
  have hnil : entries.filter (fun e => e.account_id == a.account_id) = [] := by
    rw [List.filter_eq_nil_iff]
    intro e he
    simp only [beq_iff_eq, haid]
    exact h e he
  rw [hnil]
  rfl

theorem findOrCreateAccount_WF {st : LedgerState} (c : AccountCriteria)
    (hwf : WF st) : WF (findOrCreateAccount st c).2 := by
  unfold findOrCreateAccount
  cases h : st.accounts.find? (fun a =>
      a.account_name == c.account_name && a.currency == c.currency) with
  | some a => exact hwf
  | none =>
      obtain ⟨hpair, haid, heid, hbal⟩ := hwf
      refine ⟨?_, ?_, ?_, ?_⟩
      · rw [List.pairwise_append]
        refine ⟨hpair, by simp, ?_⟩
        intro x hx y hy
        simp only [List.mem_singleton] at hy
        rw [hy]
        exact Nat.ne_of_lt (haid x hx)
      · intro b hb
        rcases List.mem_append.mp hb with h2 | h2
        · exact Nat.lt_succ_of_lt (haid b h2)
        · rw [List.mem_singleton] at h2
          rw [h2]
          exact Nat.lt_succ_self _
      · intro e he
        exact Nat.lt_succ_of_lt (heid e he)
      · intro b hb
        rcases List.mem_append.mp hb with h2 | h2
        · exact hbal b h2
        · rw [List.mem_singleton] at h2
          rw [h2]
          exact (acctSum_zero_of_fresh
            (fun e he => Nat.ne_of_lt (heid e he)) rfl).symm

theorem capturedBuild_state (cfg : LedgerConfig) (st : LedgerState)
    (sc mid : String) (A F fx : Rat) :
    buildStep st (capturedBuild cfg st sc mid A F fx).2 ∧
    (WF st → WF (capturedBuild cfg st sc mid A F fx).2) ∧
    ∀ pe ∈ (capturedBuild cfg st sc mid A F fx).1,
      ∃ a, a ∈ (capturedBuild cfg st sc mid A F fx).2.accounts ∧
        a.account_id = pe.account_id ∧ a.currency = pe.currency := by
  have s1 := findOrCreateAccount_spec st (cashCriteria sc)
  have s2 := findOrCreateAccount_spec
    (findOrCreateAccount st (cashCriteria sc)).2 (merchantCriteria mid sc)
  have s3 := findOrCreateAccount_spec
    (findOrCreateAccount (findOrCreateAccount st (cashCriteria sc)).2
      (merchantCriteria mid sc)).2 (feeCriteria cfg sc)
  have s4 := findOrCreateAccount_spec
    (findOrCreateAccount (findOrCreateAccount
      (findOrCreateAccount st (cashCriteria sc)).2
      (merchantCriteria mid sc)).2 (feeCriteria cfg sc)).2 (fxCriteria cfg sc)
  by_cases hfx : fx > 0
  · simp only [capturedBuild, if_pos hfx]
    refine ⟨buildStep_trans s1.2.2.2 (buildStep_trans s2.2.2.2
      (buildStep_trans s3.2.2.2 s4.2.2.2)), ?_, ?_⟩
    · intro hwf
      exact findOrCreateAccount_WF _ (findOrCreateAccount_WF _
        (findOrCreateAccount_WF _ (findOrCreateAccount_WF _ hwf)))
    · intro pe hpe
      simp only [List.mem_append, List.mem_cons, List.mem_singleton,
        List.not_mem_nil, or_false] at hpe
      rcases hpe with (h | h | h) | h
      · exact ⟨(findOrCreateAccount st (cashCriteria sc)).1,
          buildStep_mem s4.2.2.2 (buildStep_mem s3.2.2.2
            (buildStep_mem s2.2.2.2 s1.2.2.1)),
          by rw [h], by rw [h]; exact s1.2.1⟩
      · exact ⟨(findOrCreateAccount _ (merchantCriteria mid sc)).1,
          buildStep_mem s4.2.2.2 (buildStep_mem s3.2.2.2 s2.2.2.1),
          by rw [h], by rw [h]; exact s2.2.1⟩
      · exact ⟨(findOrCreateAccount _ (feeCriteria cfg sc)).1,
          buildStep_mem s4.2.2.2 s3.2.2.1,
          by rw [h], by rw [h]; exact s3.2.1⟩
      · exact ⟨(findOrCreateAccount _ (fxCriteria cfg sc)).1, s4.2.2.1,
          by rw [h], by rw [h]; exact s4.2.1⟩
  · simp only [capturedBuild, if_neg hfx]
    refine ⟨buildStep_trans s1.2.2.2 (buildStep_trans s2.2.2.2 s3.2.2.2),
      ?_, ?_⟩
    · intro hwf
      exact findOrCreateAccount_WF _ (findOrCreateAccount_WF _
        (findOrCreateAccount_WF _ hwf))
    · intro pe hpe
      simp only [List.mem_cons, List.mem_singleton, List.not_mem_nil,
        or_false] at hpe
      rcases hpe with h | h | h
      · exact ⟨(findOrCreateAccount st (cashCriteria sc)).1,
          buildStep_mem s3.2.2.2 (buildStep_mem s2.2.2.2 s1.2.2.1),
          by rw [h], by rw [h]; exact s1.2.1⟩
      · exact ⟨(findOrCreateAccount _ (merchantCriteria mid sc)).1,
          buildStep_mem s3.2.2.2 s2.2.2.1,
          by rw [h], by rw [h]; exact s2.2.1⟩
      · exact ⟨(findOrCreateAccount _ (feeCriteria cfg sc)).1, s3.2.2.1,
          by rw [h], by rw [h]; exact s3.2.1⟩

theorem capturedBuild_entries (cfg : LedgerConfig) (st : LedgerState)
    (sc mid : String) (A F fx : Rat) :
    (capturedBuild cfg st sc mid A F fx).1.map
        (fun pe => (pe.entry_type, pe.amount, pe.currency)) =
      [(EntryType.Debit, A, sc), (EntryType.Credit, A - F - fx, sc),
       (EntryType.Credit, F, sc)] ++
        (if fx > 0 then [(EntryType.Credit, fx, sc)] else []) := by
  by_cases hfx : fx > 0
  · simp [capturedBuild, hfx]
  · simp [capturedBuild, hfx]

theorem capturedEntries_state (cfg : LedgerConfig) (p : Payload)
    (st : LedgerState) :
    buildStep st (capturedEntries cfg p st).2 ∧
    (WF st → WF (capturedEntries cfg p st).2) ∧
    ∀ ps, (capturedEntries cfg p st).1 = Except.ok ps →
      ∀ pe ∈ ps, ∃ a, a ∈ (capturedEntries cfg p st).2.accounts ∧
        a.account_id = pe.account_id ∧ a.currency = pe.currency := by
  rcases p with ⟨pa, pc, pm, pf, psc, po, pr⟩
  cases pa with
  | none =>
      exact ⟨buildStep_refl st, fun h => h,
        fun ps hps => absurd hps (by simp [capturedEntries])⟩
  | some amount =>
  cases pc with
  | none =>
      exact ⟨buildStep_refl st, fun h => h,
        fun ps hps => absurd hps (by simp [capturedEntries])⟩
  | some currency =>
  cases pm with
  | none =>
      exact ⟨buildStep_refl st, fun h => h,
        fun ps hps => absurd hps (by simp [capturedEntries])⟩
  | some merchantId =>
  cases pf with
  | none =>
      exact ⟨buildStep_refl st, fun h => h,
        fun ps hps => absurd hps (by simp [capturedEntries])⟩
  | some transactionFee =>
  cases hval : (amount == 0 || currency == "" || merchantId == "") with
  | true =>
      have heq : capturedEntries cfg
          ⟨some amount, some currency, some merchantId, some transactionFee,
            psc, po, pr⟩ st = (Except.error LedgerError.missingFields, st) := by
        simp [capturedEntries, hval]
      refine ⟨?_, ?_, ?_⟩ <;> rw [heq]
      · exact buildStep_refl st
      · exact fun h => h
      · exact fun ps hps => absurd hps (by simp)
  | false =>
  cases psc with
  | none =>
      have hbuild := capturedBuild_state cfg st currency merchantId amount
        transactionFee 0
      have heq : capturedEntries cfg
          ⟨some amount, some currency, some merchantId, some transactionFee,
            none, po, pr⟩ st =
          (Except.ok (capturedBuild cfg st currency merchantId amount
            transactionFee 0).1,
           (capturedBuild cfg st currency merchantId amount
            transactionFee 0).2) := by
        simp [capturedEntries, hval]
      refine ⟨?_, ?_, ?_⟩ <;> rw [heq]
      · exact hbuild.1
      · exact hbuild.2.1
      · intro ps hps
        rw [← Except.ok.inj hps]
        exact hbuild.2.2
  | some sc =>
  cases hsc : (sc == "") with
  | true =>
      have hbuild := capturedBuild_state cfg st currency merchantId amount
        transactionFee 0
      have heq : capturedEntries cfg
          ⟨some amount, some currency, some merchantId, some transactionFee,
            some sc, po, pr⟩ st =
          (Except.ok (capturedBuild cfg st currency merchantId amount
            transactionFee 0).1,
           (capturedBuild cfg st currency merchantId amount
            transactionFee 0).2) := by
        simp [capturedEntries, hval, hsc]
      refine ⟨?_, ?_, ?_⟩ <;> rw [heq]
      · exact hbuild.1
      · exact hbuild.2.1
      · intro ps hps
        rw [← Except.ok.inj hps]
        exact hbuild.2.2
  | false =>
  cases hsrc : (currency == sc) with
  | true =>
      have hbuild := capturedBuild_state cfg st sc merchantId amount
        transactionFee 0
      have heq : capturedEntries cfg
          ⟨some amount, some currency, some merchantId, some transactionFee,
            some sc, po, pr⟩ st =
          (Except.ok (capturedBuild cfg st sc merchantId amount
            transactionFee 0).1,
           (capturedBuild cfg st sc merchantId amount
            transactionFee 0).2) := by
        simp [capturedEntries, hval, hsc, hsrc]
      refine ⟨?_, ?_, ?_⟩ <;> rw [heq]
      · exact hbuild.1
      · exact hbuild.2.1
      · intro ps hps
        rw [← Except.ok.inj hps]
        exact hbuild.2.2
  | false =>
  cases hr : getExchangeRate cfg currency sc with
  | error e =>
      have heq : capturedEntries cfg
          ⟨some amount, some currency, some merchantId, some transactionFee,
            some sc, po, pr⟩ st = (Except.error e, st) := by
        simp [capturedEntries, hval, hsc, hsrc, hr]
      refine ⟨?_, ?_, ?_⟩ <;> rw [heq]
      · exact buildStep_refl st
      · exact fun h => h
      · exact fun ps hps => absurd hps (by simp)
  | ok r =>
      have hbuild := capturedBuild_state cfg st sc merchantId (amount * r)
        (transactionFee * r) (amount * fxFeeRate cfg currency sc * r)
      have heq : capturedEntries cfg
          ⟨some amount, some currency, some merchantId, some transactionFee,
            some sc, po, pr⟩ st =
          (Except.ok (capturedBuild cfg st sc merchantId (amount * r)
            (transactionFee * r) (amount * fxFeeRate cfg currency sc * r)).1,
           (capturedBuild cfg st sc merchantId (amount * r)
            (transactionFee * r) (amount * fxFeeRate cfg currency sc * r)).2) := by
        simp [capturedEntries, hval, hsc, hsrc, hr]
      refine ⟨?_, ?_, ?_⟩ <;> rw [heq]
      · exact hbuild.1
      · exact hbuild.2.1
      · intro ps hps
        rw [← Except.ok.inj hps]
        exact hbuild.2.2

theorem refundedEntries_state (p : Payload) (st : LedgerState) :
    buildStep st (refundedEntries p st).2 ∧
    (WF st → WF (refundedEntries p st).2) ∧
    ∀ ps, (refundedEntries p st).1 = Except.ok ps →
      ∀ pe ∈ ps, ∃ a, a ∈ (refundedEntries p st).2.accounts ∧
        a.account_id = pe.account_id ∧ a.currency = pe.currency := by
  rcases p with ⟨pa, pc, pm, pf, psc, po, pr⟩
  cases pa with
  | none =>
      exact ⟨buildStep_refl st, fun h => h,
        fun ps hps => absurd hps (by simp [refundedEntries])⟩
  | some amount =>
  cases pc with
  | none =>
      exact ⟨buildStep_refl st, fun h => h,
        fun ps hps => absurd hps (by simp [refundedEntries])⟩
  | some currency =>
  cases pm with
  | none =>
      exact ⟨buildStep_refl st, fun h => h,
        fun ps hps => absurd hps (by simp [refundedEntries])⟩
  | some merchantId =>
  cases hval : (amount == 0 || currency == "" || merchantId == "") with
  | true =>
      have heq : refundedEntries
          ⟨some amount, some currency, some merchantId, pf, psc, po, pr⟩ st =
          (Except.error LedgerError.missingFields, st) := by
        simp [refundedEntries, hval]
      refine ⟨?_, ?_, ?_⟩ <;> rw [heq]
      · exact buildStep_refl st
      · exact fun h => h
      · exact fun ps hps => absurd hps (by simp)
  | false =>
  have s1 := findOrCreateAccount_spec st (merchantCriteria merchantId currency)
  by_cases hlow : (findOrCreateAccount st
      (merchantCriteria merchantId currency)).1.balance < amount
  · have heq : refundedEntries
        ⟨some amount, some currency, some merchantId, pf, psc, po, pr⟩ st =
        (Except.error LedgerError.insufficientFunds,
         (findOrCreateAccount st (merchantCriteria merchantId currency)).2) := by
      simp [refundedEntries, hval, hlow]
    refine ⟨?_, ?_, ?_⟩ <;> rw [heq]
    · exact s1.2.2.2
    · exact fun h => findOrCreateAccount_WF _ h
    · exact fun ps hps => absurd hps (by simp)
  · have s2 := findOrCreateAccount_spec
      (findOrCreateAccount st (merchantCriteria merchantId currency)).2
      (cashCriteria currency)
    have heq : refundedEntries
        ⟨some amount, some currency, some merchantId, pf, psc, po, pr⟩ st =
        (Except.ok
          [{ account_id := (findOrCreateAccount st
               (merchantCriteria merchantId currency)).1.account_id,
             entry_type := EntryType.Debit, amount := amount,
             currency := currency },
           { account_id := (findOrCreateAccount
               (findOrCreateAccount st (merchantCriteria merchantId currency)).2
               (cashCriteria currency)).1.account_id,
             entry_type := EntryType.Credit, amount := amount,
             currency := currency }],
         (findOrCreateAccount
           (findOrCreateAccount st (merchantCriteria merchantId currency)).2
           (cashCriteria currency)).2) := by
      simp [refundedEntries, hval, hlow]
    refine ⟨?_, ?_, ?_⟩ <;> rw [heq]
    · exact buildStep_trans s1.2.2.2 s2.2.2.2
    · exact fun h => findOrCreateAccount_WF _ (findOrCreateAccount_WF _ h)
    · intro ps hps
      rw [← Except.ok.inj hps]
      intro pe hpe
      simp only [List.mem_cons, List.mem_singleton, List.not_mem_nil,
        or_false] at hpe
      rcases hpe with h | h
      · exact ⟨(findOrCreateAccount st (merchantCriteria merchantId currency)).1,
          buildStep_mem s2.2.2.2 s1.2.2.1, by rw [h], by rw [h]; exact s1.2.1⟩
      · exact ⟨(findOrCreateAccount
            (findOrCreateAccount st (merchantCriteria merchantId currency)).2
            (cashCriteria currency)).1,
          s2.2.2.1, by rw [h], by rw [h]; exact s2.2.1⟩

theorem partialRefundEntries_state (p : Payload) (st : LedgerState) :
    buildStep st (partialRefundEntries p st).2 ∧
    (WF st → WF (partialRefundEntries p st).2) ∧
    ∀ ps, (partialRefundEntries p st).1 = Except.ok ps →
      ∀ pe ∈ ps, ∃ a, a ∈ (partialRefundEntries p st).2.accounts ∧
        a.account_id = pe.account_id ∧ a.currency = pe.currency := by
  rcases p with ⟨pa, pc, pm, pf, psc, po, pr⟩
  cases po with
  | none =>
      exact ⟨buildStep_refl st, fun h => h,
        fun ps hps => absurd hps (by simp [partialRefundEntries])⟩
  | some originalAmount =>
  cases pr with
  | none =>
      exact ⟨buildStep_refl st, fun h => h,
        fun ps hps => absurd hps (by simp [partialRefundEntries])⟩
  | some refundAmount =>
  cases pc with
  | none =>
      exact ⟨buildStep_refl st, fun h => h,
        fun ps hps => absurd hps (by simp [partialRefundEntries])⟩
  | some currency =>
  cases pm with
  | none =>
      exact ⟨buildStep_refl st, fun h => h,
        fun ps hps => absurd hps (by simp [partialRefundEntries])⟩
  | some merchantId =>
  cases hval : (originalAmount == 0 || refundAmount == 0 || currency == "" ||
      merchantId == "") with
  | true =>
      have heq : partialRefundEntries
          ⟨pa, some currency, some merchantId, pf, psc, some originalAmount,
            some refundAmount⟩ st =
          (Except.error LedgerError.missingFields, st) := by
        simp [partialRefundEntries, hval]
      refine ⟨?_, ?_, ?_⟩ <;> rw [heq]
      · exact buildStep_refl st
      · exact fun h => h
      · exact fun ps hps => absurd hps (by simp)
  | false =>
  by_cases hex : refundAmount > originalAmount
  · have heq : partialRefundEntries
        ⟨pa, some currency, some merchantId, pf, psc, some originalAmount,
          some refundAmount⟩ st =
        (Except.error LedgerError.refundExceedsOriginal, st) := by
      simp [partialRefundEntries, hval, hex]
    refine ⟨?_, ?_, ?_⟩ <;> rw [heq]
    · exact buildStep_refl st
    · exact fun h => h
    · exact fun ps hps => absurd hps (by simp)
  · have s1 := findOrCreateAccount_spec st
      (merchantCriteria merchantId currency)
    by_cases hlow : (findOrCreateAccount st
        (merchantCriteria merchantId currency)).1.balance < refundAmount
    · have heq : partialRefundEntries
          ⟨pa, some currency, some merchantId, pf, psc, some originalAmount,
            some refundAmount⟩ st =
          (Except.error LedgerError.insufficientFunds,
           (findOrCreateAccount st (merchantCriteria merchantId currency)).2) := by
        simp [partialRefundEntries, hval, hex, hlow]
      refine ⟨?_, ?_, ?_⟩ <;> rw [heq]
      · exact s1.2.2.2
      · exact fun h => findOrCreateAccount_WF _ h
      · exact fun ps hps => absurd hps (by simp)
    · have s2 := findOrCreateAccount_spec
        (findOrCreateAccount st (merchantCriteria merchantId currency)).2
        (cashCriteria currency)
      have heq : partialRefundEntries
          ⟨pa, some currency, some merchantId, pf, psc, some originalAmount,
            some refundAmount⟩ st =
          (Except.ok
            [{ account_id := (findOrCreateAccount st
                 (merchantCriteria merchantId currency)).1.account_id,
               entry_type := EntryType.Debit, amount := refundAmount,
               currency := currency },
             { account_id := (findOrCreateAccount
                 (findOrCreateAccount st
                   (merchantCriteria merchantId currency)).2
                 (cashCriteria currency)).1.account_id,
               entry_type := EntryType.Credit, amount := refundAmount,
               currency := currency }],
           (findOrCreateAccount
             (findOrCreateAccount st (merchantCriteria merchantId currency)).2
             (cashCriteria currency)).2) := by
        simp [partialRefundEntries, hval, hex, hlow]
      refine ⟨?_, ?_, ?_⟩ <;> rw [heq]
      · exact buildStep_trans s1.2.2.2 s2.2.2.2
      · exact fun h => findOrCreateAccount_WF _ (findOrCreateAccount_WF _ h)
      · intro ps hps
        rw [← Except.ok.inj hps]
        intro pe hpe
        simp only [List.mem_cons, List.mem_singleton, List.not_mem_nil,
          or_false] at hpe
        rcases hpe with h | h
        · exact ⟨(findOrCreateAccount st
              (merchantCriteria merchantId currency)).1,
            buildStep_mem s2.2.2.2 s1.2.2.1, by rw [h],
            by rw [h]; exact s1.2.1⟩
        · exact ⟨(findOrCreateAccount
              (findOrCreateAccount st (merchantCriteria merchantId currency)).2
              (cashCriteria currency)).1,
            s2.2.2.1, by rw [h], by rw [h]; exact s2.2.1⟩

theorem buildEntries_state (cfg : LedgerConfig) (eventType : String)
    (p : Payload) (st : LedgerState) :
    buildStep st (buildEntries cfg eventType p st).2 ∧
    (WF st → WF (buildEntries cfg eventType p st).2) ∧
    ∀ ps, (buildEntries cfg eventType p st).1 = Except.ok ps →
      ∀ pe ∈ ps, ∃ a, a ∈ (buildEntries cfg eventType p st).2.accounts ∧
        a.account_id = pe.account_id ∧ a.currency = pe.currency := by
  unfold buildEntries
  split
  · exact capturedEntries_state cfg p st
  · exact refundedEntries_state p st
  · exact partialRefundEntries_state p st
  · exact ⟨buildStep_refl st, fun h => h, fun ps hps => absurd hps (by simp)⟩

theorem markAll_nil (l : List LedgerEntry) : markAll l [] = l := by
  unfold markAll
  simp

theorem markReversed_eq_markAll (l : List LedgerEntry) (entryId : Nat) :
    markReversed l entryId = markAll l [entryId] := by
  unfold markReversed markAll
  induction l with
  | nil => rfl
  | cons e rest ih =>
      simp only [List.map_cons, List.cons.injEq]
      refine ⟨?_, ih⟩
      by_cases h : e.entry_id = entryId
      · simp [h]
      · simp [h, Ne.symm h]

theorem markAll_markAll (l : List LedgerEntry) (ids1 ids2 : List Nat) :
    markAll (markAll l ids1) ids2 = markAll l (ids1 ++ ids2) := by
  unfold markAll
  rw [List.map_map]
  induction l with
  | nil => rfl
  | cons e rest ih =>
      simp only [List.map_cons, List.cons.injEq]
      refine ⟨?_, ih⟩
      by_cases h1 : e.entry_id ∈ ids1
      · by_cases h2 : e.entry_id ∈ ids2 <;>
          simp [Function.comp, h1, h2, List.mem_append]
      · by_cases h2 : e.entry_id ∈ ids2 <;>
          simp [Function.comp, h1, h2, List.mem_append]

theorem markAll_account_ids {l : List LedgerEntry} {ids : List Nat}
    {e : LedgerEntry} (he : e ∈ markAll l ids) :
    ∃ e0 ∈ l, e.account_id = e0.account_id := by
  unfold markAll at he
  obtain ⟨e0, he0, heq⟩ := List.mem_map.mp he
  refine ⟨e0, he0, ?_⟩
  rw [← heq]
  by_cases h : e0.entry_id ∈ ids
  · rw [if_pos h]
  · rw [if_neg h]

theorem WF_markAll {st : LedgerState} (hwf : WF st) (ids : List Nat) {n : Nat}
    (hn : st.nextId ≤ n) :
    WF { accounts := st.accounts, entries := markAll st.entries ids,
         nextId := n } := by
  obtain ⟨hpair, haid, heid, hbal⟩ := hwf
  refine ⟨hpair, fun a ha => Nat.lt_of_lt_of_le (haid a ha) hn, ?_, ?_⟩
  · intro e he
    obtain ⟨e0, he0, heq⟩ := markAll_account_ids he
    rw [heq]
    exact Nat.lt_of_lt_of_le (heid e0 he0) hn
  · intro a ha
    rw [show acctSum (markAll st.entries ids) a = acctSum st.entries a from
      acctSum_markAll st.entries ids a]
    exact hbal a ha

theorem buildReversalEntries_ok : ∀ (originals : List LedgerEntry)
    (cfg : LedgerConfig) (st : LedgerState) (rgid : Nat)
    {res : List LedgerEntry} {st1 : LedgerState},
    buildReversalEntries cfg st rgid originals = (Except.ok res, st1) →
    st1.accounts = st.accounts ∧
    st1.entries = markAll st.entries (originals.map (fun e => e.entry_id)) ∧
    List.Forall₂ (fun oe re =>
      re.entry_type = flipType oe.entry_type ∧
      re.amount = reversalAmountOf cfg st oe ∧
      re.isReversal = true ∧ re.originalEntryId = some oe.entry_id ∧
      re.entryGroupId = rgid ∧ re.account_id = oe.account_id ∧
      ∃ a, findAccount st.accounts re.account_id = some a ∧
        a.currency = re.currency) originals res := by
  intro originals
  induction originals with
  | nil =>
      intro cfg st rgid res st1 h
      unfold buildReversalEntries at h
      simp only [Prod.mk.injEq, Except.ok.injEq] at h
      rw [← h.1, ← h.2]
      exact ⟨rfl, (markAll_nil st.entries).symm, List.Forall₂.nil⟩
  | cons oe rest ih =>
      intro cfg st rgid res st1 h
      unfold buildReversalEntries at h
      split at h
      next hfa => exact absurd h (by simp)
      next account hfa =>
        split at h
        next e2 hconv => exact absurd h (by simp)
        next rAmt rCur mRate hconv =>
          split at h
          next => exact absurd h (by simp)
          next res2 st2 hrec =>
            simp only [Prod.mk.injEq, Except.ok.injEq] at h
            obtain ⟨hres, hst1⟩ := h
            obtain ⟨hacc2, hent2, hrel2⟩ := ih cfg _ rgid hrec
            subst hst1
            refine ⟨hacc2, ?_, ?_⟩
            · rw [hent2]
              show markAll (markReversed st.entries oe.entry_id) _ = _
              rw [markReversed_eq_markAll, markAll_markAll]
              rfl
            · rw [← hres]
              have hfields : rAmt = reversalAmountOf cfg st oe ∧
                  rCur = account.currency := by
                unfold reversalConversion at hconv
                by_cases hcur : account.currency ≠ oe.currency
                · rw [if_pos hcur] at hconv
                  cases hr : getExchangeRate cfg oe.currency account.currency with
                  | error e3 =>
                      rw [hr] at hconv
                      exact absurd hconv (by simp)
                  | ok r =>
                      rw [hr] at hconv
                      simp only [Except.ok.injEq, Prod.mk.injEq] at hconv
                      refine ⟨?_, hconv.2.1.symm⟩
                      simp only [reversalAmountOf, hfa]
                      rw [if_pos hcur, hr]
                      exact hconv.1.symm
                · rw [if_neg hcur] at hconv
                  simp only [Except.ok.injEq, Prod.mk.injEq] at hconv
                  push_neg at hcur
                  refine ⟨?_, ?_⟩
                  · simp only [reversalAmountOf, hfa]
                    rw [if_neg (by simp [hcur])]
                    exact hconv.1.symm
                  · rw [← hconv.2.1, hcur]
              refine List.Forall₂.cons ⟨rfl, hfields.1, rfl, rfl, rfl, rfl,
                account, hfa, hfields.2.symm⟩ ?_
              exact hrel2

theorem buildReversalEntries_success : ∀ (originals : List LedgerEntry)
    (cfg : LedgerConfig) (st : LedgerState) (rgid : Nat),
    (∀ oe ∈ originals, ∃ a, findAccount st.accounts oe.account_id = some a ∧
      (a.currency = oe.currency ∨
        ∃ r, getExchangeRate cfg oe.currency a.currency = Except.ok r)) →
    ∃ res st1,
      buildReversalEntries cfg st rgid originals = (Except.ok res, st1) := by
  intro originals
  induction originals with
  | nil =>
      intro cfg st rgid _
      exact ⟨[], st, rfl⟩
  | cons oe rest ih =>
      intro cfg st rgid hpre
      obtain ⟨a, hfa, hca⟩ := hpre oe (List.mem_cons_self _ _)
      have hconv : ∃ rAmt rCur mRate, reversalConversion cfg a oe =
          Except.ok (rAmt, rCur, mRate) := by
        unfold reversalConversion
        by_cases hcur : a.currency ≠ oe.currency
        · rcases hca with hc | ⟨r, hr⟩
          · exact absurd hc hcur
          · rw [if_pos hcur, hr]
            exact ⟨_, _, _, rfl⟩
        · rw [if_neg hcur]
          exact ⟨_, _, _, rfl⟩
      obtain ⟨rAmt, rCur, mRate, hconv⟩ := hconv
      obtain ⟨res2, st2, hrec⟩ := ih cfg
        { st with
          nextId := st.nextId + 1
          entries := markReversed st.entries oe.entry_id }
        rgid
        (fun oe2 hoe2 => hpre oe2 (List.mem_cons_of_mem _ hoe2))
      refine ⟨reversalEntryOf oe st.nextId rgid rAmt rCur mRate :: res2, st2,
        ?_⟩
      unfold buildReversalEntries
      rw [hfa]
      dsimp only
      rw [hconv]
      dsimp only
      rw [hrec]

theorem forall₂_mem_right {α β : Type} {R : α → β → Prop} :
    ∀ {l1 : List α} {l2 : List β}, List.Forall₂ R l1 l2 →
      ∀ b ∈ l2, ∃ a ∈ l1, R a b := by
  intro l1 l2 h
  induction h with
  | nil => simp
  | cons hr ht ih =>
      intro b hb
      rcases List.mem_cons.mp hb with h2 | h2
      · exact ⟨_, List.mem_cons_self _ _, h2 ▸ hr⟩
      · obtain ⟨a, ha, har⟩ := ih b h2
        exact ⟨a, List.mem_cons_of_mem _ ha, har⟩

theorem WF_fields {A : List Account} {E : List LedgerEntry} {n : Nat}
    {st2 : LedgerState} (h1 : st2.accounts = A) (h2 : st2.entries = E)
    (h3 : st2.nextId = n) (h : WF ⟨A, E, n⟩) : WF st2 := by
  cases st2
  cases h1
  cases h2
  cases h3
  exact h

theorem buildReversalEntries_state : ∀ (originals : List LedgerEntry)
    (cfg : LedgerConfig) (st : LedgerState) (rgid : Nat),
    (buildReversalEntries cfg st rgid originals).2.accounts = st.accounts ∧
    (∃ ids, (buildReversalEntries cfg st rgid originals).2.entries =
      markAll st.entries ids) ∧
    st.nextId ≤ (buildReversalEntries cfg st rgid originals).2.nextId := by
  intro originals
  induction originals with
  | nil =>
      intro cfg st rgid
      exact ⟨rfl, ⟨[], (markAll_nil _).symm⟩, Nat.le_refl _⟩
  | cons oe rest ih =>
      intro cfg st rgid
      cases hfa : findAccount st.accounts oe.account_id with
      | none =>
          have heq : buildReversalEntries cfg st rgid (oe :: rest) =
              (Except.error (LedgerError.accountNotFound oe.account_id), st) := by
            unfold buildReversalEntries
            rw [hfa]
          rw [heq]
          exact ⟨rfl, ⟨[], (markAll_nil _).symm⟩, Nat.le_refl _⟩
      | some account =>
          cases hc : reversalConversion cfg account oe with
          | error e =>
              have heq : buildReversalEntries cfg st rgid (oe :: rest) =
                  (Except.error e, st) := by
                unfold buildReversalEntries
                rw [hfa]
                dsimp only
                rw [hc]
              rw [heq]
              exact ⟨rfl, ⟨[], (markAll_nil _).symm⟩, Nat.le_refl _⟩
          | ok triple =>
              rcases triple with ⟨rAmt, rCur, mRate⟩
              have ihs := ih cfg
                { st with
                  nextId := st.nextId + 1
                  entries := markReversed st.entries oe.entry_id } rgid
              cases hb2 : buildReversalEntries cfg
                  { st with
                    nextId := st.nextId + 1
                    entries := markReversed st.entries oe.entry_id }
                  rgid rest with
              | mk r2 st2 =>
                  rw [hb2] at ihs
                  obtain ⟨hacc, ⟨ids, hent⟩, hnle⟩ := ihs
                  have hfin : ((buildReversalEntries cfg st rgid
                      (oe :: rest)).2 : LedgerState) = st2 := by
                    simp only [buildReversalEntries, hfa, hc, hb2]
                    cases r2 <;> rfl
                  rw [hfin]
                  refine ⟨hacc, ⟨oe.entry_id :: ids, ?_⟩, ?_⟩
                  · rw [hent]
                    show markAll (markReversed st.entries oe.entry_id) ids = _
                    rw [markReversed_eq_markAll, markAll_markAll]
                    rfl
                  · exact Nat.le_trans (Nat.le_succ _) hnle

theorem reverseEntryGroup_WF (cfg : LedgerConfig) (st : LedgerState)
    (gid : Nat) (hwf : WF st) : WF (reverseEntryGroup cfg st gid).2 := by
  cases hemp : (st.entries.filter (fun e => e.entryGroupId == gid)).isEmpty with
  | true =>
      have heq : reverseEntryGroup cfg st gid =
          (Except.error LedgerError.entryGroupNotFound, st) := by
        simp [reverseEntryGroup, hemp]
      rw [heq]
      exact hwf
  | false =>
  cases hrev : (st.entries.filter (fun e => e.entryGroupId == gid)).any
      (fun e => e.isReversed) with
  | true =>
      have heq : reverseEntryGroup cfg st gid =
          (Except.error LedgerError.alreadyReversed, st) := by
        simp [reverseEntryGroup, hemp, hrev]
      rw [heq]
      exact hwf
  | false =>
  have hwf0 : WF ({ st with nextId := st.nextId + 1 } : LedgerState) :=
    WF_nextId_mono hwf (Nat.le_succ _)
  have hbs := buildReversalEntries_state
    (st.entries.filter (fun e => e.entryGroupId == gid)) cfg
    { st with nextId := st.nextId + 1 } st.nextId
  cases hb : buildReversalEntries cfg { st with nextId := st.nextId + 1 }
      st.nextId (st.entries.filter (fun e => e.entryGroupId == gid)) with
  | mk r1 st1 =>
  rw [hb] at hbs
  obtain ⟨hacc, ⟨ids, hent⟩, hnle⟩ := hbs
  have hwf1 : WF st1 :=
    WF_fields hacc hent rfl (WF_markAll hwf0 ids hnle)
  cases r1 with
  | error e =>
      have heq : reverseEntryGroup cfg st gid = (Except.error e, st1) := by
        simp [reverseEntryGroup, hemp, hrev, hb]
      rw [heq]
      exact hwf1
  | ok res =>
      have hok := buildReversalEntries_ok _ cfg _ _ hb
      have hpre : ∀ e ∈ res, ∃ a, findAccount st1.accounts e.account_id =
          some a ∧ a.currency = e.currency := by
        intro e he
        obtain ⟨oe, _, hrel⟩ := forall₂_mem_right hok.2.2 e he
        obtain ⟨a, hfa, hca⟩ := hrel.2.2.2.2.2.2
        refine ⟨a, ?_, hca⟩
        rw [hacc]
        exact hfa
      obtain ⟨st2, hrun, hent2, hnid2, hshape2, hwf2⟩ :=
        persistAndApply_ok res st1 hpre
      have heq : reverseEntryGroup cfg st gid =
          (Except.ok (st.nextId, res), st2) := by
        simp [reverseEntryGroup, hemp, hrev, hb, hrun]
      rw [heq]
      exact hwf2 hwf1

theorem executeActions_WF (cfg : LedgerConfig) (ty : String) (p : Payload)
    (st : LedgerState) (hwf : WF st) : WF (executeActions cfg ty p st).2 := by
  have hwf0 : WF ({ st with nextId := st.nextId + 1 } : LedgerState) :=
    WF_nextId_mono hwf (Nat.le_succ _)
  have hb := buildEntries_state cfg ty p { st with nextId := st.nextId + 1 }
  cases hres : buildEntries cfg ty p { st with nextId := st.nextId + 1 } with
  | mk r1 st1 =>
  rw [hres] at hb
  have hwf1 : WF st1 := hb.2.1 hwf0
  cases r1 with
  | error e =>
      have heq : executeActions cfg ty p st = (Except.error e, st1) := by
        unfold executeActions
        rw [hres]
      rw [heq]
      exact hwf1
  | ok ps =>
      by_cases hgate : |sumProposed EntryType.Debit ps -
          sumProposed EntryType.Credit ps| > balanceTolerance
      · have heq : executeActions cfg ty p st =
            (Except.error LedgerError.imbalance, st1) := by
          unfold executeActions
          rw [hres]
          dsimp only
          rw [if_pos hgate]
        rw [heq]
        exact hwf1
      · have hpre : ∀ pe ∈ ps, ∃ a, findAccount st1.accounts pe.account_id =
            some a ∧ a.currency = pe.currency := by
          intro pe hpe
          obtain ⟨a, ham, haid, hacur⟩ := hb.2.2 ps rfl pe hpe
          refine ⟨a, ?_, hacur⟩
          rw [← haid]
          exact findAccount_of_mem_unique hwf1.1 ham
        obtain ⟨les, st2, hrun, hshape, hwfs, hent, hrel⟩ :=
          saveProposed_success ps st1 st.nextId hpre
        have heq : executeActions cfg ty p st = (Except.ok les, st2) := by
          unfold executeActions
          rw [hres]
          dsimp only
          rw [if_neg hgate, hrun]
        rw [heq]
        exact hwfs hwf1

theorem WF_emptyState : WF emptyState :=
  ⟨List.Pairwise.nil, by simp [emptyState], by simp [emptyState],
    by simp [emptyState]⟩

theorem runOps_WF (cfg : LedgerConfig) : ∀ (ops : List LedgerOp)
    (st : LedgerState), WF st → WF (runOps cfg ops st) := by
  intro ops
  induction ops with
  | nil => exact fun st h => h
  | cons op rest ih =>
      intro st h
      refine ih _ ?_
      cases op with
      | processEvent ty p => exact executeActions_WF cfg ty p st h
      | reverseGroup gid => exact reverseEntryGroup_WF cfg st gid h

theorem getExchangeRate_error_kind {cfg : LedgerConfig} {f t : String}
    {e : LedgerError} (h : getExchangeRate cfg f t = Except.error e) :
    e = LedgerError.exchangeRateUnavailable := by
  unfold getExchangeRate at h
  split at h
  · exact absurd h (by simp)
  · split at h
    · split at h
      · injection h with h2
        exact h2.symm
      · exact absurd h (by simp)
    · injection h with h2
      exact h2.symm

theorem updateAccountBalance_error_kinds {st : LedgerState} {accountId : Nat}
    {ty : EntryType} {amt : Rat} {cur : String} {e : LedgerError}
    (h : updateAccountBalance st accountId ty amt cur = Except.error e) :
    (∃ accountId2, e = LedgerError.accountNotFound accountId2) ∨
    e = LedgerError.currencyMismatch := by
  unfold updateAccountBalance at h
  split at h
  · injection h with h2
    exact Or.inl ⟨accountId, h2.symm⟩
  · split at h
    · injection h with h2
      exact Or.inr h2.symm
    · exact absurd h (by simp)

theorem persistOne_error_kinds {st : LedgerState} {le : LedgerEntry}
    {e : LedgerError} {st2 : LedgerState}
    (h : persistOne st le = (Except.error e, st2)) :
    (∃ accountId2, e = LedgerError.accountNotFound accountId2) ∨
    e = LedgerError.currencyMismatch := by
  unfold persistOne at h
  split at h
  next e2 hup =>
    simp only [Prod.mk.injEq] at h
    injection h.1 with h2
    rw [← h2]
    exact updateAccountBalance_error_kinds hup
  next => exact absurd h (by simp)

theorem saveProposed_error_kinds : ∀ (ps : List ProposedEntry)
    (st : LedgerState) (gid : Nat) {e : LedgerError} {st2 : LedgerState},
    saveProposed st gid ps = (Except.error e, st2) →
    (∃ accountId2, e = LedgerError.accountNotFound accountId2) ∨
    e = LedgerError.currencyMismatch := by
  intro ps
  induction ps with
  | nil =>
      intro st gid e st2 h
      unfold saveProposed at h
      exact absurd h (by simp)
  | cons pe rest ih =>
      intro st gid e st2 h
      unfold saveProposed at h
      split at h
      next stE hstep =>
        simp only [Prod.mk.injEq] at h
        injection h.1 with h2
        rw [← h2]
        exact persistOne_error_kinds hstep
      next st3 hstep =>
        split at h
        next st4 hrec =>
          simp only [Prod.mk.injEq] at h
          injection h.1 with h2
          rw [← h2]
          exact ih _ gid hrec
        next => exact absurd h (by simp)

theorem capturedEntries_error_valid {cfg : LedgerConfig} {st : LedgerState}
    {A F : Rat} {c m : String} {psc : Option String} {po pr : Option Rat}
    (hA0 : A ≠ 0) (hc0 : c ≠ "") (hm0 : m ≠ "") {e : LedgerError}
    {st2 : LedgerState}
    (h : capturedEntries cfg ⟨some A, some c, some m, some F, psc, po, pr⟩ st =
      (Except.error e, st2)) :
    e = LedgerError.exchangeRateUnavailable := by
  have hval : (A == 0 || c == "" || m == "") = false := by
    simp [hA0, hc0, hm0]
  cases psc with
  | none => simp [capturedEntries, hval] at h
  | some sc =>
      cases hsc : (sc == "") with
      | true => simp [capturedEntries, hval, hsc] at h
      | false =>
          cases hsrc : (c == sc) with
          | true => simp [capturedEntries, hval, hsc, hsrc] at h
          | false =>
              cases hr : getExchangeRate cfg c sc with
              | ok r => simp [capturedEntries, hval, hsc, hsrc, hr] at h
              | error e2 =>
                  simp only [capturedEntries, hval, hsc, hsrc, hr,
                    Bool.false_eq_true, if_false, Prod.mk.injEq,
                    Except.error.injEq] at h
                  rw [← h.1]
                  exact getExchangeRate_error_kind hr

/-- C6: `applyEntry` (`updateAccountBalance`) fails with
`CurrencyMismatchError` whenever the account's currency differs from the
entry's currency; otherwise, when the account's nature equals the entry
type the account's balance increases by `amount`, and when they differ the
balance decreases by `amount`. -/
theorem C6_updateAccountBalance_contract (st : LedgerState) (accountId : Nat)
    (ty : EntryType) (amt : Rat) (cur : String) (a : Account)
    (hf : findAccount st.accounts accountId = some a) :
    (a.currency ≠ cur →
      updateAccountBalance st accountId ty amt cur =
        Except.error LedgerError.currencyMismatch) ∧
    (a.currency = cur →
      updateAccountBalance st accountId ty amt cur =
        Except.ok { st with accounts := setBalanceFirst st.accounts accountId (a.balance + (if a.nature == ty then amt else -amt)) } ∧
      ∀ st2, updateAccountBalance st accountId ty amt cur = Except.ok st2 →
        findAccount st2.accounts accountId =
          some { a with balance := a.balance + (if a.nature == ty then amt else -amt) }) := by
  constructor
  · intro hne
    exact updateAccountBalance_mismatch ty amt hf hne
  · intro hc
    refine ⟨updateAccountBalance_ok_of hf hc, ?_⟩
    intro st2 h
    rw [updateAccountBalance_ok_of hf hc] at h
    injection h with h2
    rw [← h2]
    exact findAccount_setBalanceFirst _ hf


theorem C6_witness :
    updateAccountBalance
      { accounts := [{ account_id := 0
                       account_name := "Cash - USD"
                       account_type := "Asset"
                       nature := EntryType.Debit
                       currency := "USD"
                       balance := 10 }]
        entries := []
        nextId := 1 } 0 EntryType.Debit 5 "EUR" =
      Except.error LedgerError.currencyMismatch ∧
    updateAccountBalance
      { accounts := [{ account_id := 0
                       account_name := "Cash - USD"
                       account_type := "Asset"
                       nature := EntryType.Debit
                       currency := "USD"
                       balance := 10 }]
        entries := []
        nextId := 1 } 0 EntryType.Credit 5 "USD" =
      Except.ok
        { accounts := [{ account_id := 0
                         account_name := "Cash - USD"
                         account_type := "Asset"
                         nature := EntryType.Debit
                         currency := "USD"
                         balance := 5 }]
          entries := []
          nextId := 1 } := by
  constructor
  · exact (C6_updateAccountBalance_contract
      { accounts := [{ account_id := 0
                       account_name := "Cash - USD"
                       account_type := "Asset"
                       nature := EntryType.Debit
                       currency := "USD"
                       balance := 10 }]
        entries := []
        nextId := 1 } 0 EntryType.Debit 5 "EUR"
      { account_id := 0
        account_name := "Cash - USD"
        account_type := "Asset"
        nature := EntryType.Debit
        currency := "USD"
        balance := 10 } rfl).1 (by decide)
  · refine ((C6_updateAccountBalance_contract
      { accounts := [{ account_id := 0
                       account_name := "Cash - USD"
                       account_type := "Asset"
                       nature := EntryType.Debit
                       currency := "USD"
                       balance := 10 }]
        entries := []
        nextId := 1 } 0 EntryType.Credit 5 "USD"
      { account_id := 0
        account_name := "Cash - USD"
        account_type := "Asset"
        nature := EntryType.Debit
        currency := "USD"
        balance := 10 } rfl).2 rfl).1.trans ?_
    norm_num [setBalanceFirst]
    rw [if_neg (by intro h; exact EntryType.noConfusion h)]
    norm_num

/-- C7 counterexample: with the rate map `{USD ↦ 1, EUR ↦ 0}`, both
currencies are present in the map, yet `getExchangeRate USD EUR` fails with
the rate-unavailable error instead of returning `rates[EUR]/rates[USD] = 0`,
because the source tests JS falsiness (`!rates[c]`), not presence. -/
theorem C7_counterexample :
    alist.lookup cfgZeroRate.exchange_rates "USD" = some 1 ∧
    alist.lookup cfgZeroRate.exchange_rates "EUR" = some 0 ∧
    getExchangeRate cfgZeroRate "USD" "EUR" =
      Except.error LedgerError.exchangeRateUnavailable ∧
    getExchangeRate cfgZeroRate "USD" "EUR" ≠
      Except.ok ((0 : Rat) / (1 : Rat)) := by
  refine ⟨rfl, rfl, rfl, ?_⟩
  intro h
  rw [show getExchangeRate cfgZeroRate "USD" "EUR" =
    Except.error LedgerError.exchangeRateUnavailable from rfl] at h
  exact Except.noConfusion h

/-- C7 (amended): `rate(from, to)` returns 1 when `from = to`; otherwise,
when both currencies are present in the base-relative multiplier map with
nonzero multipliers, it returns `rates[to] / rates[from]`; it fails with
`ExchangeRateUnavailable` when either currency is absent from the map or
mapped to the falsy multiplier 0; and any two successful opposite rates
multiply to 1. -/
theorem C7_getExchangeRate_contract (cfg : LedgerConfig) (f t : String) :
    (f = t → getExchangeRate cfg f t = Except.ok 1) ∧
    (∀ rf rt : Rat, f ≠ t → alist.lookup cfg.exchange_rates f = some rf →
      alist.lookup cfg.exchange_rates t = some rt → rf ≠ 0 → rt ≠ 0 →
      getExchangeRate cfg f t = Except.ok (rt / rf)) ∧
    (f ≠ t → (alist.lookup cfg.exchange_rates f = none ∨
      alist.lookup cfg.exchange_rates t = none ∨
      alist.lookup cfg.exchange_rates f = some 0 ∨
      alist.lookup cfg.exchange_rates t = some 0) →
      getExchangeRate cfg f t =
        Except.error LedgerError.exchangeRateUnavailable) ∧
    (∀ rab rba : Rat, getExchangeRate cfg f t = Except.ok rab →
      getExchangeRate cfg t f = Except.ok rba → rab * rba = 1) := by
  refine ⟨?_, ?_, ?_, ?_⟩
  · intro h
    simp [getExchangeRate, h]
  · intro rf rt hne hlf hlt hrf hrt
    have hbeq : (f == t) = false := by
      simp [hne]
    simp [getExchangeRate, hbeq, hlf, hlt, hrf, hrt]
  · intro hne hcase
    have hbeq : (f == t) = false := by
      simp [hne]
    rcases hcase with h | h | h | h
    · cases hlt : alist.lookup cfg.exchange_rates t with
      | none => simp [getExchangeRate, hbeq, h, hlt]
      | some rt => simp [getExchangeRate, hbeq, h, hlt]
    · cases hlf : alist.lookup cfg.exchange_rates f with
      | none => simp [getExchangeRate, hbeq, h, hlf]
      | some rf => simp [getExchangeRate, hbeq, h, hlf]
    · cases hlt : alist.lookup cfg.exchange_rates t with
      | none => simp [getExchangeRate, hbeq, h, hlt]
      | some rt => simp [getExchangeRate, hbeq, h, hlt]
    · cases hlf : alist.lookup cfg.exchange_rates f with
      | none => simp [getExchangeRate, hbeq, h, hlf]
      | some rf => simp [getExchangeRate, hbeq, h, hlf]
  · intro rab rba h1 h2
    by_cases hft : f = t
    · subst hft
      simp [getExchangeRate] at h1 h2
      rw [← h1, ← h2]
      norm_num
    · have hbeq : (f == t) = false := by
        simp [hft]
      have hbeq2 : (t == f) = false := by
        simp [Ne.symm hft]
      cases hlf : alist.lookup cfg.exchange_rates f with
      | none => simp [getExchangeRate, hbeq, hlf] at h1
      | some rf =>
        cases hlt : alist.lookup cfg.exchange_rates t with
        | none => simp [getExchangeRate, hbeq, hlf, hlt] at h1
        | some rt =>
          cases hrf : (rf == 0) with
          | true => simp [getExchangeRate, hbeq, hlf, hlt, hrf] at h1
          | false =>
          cases hrt : (rt == 0) with
          | true => simp [getExchangeRate, hbeq, hlf, hlt, hrf, hrt] at h1
          | false =>
          have h1v : rab = rt / rf := by
            simp [getExchangeRate, hbeq, hlf, hlt, hrf, hrt] at h1
            exact h1.symm
          have h2v : rba = rf / rt := by
            simp [getExchangeRate, hbeq2, hlf, hlt, hrf, hrt] at h2
            exact h2.symm
          rw [beq_eq_false_iff_ne] at hrf hrt
          rw [h1v, h2v, div_mul_div_comm, mul_comm]
          exact div_self (mul_ne_zero hrf hrt)

theorem C7_witness :
    getExchangeRate defaultConfig "USD" "USD" = Except.ok 1 ∧
    getExchangeRate defaultConfig "USD" "EUR" =
      Except.ok ((92/100 : Rat) / (1 : Rat)) ∧
    getExchangeRate defaultConfig "GBP" "GBP" = Except.ok 1 := by
  refine ⟨(C7_getExchangeRate_contract defaultConfig "USD" "USD").1 rfl,
    (C7_getExchangeRate_contract defaultConfig "USD" "EUR").2.1 1 (92/100)
      (by decide) rfl rfl (by norm_num) (by norm_num),
    (C7_getExchangeRate_contract defaultConfig "GBP" "GBP").1 rfl⟩

theorem findOrCreateAccount_found {st : LedgerState} {c : AccountCriteria}
    {a : Account} (hacct : findOrCreateAccount st c = (a, st)) :
    st.accounts.find? (fun b => b.account_name == c.account_name &&
      b.currency == c.currency) = some a := by
  cases h : st.accounts.find? (fun b => b.account_name == c.account_name &&
      b.currency == c.currency) with
  | some b =>
      unfold findOrCreateAccount at hacct
      rw [h] at hacct
      simp only [Prod.mk.injEq] at hacct
      rw [hacct.1]
  | none =>
      unfold findOrCreateAccount at hacct
      rw [h] at hacct
      simp only [Prod.mk.injEq] at hacct
      have hlen := congrArg (fun q : LedgerState => q.accounts.length) hacct.2
      simp only [List.length_append, List.length_singleton] at hlen
      exfalso
      omega

/-- C5: a `PaymentRefunded` event with all required fields whose Merchant
Payable account holds less than the refund amount fails with the
insufficient-funds error, creates no ledger entries, changes no account
balance, and persists nothing. -/
theorem C5_refund_insufficient_funds (cfg : LedgerConfig) (p : Payload)
    (st : LedgerState) (amount : Rat) (currency merchantId : String)
    (a : Account)
    (hA : p.amount = some amount) (hA0 : amount ≠ 0)
    (hC : p.currency = some currency) (hC0 : currency ≠ "")
    (hM : p.merchantId = some merchantId) (hM0 : merchantId ≠ "")
    (hacct : findOrCreateAccount st (merchantCriteria merchantId currency) =
      (a, st))
    (hbal : a.balance < amount) :
    ∃ stF, executeActions cfg "PaymentRefunded" p st =
      (Except.error LedgerError.insufficientFunds, stF) ∧
      stF.accounts = st.accounts ∧ stF.entries = st.entries := by
  rcases p with ⟨pa, pc, pm, pf, psc, po, pr⟩
  simp only [Payload.mk.injEq] at hA hC hM
  cases hA
  cases hC
  cases hM
  have hval : (amount == 0 || currency == "" || merchantId == "") = false := by
    simp [hA0, hC0, hM0]
  have hfind := findOrCreateAccount_found hacct
  have hfind0 : (({ st with nextId := st.nextId + 1 } : LedgerState).accounts.find?
      (fun b => b.account_name ==
        (merchantCriteria merchantId currency).account_name &&
        b.currency == (merchantCriteria merchantId currency).currency)) =
      some a := hfind
  have heq : refundedEntries
      ⟨some amount, some currency, some merchantId, pf, psc, po, pr⟩
      { st with nextId := st.nextId + 1 } =
      (Except.error LedgerError.insufficientFunds,
       { st with nextId := st.nextId + 1 }) := by
    simp [refundedEntries, hval, findOrCreateAccount, hfind0, hbal]
  have hb : buildEntries cfg "PaymentRefunded"
      ⟨some amount, some currency, some merchantId, pf, psc, po, pr⟩
      { st with nextId := st.nextId + 1 } =
      (Except.error LedgerError.insufficientFunds,
       { st with nextId := st.nextId + 1 }) := heq
  have hexe : executeActions cfg "PaymentRefunded"
      ⟨some amount, some currency, some merchantId, pf, psc, po, pr⟩ st =
      (Except.error LedgerError.insufficientFunds,
       { st with nextId := st.nextId + 1 }) := by
    unfold executeActions
    rw [hb]
  exact ⟨_, hexe, rfl, rfl⟩

theorem C5_witness :
    ∃ stF, executeActions defaultConfig "PaymentRefunded"
      { amount := some 50, currency := some "USD", merchantId := some "M1",
        transactionFee := none, settlementCurrency := none,
        originalAmount := none, refundAmount := none }
      { accounts := [{ account_id := 0
                       account_name := "Merchant Payable - M1"
                       account_type := "Liability"
                       nature := EntryType.Credit
                       currency := "USD"
                       balance := 30 }]
        entries := []
        nextId := 1 } =
      (Except.error LedgerError.insufficientFunds, stF) ∧
      stF.accounts = [{ account_id := 0
                        account_name := "Merchant Payable - M1"
                        account_type := "Liability"
                        nature := EntryType.Credit
                        currency := "USD"
                        balance := 30 }] ∧
      stF.entries = [] := by
  exact C5_refund_insufficient_funds defaultConfig _ _ 50 "USD" "M1"
    { account_id := 0
      account_name := "Merchant Payable - M1"
      account_type := "Liability"
      nature := EntryType.Credit
      currency := "USD"
      balance := 30 }
    rfl (by norm_num) rfl (by decide) rfl (by decide) rfl (by norm_num)

/-- C9: a `PaymentPartiallyRefunded` event with all required fields and a
refund amount not exceeding the original fails with the insufficient-funds
error and emits no entries when the Merchant Payable account holds less
than the refund amount — the same precondition the full-refund rule has,
though the specification states it only for full refunds. -/
theorem C9_partial_refund_insufficient_funds (cfg : LedgerConfig)
    (p : Payload) (st : LedgerState) (originalAmount refundAmount : Rat)
    (currency merchantId : String) (a : Account)
    (hO : p.originalAmount = some originalAmount) (hO0 : originalAmount ≠ 0)
    (hR : p.refundAmount = some refundAmount) (hR0 : refundAmount ≠ 0)
    (hC : p.currency = some currency) (hC0 : currency ≠ "")
    (hM : p.merchantId = some merchantId) (hM0 : merchantId ≠ "")
    (hle : refundAmount ≤ originalAmount)
    (hacct : findOrCreateAccount st (merchantCriteria merchantId currency) =
      (a, st))
    (hbal : a.balance < refundAmount) :
    ∃ stF, executeActions cfg "PaymentPartiallyRefunded" p st =
      (Except.error LedgerError.insufficientFunds, stF) ∧
      stF.accounts = st.accounts ∧ stF.entries = st.entries := by
  rcases p with ⟨pa, pc, pm, pf, psc, po, pr⟩
  simp only [Payload.mk.injEq] at hO hR hC hM
  cases hO
  cases hR
  cases hC
  cases hM
  have hval : (originalAmount == 0 || refundAmount == 0 || currency == "" ||
      merchantId == "") = false := by
    simp [hO0, hR0, hC0, hM0]
  have hex : ¬ refundAmount > originalAmount := not_lt.mpr hle
  have hfind := findOrCreateAccount_found hacct
  have hfind0 : (({ st with nextId := st.nextId + 1 } : LedgerState).accounts.find?
      (fun b => b.account_name ==
        (merchantCriteria merchantId currency).account_name &&
        b.currency == (merchantCriteria merchantId currency).currency)) =
      some a := hfind
  have heq : partialRefundEntries
      ⟨pa, some currency, some merchantId, pf, psc, some originalAmount,
        some refundAmount⟩ { st with nextId := st.nextId + 1 } =
      (Except.error LedgerError.insufficientFunds,
       { st with nextId := st.nextId + 1 }) := by
    simp [partialRefundEntries, hval, hex, findOrCreateAccount, hfind0, hbal]
  have hb : buildEntries cfg "PaymentPartiallyRefunded"
      ⟨pa, some currency, some merchantId, pf, psc, some originalAmount,
        some refundAmount⟩ { st with nextId := st.nextId + 1 } =
      (Except.error LedgerError.insufficientFunds,
       { st with nextId := st.nextId + 1 }) := heq
  have hexe : executeActions cfg "PaymentPartiallyRefunded"
      ⟨pa, some currency, some merchantId, pf, psc, some originalAmount,
        some refundAmount⟩ st =
      (Except.error LedgerError.insufficientFunds,
       { st with nextId := st.nextId + 1 }) := by
    unfold executeActions
    rw [hb]
  exact ⟨_, hexe, rfl, rfl⟩

theorem C9_witness :
    ∃ stF, executeActions defaultConfig "PaymentPartiallyRefunded"
      { amount := none, currency := some "USD", merchantId := some "M1",
        transactionFee := none, settlementCurrency := none,
        originalAmount := some 100, refundAmount := some 50 }
      { accounts := [{ account_id := 0
                       account_name := "Merchant Payable - M1"
                       account_type := "Liability"
                       nature := EntryType.Credit
                       currency := "USD"
                       balance := 30 }]
        entries := []
        nextId := 1 } =
      (Except.error LedgerError.insufficientFunds, stF) ∧
      stF.accounts = [{ account_id := 0
                        account_name := "Merchant Payable - M1"
                        account_type := "Liability"
                        nature := EntryType.Credit
                        currency := "USD"
                        balance := 30 }] ∧
      stF.entries = [] := by
  exact C9_partial_refund_insufficient_funds defaultConfig _ _ 100 50 "USD"
    "M1"
    { account_id := 0
      account_name := "Merchant Payable - M1"
      account_type := "Liability"
      nature := EntryType.Credit
      currency := "USD"
      balance := 30 }
    rfl (by norm_num) rfl (by norm_num) rfl (by decide) rfl (by decide)
    (by norm_num) rfl (by norm_num)

/-- C10: the required-field validation of `PaymentCaptured` tests JS
falsiness, not presence: a payload with `amount = 0`, or with an
empty-string `currency` or `merchantId`, is rejected with the
missing-required-fields error even though the field is present, while
`transactionFee = 0` is accepted because that field alone is compared
against `undefined`. -/
theorem C10_falsiness_validation (cfg : LedgerConfig) (p : Payload)
    (st : LedgerState) :
    (p.amount = some 0 →
      executeActions cfg "PaymentCaptured" p st =
        (Except.error LedgerError.missingFields,
         { st with nextId := st.nextId + 1 })) ∧
    (p.currency = some "" →
      executeActions cfg "PaymentCaptured" p st =
        (Except.error LedgerError.missingFields,
         { st with nextId := st.nextId + 1 })) ∧
    (p.merchantId = some "" →
      executeActions cfg "PaymentCaptured" p st =
        (Except.error LedgerError.missingFields,
         { st with nextId := st.nextId + 1 })) ∧
    (∀ amount : Rat, ∀ currency merchantId : String,
      p.transactionFee = some 0 → p.amount = some amount → amount ≠ 0 →
      p.currency = some currency → currency ≠ "" →
      p.merchantId = some merchantId → merchantId ≠ "" →
      ∀ e st2, executeActions cfg "PaymentCaptured" p st =
        (Except.error e, st2) → e ≠ LedgerError.missingFields) := by
  rcases p with ⟨pa, pc, pm, pf, psc, po, pr⟩
  refine ⟨?_, ?_, ?_, ?_⟩
  · intro h
    simp only [Payload.mk.injEq] at h
    cases h
    have hcap : capturedEntries cfg ⟨some 0, pc, pm, pf, psc, po, pr⟩
        { st with nextId := st.nextId + 1 } =
        (Except.error LedgerError.missingFields,
         { st with nextId := st.nextId + 1 }) := by
      cases pc <;> cases pm <;> cases pf <;> simp [capturedEntries]
    have hb : buildEntries cfg "PaymentCaptured"
        ⟨some 0, pc, pm, pf, psc, po, pr⟩
        { st with nextId := st.nextId + 1 } =
        (Except.error LedgerError.missingFields,
         { st with nextId := st.nextId + 1 }) := hcap
    unfold executeActions
    rw [hb]
  · intro h
    simp only [Payload.mk.injEq] at h
    cases h
    have hcap : capturedEntries cfg ⟨pa, some "", pm, pf, psc, po, pr⟩
        { st with nextId := st.nextId + 1 } =
        (Except.error LedgerError.missingFields,
         { st with nextId := st.nextId + 1 }) := by
      cases pa <;> cases pm <;> cases pf <;> simp [capturedEntries]
    have hb : buildEntries cfg "PaymentCaptured"
        ⟨pa, some "", pm, pf, psc, po, pr⟩
        { st with nextId := st.nextId + 1 } =
        (Except.error LedgerError.missingFields,
         { st with nextId := st.nextId + 1 }) := hcap
    unfold executeActions
    rw [hb]
  · intro h
    simp only [Payload.mk.injEq] at h
    cases h
    have hcap : capturedEntries cfg ⟨pa, pc, some "", pf, psc, po, pr⟩
        { st with nextId := st.nextId + 1 } =
        (Except.error LedgerError.missingFields,
         { st with nextId := st.nextId + 1 }) := by
      cases pa <;> cases pc <;> cases pf <;> simp [capturedEntries]
    have hb : buildEntries cfg "PaymentCaptured"
        ⟨pa, pc, some "", pf, psc, po, pr⟩
        { st with nextId := st.nextId + 1 } =
        (Except.error LedgerError.missingFields,
         { st with nextId := st.nextId + 1 }) := hcap
    unfold executeActions
    rw [hb]
  · intro amount currency merchantId hfee hA hA0 hC hC0 hM hM0 e st2 hrun
    simp only [Payload.mk.injEq] at hfee hA hC hM
    cases hfee
    cases hA
    cases hC
    cases hM
    intro hmf
    cases hmf
    unfold executeActions at hrun
    split at hrun
    next e2 st1 hbe =>
      have hcap : capturedEntries cfg
          ⟨some amount, some currency, some merchantId, some 0, psc, po, pr⟩
          { st with nextId := st.nextId + 1 } = (Except.error e2, st1) := hbe
      have := capturedEntries_error_valid hA0 hC0 hM0 hcap
      simp only [Prod.mk.injEq] at hrun
      injection hrun.1 with h2
      rw [h2] at this
      exact LedgerError.noConfusion this
    next ps st1 hbe =>
      split at hrun
      · simp only [Prod.mk.injEq] at hrun
        injection hrun.1 with h2
        exact LedgerError.noConfusion h2
      · rcases saveProposed_error_kinds ps st1 st.nextId hrun with ⟨id2, h2⟩ | h2
        · exact LedgerError.noConfusion h2
        · exact LedgerError.noConfusion h2

theorem C10_witness :
    executeActions defaultConfig "PaymentCaptured"
      { amount := some 0, currency := some "USD", merchantId := some "M1",
        transactionFee := some (29/10), settlementCurrency := none,
        originalAmount := none, refundAmount := none } emptyState =
      (Except.error LedgerError.missingFields,
       { emptyState with nextId := emptyState.nextId + 1 }) ∧
    executeActions defaultConfig "PaymentCaptured"
      { amount := some 100, currency := some "", merchantId := some "M1",
        transactionFee := some (29/10), settlementCurrency := none,
        originalAmount := none, refundAmount := none } emptyState =
      (Except.error LedgerError.missingFields,
       { emptyState with nextId := emptyState.nextId + 1 }) := by
  exact ⟨(C10_falsiness_validation defaultConfig _ emptyState).1 rfl,
    (C10_falsiness_validation defaultConfig _ emptyState).2.1 rfl⟩

theorem findAccount_setBalanceFirst_ne {i j : Nat} (hne : j ≠ i) :
    ∀ (l : List Account) (v : Rat),
    findAccount (setBalanceFirst l i v) j = findAccount l j := by
  intro l v
  induction l with
  | nil => rfl
  | cons x rest ih =>
      unfold setBalanceFirst
      by_cases hid : (x.account_id == i) = true
      · rw [if_pos hid, findAccount_cons, findAccount_cons]
        have hxj : (x.account_id == j) = false := by
          rw [beq_eq_false_iff_ne]
          rw [beq_iff_eq] at hid
          rw [hid]
          exact fun h => hne h.symm
        rw [hxj]
        simp
      · rw [if_neg hid, findAccount_cons, findAccount_cons]
        by_cases hxj : (x.account_id == j) = true
        · rw [if_pos hxj, if_pos hxj]
        · rw [if_neg hxj, if_neg hxj]
          exact ih

/-- C8: (a) a successful `applyEntry` (`updateAccountBalance`, lines
157-177) touches no other account: the stored entries are unchanged and
looking up any other account id afterwards returns exactly the record it
returned before; (b) after any sequence of event postings and reversals
starting from the empty storage, every account's balance equals the exact
signed sum of the entries posted against it — adding the amount when the
entry type equals the account's nature and subtracting it otherwise. -/
theorem C8_isolation_and_signed_sums :
    (∀ (st st' : LedgerState) (accountId : Nat) (ty : EntryType)
        (amt : Rat) (cur : String),
        updateAccountBalance st accountId ty amt cur = Except.ok st' →
        st'.entries = st.entries ∧
        ∀ otherId, otherId ≠ accountId →
          findAccount st'.accounts otherId =
            findAccount st.accounts otherId) ∧
    (∀ (cfg : LedgerConfig) (ops : List LedgerOp),
        ∀ a ∈ (runOps cfg ops emptyState).accounts,
          a.balance = acctSum (runOps cfg ops emptyState).entries a) := by
  constructor
  · intro st st' accountId ty amt cur h
    obtain ⟨he, _, a, _, _, hacc⟩ := updateAccountBalance_ok_state h
    refine ⟨he, fun otherId hne => ?_⟩
    rw [hacc]
    exact findAccount_setBalanceFirst_ne hne st.accounts _
  · intro cfg ops
    exact (runOps_WF cfg ops emptyState WF_emptyState).2.2.2

theorem C8_witness :
    updateAccountBalance c8State 1 EntryType.Debit 5 "USD" =
        Except.ok c8Updated ∧
    findAccount c8Updated.accounts 2 = findAccount c8State.accounts 2 ∧
    runOps defaultConfig c8Ops emptyState = c8State ∧
    ∀ a ∈ c8State.accounts, a.balance = acctSum c8State.entries a := by
  have hupd : updateAccountBalance c8State 1 EntryType.Debit 5 "USD" =
      Except.ok c8Updated := by
    norm_num +decide [show (EntryType.Debit == EntryType.Debit) = true from rfl,
      show ((1:Nat) == 1) = true from rfl,
      updateAccountBalance, findAccount, setBalanceFirst, c8State, c8Updated,
      List.find?]
  have hrun : runOps defaultConfig c8Ops emptyState = c8State := by
    norm_num +decide [show (EntryType.Debit == EntryType.Debit) = true from rfl,
      show (EntryType.Debit == EntryType.Credit) = false from rfl,
      show (EntryType.Credit == EntryType.Debit) = false from rfl,
      show (EntryType.Credit == EntryType.Credit) = true from rfl,
      show "Cash - " ++ "USD" = "Cash - USD" from rfl,
      show "Merchant Payable - " ++ "M1" = "Merchant Payable - M1" from rfl,
      show ("Cash - USD" == "Cash - USD") = true from rfl,
      show ("Cash - USD" == "Merchant Payable - M1") = false from rfl,
      show ("Cash - USD" == "Transaction Fee Revenue") = false from rfl,
      show ("Cash - USD" == "FX Fee Revenue") = false from rfl,
      show ("Merchant Payable - M1" == "Cash - USD") = false from rfl,
      show ("Merchant Payable - M1" == "Merchant Payable - M1") = true from rfl,
      show ("Merchant Payable - M1" == "Transaction Fee Revenue") = false from rfl,
      show ("Merchant Payable - M1" == "FX Fee Revenue") = false from rfl,
      show ("Transaction Fee Revenue" == "Cash - USD") = false from rfl,
      show ("Transaction Fee Revenue" == "Merchant Payable - M1") = false from rfl,
      show ("Transaction Fee Revenue" == "Transaction Fee Revenue") = true from rfl,
      show ("Transaction Fee Revenue" == "FX Fee Revenue") = false from rfl,
      show ("FX Fee Revenue" == "Cash - USD") = false from rfl,
      show ("FX Fee Revenue" == "Merchant Payable - M1") = false from rfl,
      show ("FX Fee Revenue" == "Transaction Fee Revenue") = false from rfl,
      show ("FX Fee Revenue" == "FX Fee Revenue") = true from rfl,
      show ("USD" == "USD") = true from rfl,
      show ((0:Nat) == 0) = true from rfl,
      show ((0:Nat) == 1) = false from rfl,
      show ((0:Nat) == 2) = false from rfl,
      show ((0:Nat) == 3) = false from rfl,
      show ((1:Nat) == 0) = false from rfl,
      show ((1:Nat) == 1) = true from rfl,
      show ((1:Nat) == 2) = false from rfl,
      show ((1:Nat) == 3) = false from rfl,
      show ((2:Nat) == 0) = false from rfl,
      show ((2:Nat) == 1) = false from rfl,
      show ((2:Nat) == 2) = true from rfl,
      show ((2:Nat) == 3) = false from rfl,
      show ((3:Nat) == 0) = false from rfl,
      show ((3:Nat) == 1) = false from rfl,
      show ((3:Nat) == 2) = false from rfl,
      show ((3:Nat) == 3) = true from rfl,
      runOps, runOp, executeActions, buildEntries, capturedEntries,
      capturedBuild, findOrCreateAccount, saveProposed, persistOne,
      updateAccountBalance, findAccount, setBalanceFirst, proposedToEntry,
      sumProposed, balanceTolerance, emptyState, defaultConfig, cashCriteria,
      merchantCriteria, feeCriteria, fxCriteria, List.find?, List.filter,
      fxFeeRate, fxFeeLookup, alist.lookup, getExchangeRate, c8Ops, c8Payload,
      c8State]
  refine ⟨hupd,
    (C8_isolation_and_signed_sums.1 _ _ _ _ _ _ hupd).2 2 (by decide),
    hrun, ?_⟩
  have h2 := C8_isolation_and_signed_sums.2 defaultConfig c8Ops
  rw [hrun] at h2
  exact h2

theorem sumProposed_nil (t : EntryType) : sumProposed t [] = 0 := rfl

theorem capturedBuild_sum (cfg : LedgerConfig) (st : LedgerState)
    (sc mid : String) (A F fx : Rat) :
    sumProposed EntryType.Debit (capturedBuild cfg st sc mid A F fx).1 -
      sumProposed EntryType.Credit (capturedBuild cfg st sc mid A F fx).1 =
      (if fx > 0 then 0 else fx) := by
  by_cases hfx : fx > 0
  · rw [if_pos hfx]
    simp [capturedBuild, hfx, sumProposed_cons, sumProposed_nil,
      show (EntryType.Debit == EntryType.Debit) = true from rfl,
      show (EntryType.Debit == EntryType.Credit) = false from rfl,
      show (EntryType.Credit == EntryType.Debit) = false from rfl,
      show (EntryType.Credit == EntryType.Credit) = true from rfl]
    try ring
  · rw [if_neg hfx]
    simp [capturedBuild, hfx, sumProposed_cons, sumProposed_nil,
      show (EntryType.Debit == EntryType.Debit) = true from rfl,
      show (EntryType.Debit == EntryType.Credit) = false from rfl,
      show (EntryType.Credit == EntryType.Debit) = false from rfl,
      show (EntryType.Credit == EntryType.Credit) = true from rfl]
    try ring

theorem capturedEntries_sum (cfg : LedgerConfig) (p : Payload)
    (st : LedgerState) : ∀ {ps : List ProposedEntry} {st1 : LedgerState},
    capturedEntries cfg p st = (Except.ok ps, st1) →
    sumProposed EntryType.Debit ps - sumProposed EntryType.Credit ps =
      (if capturedFx cfg p > 0 then 0 else capturedFx cfg p) := by
  rcases p with ⟨pa, pc, pm, pf, psc, po, pr⟩
  cases pa with
  | none => intro ps st1 h; exact absurd h (by simp [capturedEntries])
  | some amount =>
  cases pc with
  | none => intro ps st1 h; exact absurd h (by simp [capturedEntries])
  | some currency =>
  cases pm with
  | none => intro ps st1 h; exact absurd h (by simp [capturedEntries])
  | some merchantId =>
  cases pf with
  | none => intro ps st1 h; exact absurd h (by simp [capturedEntries])
  | some transactionFee =>
  cases hval : (amount == 0 || currency == "" || merchantId == "") with
  | true =>
      intro ps st1 h
      exact absurd h (by simp [capturedEntries, hval])
  | false =>
  cases psc with
  | none =>
      intro ps st1 h
      have heq : capturedEntries cfg
          ⟨some amount, some currency, some merchantId, some transactionFee,
            none, po, pr⟩ st =
          (Except.ok (capturedBuild cfg st currency merchantId amount
            transactionFee 0).1,
           (capturedBuild cfg st currency merchantId amount
            transactionFee 0).2) := by
        simp [capturedEntries, hval]
      rw [heq] at h
      simp only [Prod.mk.injEq, Except.ok.injEq] at h
      rw [← h.1]
      have hfx0 : capturedFx cfg
          ⟨some amount, some currency, some merchantId, some transactionFee,
            none, po, pr⟩ = 0 := by
        simp [capturedFx]
      rw [hfx0]
      exact capturedBuild_sum cfg st currency merchantId amount transactionFee 0
  | some sc =>
  cases hsc : (sc == "") with
  | true =>
      intro ps st1 h
      have heq : capturedEntries cfg
          ⟨some amount, some currency, some merchantId, some transactionFee,
            some sc, po, pr⟩ st =
          (Except.ok (capturedBuild cfg st currency merchantId amount
            transactionFee 0).1,
           (capturedBuild cfg st currency merchantId amount
            transactionFee 0).2) := by
        simp [capturedEntries, hval, hsc]
      rw [heq] at h
      simp only [Prod.mk.injEq, Except.ok.injEq] at h
      rw [← h.1]
      have hfx0 : capturedFx cfg
          ⟨some amount, some currency, some merchantId, some transactionFee,
            some sc, po, pr⟩ = 0 := by
        simp [capturedFx, hsc]
      rw [hfx0]
      exact capturedBuild_sum cfg st currency merchantId amount transactionFee 0
  | false =>
  cases hsrc : (currency == sc) with
  | true =>
      intro ps st1 h
      have heq : capturedEntries cfg
          ⟨some amount, some currency, some merchantId, some transactionFee,
            some sc, po, pr⟩ st =
          (Except.ok (capturedBuild cfg st sc merchantId amount
            transactionFee 0).1,
           (capturedBuild cfg st sc merchantId amount
            transactionFee 0).2) := by
        simp [capturedEntries, hval, hsc, hsrc]
      rw [heq] at h
      simp only [Prod.mk.injEq, Except.ok.injEq] at h
      rw [← h.1]
      have hfx0 : capturedFx cfg
          ⟨some amount, some currency, some merchantId, some transactionFee,
            some sc, po, pr⟩ = 0 := by
        simp [capturedFx, hsc, hsrc]
      rw [hfx0]
      exact capturedBuild_sum cfg st sc merchantId amount transactionFee 0
  | false =>
  cases hr : getExchangeRate cfg currency sc with
  | error e =>
      intro ps st1 h
      exact absurd h (by simp [capturedEntries, hval, hsc, hsrc, hr])
  | ok r =>
      intro ps st1 h
      have heq : capturedEntries cfg
          ⟨some amount, some currency, some merchantId, some transactionFee,
            some sc, po, pr⟩ st =
          (Except.ok (capturedBuild cfg st sc merchantId (amount * r)
            (transactionFee * r) (amount * fxFeeRate cfg currency sc * r)).1,
           (capturedBuild cfg st sc merchantId (amount * r)
            (transactionFee * r) (amount * fxFeeRate cfg currency sc * r)).2) := by
        simp [capturedEntries, hval, hsc, hsrc, hr]
      rw [heq] at h
      simp only [Prod.mk.injEq, Except.ok.injEq] at h
      rw [← h.1]
      have hfxr : capturedFx cfg
          ⟨some amount, some currency, some merchantId, some transactionFee,
            some sc, po, pr⟩ =
          amount * fxFeeRate cfg currency sc * r := by
        simp [capturedFx, hsc, hsrc, hr]
      rw [hfxr]
      exact capturedBuild_sum cfg st sc merchantId (amount * r)
        (transactionFee * r) (amount * fxFeeRate cfg currency sc * r)

theorem refundedEntries_sum (p : Payload) (st : LedgerState) :
    ∀ {ps : List ProposedEntry} {st1 : LedgerState},
    refundedEntries p st = (Except.ok ps, st1) →
    sumProposed EntryType.Debit ps = sumProposed EntryType.Credit ps := by
  rcases p with ⟨pa, pc, pm, pf, psc, po, pr⟩
  cases pa with
  | none => intro ps st1 h; exact absurd h (by simp [refundedEntries])
  | some amount =>
  cases pc with
  | none => intro ps st1 h; exact absurd h (by simp [refundedEntries])
  | some currency =>
  cases pm with
  | none => intro ps st1 h; exact absurd h (by simp [refundedEntries])
  | some merchantId =>
  cases hval : (amount == 0 || currency == "" || merchantId == "") with
  | true =>
      intro ps st1 h
      exact absurd h (by simp [refundedEntries, hval])
  | false =>
  intro ps st1 h
  by_cases hbal : (findOrCreateAccount st
      (merchantCriteria merchantId currency)).1.balance < amount
  · exact absurd h (by simp [refundedEntries, hval, hbal])
  · have heq : refundedEntries
        ⟨some amount, some currency, some merchantId, pf, psc, po, pr⟩ st =
        (Except.ok
          [{ account_id := (findOrCreateAccount st
               (merchantCriteria merchantId currency)).1.account_id,
             entry_type := EntryType.Debit, amount := amount,
             currency := currency },
           { account_id := (findOrCreateAccount (findOrCreateAccount st
               (merchantCriteria merchantId currency)).2
               (cashCriteria currency)).1.account_id,
             entry_type := EntryType.Credit, amount := amount,
             currency := currency }],
         (findOrCreateAccount (findOrCreateAccount st
           (merchantCriteria merchantId currency)).2
           (cashCriteria currency)).2) := by
      simp [refundedEntries, hval, hbal]
    rw [heq] at h
    simp only [Prod.mk.injEq, Except.ok.injEq] at h
    rw [← h.1]
    simp [sumProposed_cons, sumProposed_nil,
      show (EntryType.Debit == EntryType.Debit) = true from rfl,
      show (EntryType.Debit == EntryType.Credit) = false from rfl,
      show (EntryType.Credit == EntryType.Debit) = false from rfl,
      show (EntryType.Credit == EntryType.Credit) = true from rfl]

theorem partialRefundEntries_sum (p : Payload) (st : LedgerState) :
    ∀ {ps : List ProposedEntry} {st1 : LedgerState},
    partialRefundEntries p st = (Except.ok ps, st1) →
    sumProposed EntryType.Debit ps = sumProposed EntryType.Credit ps := by
  rcases p with ⟨pa, pc, pm, pf, psc, po, pr⟩
  cases po with
  | none => intro ps st1 h; exact absurd h (by simp [partialRefundEntries])
  | some originalAmount =>
  cases pr with
  | none => intro ps st1 h; exact absurd h (by simp [partialRefundEntries])
  | some refundAmount =>
  cases pc with
  | none => intro ps st1 h; exact absurd h (by simp [partialRefundEntries])
  | some currency =>
  cases pm with
  | none => intro ps st1 h; exact absurd h (by simp [partialRefundEntries])
  | some merchantId =>
  cases hval : (originalAmount == 0 || refundAmount == 0 || currency == "" ||
      merchantId == "") with
  | true =>
      intro ps st1 h
      exact absurd h (by simp [partialRefundEntries, hval])
  | false =>
  intro ps st1 h
  by_cases hex : refundAmount > originalAmount
  · exact absurd h (by simp [partialRefundEntries, hval, hex])
  · by_cases hbal : (findOrCreateAccount st
        (merchantCriteria merchantId currency)).1.balance < refundAmount
    · exact absurd h (by simp [partialRefundEntries, hval, hex, hbal])
    · have heq : partialRefundEntries
          ⟨pa, some currency, some merchantId, pf, psc, some originalAmount,
            some refundAmount⟩ st =
          (Except.ok
            [{ account_id := (findOrCreateAccount st
                 (merchantCriteria merchantId currency)).1.account_id,
               entry_type := EntryType.Debit, amount := refundAmount,
               currency := currency },
             { account_id := (findOrCreateAccount (findOrCreateAccount st
                 (merchantCriteria merchantId currency)).2
                 (cashCriteria currency)).1.account_id,
               entry_type := EntryType.Credit, amount := refundAmount,
               currency := currency }],
           (findOrCreateAccount (findOrCreateAccount st
             (merchantCriteria merchantId currency)).2
             (cashCriteria currency)).2) := by
        simp [partialRefundEntries, hval, hex, hbal]
      rw [heq] at h
      simp only [Prod.mk.injEq, Except.ok.injEq] at h
      rw [← h.1]
      simp [sumProposed_cons, sumProposed_nil,
        show (EntryType.Debit == EntryType.Debit) = true from rfl,
        show (EntryType.Debit == EntryType.Credit) = false from rfl,
        show (EntryType.Credit == EntryType.Debit) = false from rfl,
        show (EntryType.Credit == EntryType.Credit) = true from rfl]

/-- C1: (i) any entry set persisted by a successful `executeActions` run
balances within the 0.001 tolerance of the gate
(`Math.abs(totalDebits - totalCredits) > 0.001`); (ii) the three event
builders emit balanced proposals: the refund and partial-refund cases
balance exactly, and the capture case's debit/credit difference is 0
whenever its FX fee is positive (and equals the FX fee otherwise, so it is
0 in particular whenever the FX fee is nonnegative); (iii) whenever the
built proposal does not balance within tolerance, `executeActions` rejects
the whole group with the imbalance error, no entry is persisted and no
existing balance is updated — storage keeps its entries and accounts,
except for accounts freshly created by the build phase, all still at
balance 0. -/
theorem C1_balance_gate :
    (∀ (cfg : LedgerConfig) (ty : String) (p : Payload) (st : LedgerState)
        (les : List LedgerEntry) (st' : LedgerState),
        executeActions cfg ty p st = (Except.ok les, st') →
        |sumEntries EntryType.Debit les - sumEntries EntryType.Credit les| ≤
          balanceTolerance) ∧
    (∀ (cfg : LedgerConfig) (p : Payload) (st : LedgerState)
        (ps : List ProposedEntry) (st1 : LedgerState),
        (capturedEntries cfg p st = (Except.ok ps, st1) →
          sumProposed EntryType.Debit ps - sumProposed EntryType.Credit ps =
            (if capturedFx cfg p > 0 then 0 else capturedFx cfg p)) ∧
        (capturedEntries cfg p st = (Except.ok ps, st1) →
          0 ≤ capturedFx cfg p →
          sumProposed EntryType.Debit ps = sumProposed EntryType.Credit ps) ∧
        (refundedEntries p st = (Except.ok ps, st1) →
          sumProposed EntryType.Debit ps = sumProposed EntryType.Credit ps) ∧
        (partialRefundEntries p st = (Except.ok ps, st1) →
          sumProposed EntryType.Debit ps = sumProposed EntryType.Credit ps)) ∧
    (∀ (cfg : LedgerConfig) (ty : String) (p : Payload) (st : LedgerState)
        (ps : List ProposedEntry) (st1 : LedgerState),
        buildEntries cfg ty p { st with nextId := st.nextId + 1 } =
          (Except.ok ps, st1) →
        |sumProposed EntryType.Debit ps - sumProposed EntryType.Credit ps| >
          balanceTolerance →
        executeActions cfg ty p st =
          (Except.error LedgerError.imbalance, st1) ∧
        st1.entries = st.entries ∧
        ∃ new, st1.accounts = st.accounts ++ new ∧
          ∀ b ∈ new, b.balance = 0) := by
  refine ⟨?_, ?_, ?_⟩
  · intro cfg ty p st les st' h
    unfold executeActions at h
    split at h
    next => exact absurd h (by simp)
    next ps st1 hb =>
      split at h
      next => exact absurd h (by simp)
      next hg =>
        push_neg at hg
        have hshape := saveProposed_shape ps st1 st.nextId h
        have hsum := sum_eq_of_shape hshape
        rw [hsum EntryType.Debit, hsum EntryType.Credit]
        exact hg
  · intro cfg p st ps st1
    refine ⟨fun h => capturedEntries_sum cfg p st h, fun h h0 => ?_,
      fun h => refundedEntries_sum p st h,
      fun h => partialRefundEntries_sum p st h⟩
    have hd := capturedEntries_sum cfg p st h
    by_cases hfx : capturedFx cfg p > 0
    · rw [if_pos hfx] at hd
      linarith
    · rw [if_neg hfx] at hd
      push_neg at hfx
      have : capturedFx cfg p = 0 := le_antisymm hfx h0
      rw [this] at hd
      linarith
  · intro cfg ty p st ps st1 hb hg
    have hstate := buildEntries_state cfg ty p { st with nextId := st.nextId + 1 }
    rw [hb] at hstate
    refine ⟨?_, hstate.1.1, ?_⟩
    · unfold executeActions
      rw [hb]
      dsimp only
      rw [if_pos hg]
    · obtain ⟨new, hnew, hzero⟩ := hstate.1.2.2
      exact ⟨new, hnew, hzero⟩



theorem C1_witness :
    (executeActions defaultConfig "PaymentCaptured" c8Payload emptyState =
        (Except.ok c8State.entries, c8State) ∧
      |sumEntries EntryType.Debit c8State.entries -
          sumEntries EntryType.Credit c8State.entries| ≤ balanceTolerance) ∧
    (capturedEntries defaultConfig c8Payload emptyState =
        (Except.ok
          [{ account_id := 0, entry_type := EntryType.Debit, amount := 100, currency := "USD" },
            { account_id := 1, entry_type := EntryType.Credit, amount := 100, currency := "USD" },
            { account_id := 2, entry_type := EntryType.Credit, amount := 0, currency := "USD" }],
         { accounts := [{ account_id := 0, account_name := "Cash - USD", account_type := "Asset", nature := EntryType.Debit, currency := "USD", balance := 0 },
            { account_id := 1, account_name := "Merchant Payable - M1", account_type := "Liability", nature := EntryType.Credit, currency := "USD", balance := 0 },
            { account_id := 2, account_name := "Transaction Fee Revenue", account_type := "Revenue", nature := EntryType.Credit, currency := "USD", balance := 0 }], entries := [], nextId := 3 }) ∧
      sumProposed EntryType.Debit
          [{ account_id := 0, entry_type := EntryType.Debit, amount := 100, currency := "USD" },
            { account_id := 1, entry_type := EntryType.Credit, amount := 100, currency := "USD" },
            { account_id := 2, entry_type := EntryType.Credit, amount := 0, currency := "USD" }] =
        sumProposed EntryType.Credit
          [{ account_id := 0, entry_type := EntryType.Debit, amount := 100, currency := "USD" },
            { account_id := 1, entry_type := EntryType.Credit, amount := 100, currency := "USD" },
            { account_id := 2, entry_type := EntryType.Credit, amount := 0, currency := "USD" }]) ∧
    (refundedEntries ⟨some 50, some "USD", some "M1", none, none, none, none⟩ c8State =
        (Except.ok
          [{ account_id := 2, entry_type := EntryType.Debit, amount := 50, currency := "USD" },
            { account_id := 1, entry_type := EntryType.Credit, amount := 50, currency := "USD" }], c8State) ∧
      sumProposed EntryType.Debit
          [{ account_id := 2, entry_type := EntryType.Debit, amount := 50, currency := "USD" },
            { account_id := 1, entry_type := EntryType.Credit, amount := 50, currency := "USD" }] =
        sumProposed EntryType.Credit
          [{ account_id := 2, entry_type := EntryType.Debit, amount := 50, currency := "USD" },
            { account_id := 1, entry_type := EntryType.Credit, amount := 50, currency := "USD" }]) ∧
    (partialRefundEntries ⟨none, some "USD", some "M1", none, none, some 100, some 30⟩ c8State =
        (Except.ok
          [{ account_id := 2, entry_type := EntryType.Debit, amount := 30, currency := "USD" },
            { account_id := 1, entry_type := EntryType.Credit, amount := 30, currency := "USD" }], c8State) ∧
      sumProposed EntryType.Debit
          [{ account_id := 2, entry_type := EntryType.Debit, amount := 30, currency := "USD" },
            { account_id := 1, entry_type := EntryType.Credit, amount := 30, currency := "USD" }] =
        sumProposed EntryType.Credit
          [{ account_id := 2, entry_type := EntryType.Debit, amount := 30, currency := "USD" },
            { account_id := 1, entry_type := EntryType.Credit, amount := 30, currency := "USD" }]) ∧
    executeActions defaultConfig "PaymentCaptured"
        ⟨some (-100), some "USD", some "M1", some 0, some "EUR", none, none⟩ emptyState =
      (Except.error LedgerError.imbalance,
       { accounts := [{ account_id := 1, account_name := "Cash - EUR", account_type := "Asset", nature := EntryType.Debit, currency := "EUR", balance := 0 },
            { account_id := 2, account_name := "Merchant Payable - M1", account_type := "Liability", nature := EntryType.Credit, currency := "EUR", balance := 0 },
            { account_id := 3, account_name := "Transaction Fee Revenue", account_type := "Revenue", nature := EntryType.Credit, currency := "EUR", balance := 0 }], entries := [], nextId := 4 }) := by
  have hexec : executeActions defaultConfig "PaymentCaptured" c8Payload
      emptyState = (Except.ok c8State.entries, c8State) := by
    norm_num +decide [show (EntryType.Debit == EntryType.Debit) = true from rfl,
      show (EntryType.Debit == EntryType.Credit) = false from rfl,
      show (EntryType.Credit == EntryType.Debit) = false from rfl,
      show (EntryType.Credit == EntryType.Credit) = true from rfl,
      show "Cash - " ++ "USD" = "Cash - USD" from rfl,
      show "Cash - " ++ "EUR" = "Cash - EUR" from rfl,
      show "Merchant Payable - " ++ "M1" = "Merchant Payable - M1" from rfl,
      show ("Cash - USD" == "Cash - USD") = true from rfl,
      show ("Cash - USD" == "Merchant Payable - M1") = false from rfl,
      show ("Cash - USD" == "Transaction Fee Revenue") = false from rfl,
      show ("Cash - USD" == "FX Fee Revenue") = false from rfl,
      show ("Cash - USD" == "Cash - EUR") = false from rfl,
      show ("Merchant Payable - M1" == "Cash - USD") = false from rfl,
      show ("Merchant Payable - M1" == "Merchant Payable - M1") = true from rfl,
      show ("Merchant Payable - M1" == "Transaction Fee Revenue") = false from rfl,
      show ("Merchant Payable - M1" == "FX Fee Revenue") = false from rfl,
      show ("Merchant Payable - M1" == "Cash - EUR") = false from rfl,
      show ("Transaction Fee Revenue" == "Cash - USD") = false from rfl,
      show ("Transaction Fee Revenue" == "Merchant Payable - M1") = false from rfl,
      show ("Transaction Fee Revenue" == "Transaction Fee Revenue") = true from rfl,
      show ("Transaction Fee Revenue" == "FX Fee Revenue") = false from rfl,
      show ("Transaction Fee Revenue" == "Cash - EUR") = false from rfl,
      show ("FX Fee Revenue" == "Cash - USD") = false from rfl,
      show ("FX Fee Revenue" == "Merchant Payable - M1") = false from rfl,
      show ("FX Fee Revenue" == "Transaction Fee Revenue") = false from rfl,
      show ("FX Fee Revenue" == "FX Fee Revenue") = true from rfl,
      show ("FX Fee Revenue" == "Cash - EUR") = false from rfl,
      show ("Cash - EUR" == "Cash - USD") = false from rfl,
      show ("Cash - EUR" == "Merchant Payable - M1") = false from rfl,
      show ("Cash - EUR" == "Transaction Fee Revenue") = false from rfl,
      show ("Cash - EUR" == "FX Fee Revenue") = false from rfl,
      show ("Cash - EUR" == "Cash - EUR") = true from rfl,
      show ("USD" == "USD") = true from rfl,
      show ("USD" == "EUR") = false from rfl,
      show ("USD" == "GBP") = false from rfl,
      show ("USD" == "") = false from rfl,
      show ("EUR" == "USD") = false from rfl,
      show ("EUR" == "EUR") = true from rfl,
      show ("EUR" == "GBP") = false from rfl,
      show ("EUR" == "") = false from rfl,
      show ("GBP" == "USD") = false from rfl,
      show ("GBP" == "EUR") = false from rfl,
      show ("GBP" == "GBP") = true from rfl,
      show ("GBP" == "") = false from rfl,
      show ("" == "USD") = false from rfl,
      show ("" == "EUR") = false from rfl,
      show ("" == "GBP") = false from rfl,
      show ("" == "") = true from rfl,
      show ((0:Nat) == 0) = true from rfl,
      show ((0:Nat) == 1) = false from rfl,
      show ((0:Nat) == 2) = false from rfl,
      show ((0:Nat) == 3) = false from rfl,
      show ((0:Nat) == 4) = false from rfl,
      show ((0:Nat) == 5) = false from rfl,
      show ((0:Nat) == 6) = false from rfl,
      show ((1:Nat) == 0) = false from rfl,
      show ((1:Nat) == 1) = true from rfl,
      show ((1:Nat) == 2) = false from rfl,
      show ((1:Nat) == 3) = false from rfl,
      show ((1:Nat) == 4) = false from rfl,
      show ((1:Nat) == 5) = false from rfl,
      show ((1:Nat) == 6) = false from rfl,
      show ((2:Nat) == 0) = false from rfl,
      show ((2:Nat) == 1) = false from rfl,
      show ((2:Nat) == 2) = true from rfl,
      show ((2:Nat) == 3) = false from rfl,
      show ((2:Nat) == 4) = false from rfl,
      show ((2:Nat) == 5) = false from rfl,
      show ((2:Nat) == 6) = false from rfl,
      show ((3:Nat) == 0) = false from rfl,
      show ((3:Nat) == 1) = false from rfl,
      show ((3:Nat) == 2) = false from rfl,
      show ((3:Nat) == 3) = true from rfl,
      show ((3:Nat) == 4) = false from rfl,
      show ((3:Nat) == 5) = false from rfl,
      show ((3:Nat) == 6) = false from rfl,
      show ((4:Nat) == 0) = false from rfl,
      show ((4:Nat) == 1) = false from rfl,
      show ((4:Nat) == 2) = false from rfl,
      show ((4:Nat) == 3) = false from rfl,
      show ((4:Nat) == 4) = true from rfl,
      show ((4:Nat) == 5) = false from rfl,
      show ((4:Nat) == 6) = false from rfl,
      show ((5:Nat) == 0) = false from rfl,
      show ((5:Nat) == 1) = false from rfl,
      show ((5:Nat) == 2) = false from rfl,
      show ((5:Nat) == 3) = false from rfl,
      show ((5:Nat) == 4) = false from rfl,
      show ((5:Nat) == 5) = true from rfl,
      show ((5:Nat) == 6) = false from rfl,
      show ((6:Nat) == 0) = false from rfl,
      show ((6:Nat) == 1) = false from rfl,
      show ((6:Nat) == 2) = false from rfl,
      show ((6:Nat) == 3) = false from rfl,
      show ((6:Nat) == 4) = false from rfl,
      show ((6:Nat) == 5) = false from rfl,
      show ((6:Nat) == 6) = true from rfl,
      executeActions, buildEntries, capturedEntries,
      capturedBuild, refundedEntries, partialRefundEntries,
      findOrCreateAccount, saveProposed, persistOne,
      updateAccountBalance, findAccount, setBalanceFirst, proposedToEntry,
      sumProposed, balanceTolerance, emptyState, defaultConfig, cashCriteria,
      merchantCriteria, feeCriteria, fxCriteria, List.find?, List.filter,
      fxFeeRate, fxFeeLookup, alist.lookup, getExchangeRate, c8Payload,
      c8State]
  have hcap : capturedEntries defaultConfig c8Payload emptyState =
      (Except.ok
        [{ account_id := 0, entry_type := EntryType.Debit, amount := 100, currency := "USD" },
            { account_id := 1, entry_type := EntryType.Credit, amount := 100, currency := "USD" },
            { account_id := 2, entry_type := EntryType.Credit, amount := 0, currency := "USD" }],
       { accounts := [{ account_id := 0, account_name := "Cash - USD", account_type := "Asset", nature := EntryType.Debit, currency := "USD", balance := 0 },
            { account_id := 1, account_name := "Merchant Payable - M1", account_type := "Liability", nature := EntryType.Credit, currency := "USD", balance := 0 },
            { account_id := 2, account_name := "Transaction Fee Revenue", account_type := "Revenue", nature := EntryType.Credit, currency := "USD", balance := 0 }], entries := [], nextId := 3 }) := by
    norm_num +decide [show (EntryType.Debit == EntryType.Debit) = true from rfl,
      show (EntryType.Debit == EntryType.Credit) = false from rfl,
      show (EntryType.Credit == EntryType.Debit) = false from rfl,
      show (EntryType.Credit == EntryType.Credit) = true from rfl,
      show "Cash - " ++ "USD" = "Cash - USD" from rfl,
      show "Cash - " ++ "EUR" = "Cash - EUR" from rfl,
      show "Merchant Payable - " ++ "M1" = "Merchant Payable - M1" from rfl,
      show ("Cash - USD" == "Cash - USD") = true from rfl,
      show ("Cash - USD" == "Merchant Payable - M1") = false from rfl,
      show ("Cash - USD" == "Transaction Fee Revenue") = false from rfl,
      show ("Cash - USD" == "FX Fee Revenue") = false from rfl,
      show ("Cash - USD" == "Cash - EUR") = false from rfl,
      show ("Merchant Payable - M1" == "Cash - USD") = false from rfl,
      show ("Merchant Payable - M1" == "Merchant Payable - M1") = true from rfl,
      show ("Merchant Payable - M1" == "Transaction Fee Revenue") = false from rfl,
      show ("Merchant Payable - M1" == "FX Fee Revenue") = false from rfl,
      show ("Merchant Payable - M1" == "Cash - EUR") = false from rfl,
      show ("Transaction Fee Revenue" == "Cash - USD") = false from rfl,
      show ("Transaction Fee Revenue" == "Merchant Payable - M1") = false from rfl,
      show ("Transaction Fee Revenue" == "Transaction Fee Revenue") = true from rfl,
      show ("Transaction Fee Revenue" == "FX Fee Revenue") = false from rfl,
      show ("Transaction Fee Revenue" == "Cash - EUR") = false from rfl,
      show ("FX Fee Revenue" == "Cash - USD") = false from rfl,
      show ("FX Fee Revenue" == "Merchant Payable - M1") = false from rfl,
      show ("FX Fee Revenue" == "Transaction Fee Revenue") = false from rfl,
      show ("FX Fee Revenue" == "FX Fee Revenue") = true from rfl,
      show ("FX Fee Revenue" == "Cash - EUR") = false from rfl,
      show ("Cash - EUR" == "Cash - USD") = false from rfl,
      show ("Cash - EUR" == "Merchant Payable - M1") = false from rfl,
      show ("Cash - EUR" == "Transaction Fee Revenue") = false from rfl,
      show ("Cash - EUR" == "FX Fee Revenue") = false from rfl,
      show ("Cash - EUR" == "Cash - EUR") = true from rfl,
      show ("USD" == "USD") = true from rfl,
      show ("USD" == "EUR") = false from rfl,
      show ("USD" == "GBP") = false from rfl,
      show ("USD" == "") = false from rfl,
      show ("EUR" == "USD") = false from rfl,
      show ("EUR" == "EUR") = true from rfl,
      show ("EUR" == "GBP") = false from rfl,
      show ("EUR" == "") = false from rfl,
      show ("GBP" == "USD") = false from rfl,
      show ("GBP" == "EUR") = false from rfl,
      show ("GBP" == "GBP") = true from rfl,
      show ("GBP" == "") = false from rfl,
      show ("" == "USD") = false from rfl,
      show ("" == "EUR") = false from rfl,
      show ("" == "GBP") = false from rfl,
      show ("" == "") = true from rfl,
      show ((0:Nat) == 0) = true from rfl,
      show ((0:Nat) == 1) = false from rfl,
      show ((0:Nat) == 2) = false from rfl,
      show ((0:Nat) == 3) = false from rfl,
      show ((0:Nat) == 4) = false from rfl,
      show ((0:Nat) == 5) = false from rfl,
      show ((0:Nat) == 6) = false from rfl,
      show ((1:Nat) == 0) = false from rfl,
      show ((1:Nat) == 1) = true from rfl,
      show ((1:Nat) == 2) = false from rfl,
      show ((1:Nat) == 3) = false from rfl,
      show ((1:Nat) == 4) = false from rfl,
      show ((1:Nat) == 5) = false from rfl,
      show ((1:Nat) == 6) = false from rfl,
      show ((2:Nat) == 0) = false from rfl,
      show ((2:Nat) == 1) = false from rfl,
      show ((2:Nat) == 2) = true from rfl,
      show ((2:Nat) == 3) = false from rfl,
      show ((2:Nat) == 4) = false from rfl,
      show ((2:Nat) == 5) = false from rfl,
      show ((2:Nat) == 6) = false from rfl,
      show ((3:Nat) == 0) = false from rfl,
      show ((3:Nat) == 1) = false from rfl,
      show ((3:Nat) == 2) = false from rfl,
      show ((3:Nat) == 3) = true from rfl,
      show ((3:Nat) == 4) = false from rfl,
      show ((3:Nat) == 5) = false from rfl,
      show ((3:Nat) == 6) = false from rfl,
      show ((4:Nat) == 0) = false from rfl,
      show ((4:Nat) == 1) = false from rfl,
      show ((4:Nat) == 2) = false from rfl,
      show ((4:Nat) == 3) = false from rfl,
      show ((4:Nat) == 4) = true from rfl,
      show ((4:Nat) == 5) = false from rfl,
      show ((4:Nat) == 6) = false from rfl,
      show ((5:Nat) == 0) = false from rfl,
      show ((5:Nat) == 1) = false from rfl,
      show ((5:Nat) == 2) = false from rfl,
      show ((5:Nat) == 3) = false from rfl,
      show ((5:Nat) == 4) = false from rfl,
      show ((5:Nat) == 5) = true from rfl,
      show ((5:Nat) == 6) = false from rfl,
      show ((6:Nat) == 0) = false from rfl,
      show ((6:Nat) == 1) = false from rfl,
      show ((6:Nat) == 2) = false from rfl,
      show ((6:Nat) == 3) = false from rfl,
      show ((6:Nat) == 4) = false from rfl,
      show ((6:Nat) == 5) = false from rfl,
      show ((6:Nat) == 6) = true from rfl,
      executeActions, buildEntries, capturedEntries,
      capturedBuild, refundedEntries, partialRefundEntries,
      findOrCreateAccount, saveProposed, persistOne,
      updateAccountBalance, findAccount, setBalanceFirst, proposedToEntry,
      sumProposed, balanceTolerance, emptyState, defaultConfig, cashCriteria,
      merchantCriteria, feeCriteria, fxCriteria, List.find?, List.filter,
      fxFeeRate, fxFeeLookup, alist.lookup, getExchangeRate, c8Payload,
      c8State]
  have hfx0 : capturedFx defaultConfig c8Payload = 0 := by
    norm_num [capturedFx, c8Payload]
  have href : refundedEntries ⟨some 50, some "USD", some "M1", none, none, none, none⟩ c8State =
      (Except.ok
        [{ account_id := 2, entry_type := EntryType.Debit, amount := 50, currency := "USD" },
            { account_id := 1, entry_type := EntryType.Credit, amount := 50, currency := "USD" }], c8State) := by
    norm_num +decide [show (EntryType.Debit == EntryType.Debit) = true from rfl,
      show (EntryType.Debit == EntryType.Credit) = false from rfl,
      show (EntryType.Credit == EntryType.Debit) = false from rfl,
      show (EntryType.Credit == EntryType.Credit) = true from rfl,
      show "Cash - " ++ "USD" = "Cash - USD" from rfl,
      show "Cash - " ++ "EUR" = "Cash - EUR" from rfl,
      show "Merchant Payable - " ++ "M1" = "Merchant Payable - M1" from rfl,
      show ("Cash - USD" == "Cash - USD") = true from rfl,
      show ("Cash - USD" == "Merchant Payable - M1") = false from rfl,
      show ("Cash - USD" == "Transaction Fee Revenue") = false from rfl,
      show ("Cash - USD" == "FX Fee Revenue") = false from rfl,
      show ("Cash - USD" == "Cash - EUR") = false from rfl,
      show ("Merchant Payable - M1" == "Cash - USD") = false from rfl,
      show ("Merchant Payable - M1" == "Merchant Payable - M1") = true from rfl,
      show ("Merchant Payable - M1" == "Transaction Fee Revenue") = false from rfl,
      show ("Merchant Payable - M1" == "FX Fee Revenue") = false from rfl,
      show ("Merchant Payable - M1" == "Cash - EUR") = false from rfl,
      show ("Transaction Fee Revenue" == "Cash - USD") = false from rfl,
      show ("Transaction Fee Revenue" == "Merchant Payable - M1") = false from rfl,
      show ("Transaction Fee Revenue" == "Transaction Fee Revenue") = true from rfl,
      show ("Transaction Fee Revenue" == "FX Fee Revenue") = false from rfl,
      show ("Transaction Fee Revenue" == "Cash - EUR") = false from rfl,
      show ("FX Fee Revenue" == "Cash - USD") = false from rfl,
      show ("FX Fee Revenue" == "Merchant Payable - M1") = false from rfl,
      show ("FX Fee Revenue" == "Transaction Fee Revenue") = false from rfl,
      show ("FX Fee Revenue" == "FX Fee Revenue") = true from rfl,
      show ("FX Fee Revenue" == "Cash - EUR") = false from rfl,
      show ("Cash - EUR" == "Cash - USD") = false from rfl,
      show ("Cash - EUR" == "Merchant Payable - M1") = false from rfl,
      show ("Cash - EUR" == "Transaction Fee Revenue") = false from rfl,
      show ("Cash - EUR" == "FX Fee Revenue") = false from rfl,
      show ("Cash - EUR" == "Cash - EUR") = true from rfl,
      show ("USD" == "USD") = true from rfl,
      show ("USD" == "EUR") = false from rfl,
      show ("USD" == "GBP") = false from rfl,
      show ("USD" == "") = false from rfl,
      show ("EUR" == "USD") = false from rfl,
      show ("EUR" == "EUR") = true from rfl,
      show ("EUR" == "GBP") = false from rfl,
      show ("EUR" == "") = false from rfl,
      show ("GBP" == "USD") = false from rfl,
      show ("GBP" == "EUR") = false from rfl,
      show ("GBP" == "GBP") = true from rfl,
      show ("GBP" == "") = false from rfl,
      show ("" == "USD") = false from rfl,
      show ("" == "EUR") = false from rfl,
      show ("" == "GBP") = false from rfl,
      show ("" == "") = true from rfl,
      show ((0:Nat) == 0) = true from rfl,
      show ((0:Nat) == 1) = false from rfl,
      show ((0:Nat) == 2) = false from rfl,
      show ((0:Nat) == 3) = false from rfl,
      show ((0:Nat) == 4) = false from rfl,
      show ((0:Nat) == 5) = false from rfl,
      show ((0:Nat) == 6) = false from rfl,
      show ((1:Nat) == 0) = false from rfl,
      show ((1:Nat) == 1) = true from rfl,
      show ((1:Nat) == 2) = false from rfl,
      show ((1:Nat) == 3) = false from rfl,
      show ((1:Nat) == 4) = false from rfl,
      show ((1:Nat) == 5) = false from rfl,
      show ((1:Nat) == 6) = false from rfl,
      show ((2:Nat) == 0) = false from rfl,
      show ((2:Nat) == 1) = false from rfl,
      show ((2:Nat) == 2) = true from rfl,
      show ((2:Nat) == 3) = false from rfl,
      show ((2:Nat) == 4) = false from rfl,
      show ((2:Nat) == 5) = false from rfl,
      show ((2:Nat) == 6) = false from rfl,
      show ((3:Nat) == 0) = false from rfl,
      show ((3:Nat) == 1) = false from rfl,
      show ((3:Nat) == 2) = false from rfl,
      show ((3:Nat) == 3) = true from rfl,
      show ((3:Nat) == 4) = false from rfl,
      show ((3:Nat) == 5) = false from rfl,
      show ((3:Nat) == 6) = false from rfl,
      show ((4:Nat) == 0) = false from rfl,
      show ((4:Nat) == 1) = false from rfl,
      show ((4:Nat) == 2) = false from rfl,
      show ((4:Nat) == 3) = false from rfl,
      show ((4:Nat) == 4) = true from rfl,
      show ((4:Nat) == 5) = false from rfl,
      show ((4:Nat) == 6) = false from rfl,
      show ((5:Nat) == 0) = false from rfl,
      show ((5:Nat) == 1) = false from rfl,
      show ((5:Nat) == 2) = false from rfl,
      show ((5:Nat) == 3) = false from rfl,
      show ((5:Nat) == 4) = false from rfl,
      show ((5:Nat) == 5) = true from rfl,
      show ((5:Nat) == 6) = false from rfl,
      show ((6:Nat) == 0) = false from rfl,
      show ((6:Nat) == 1) = false from rfl,
      show ((6:Nat) == 2) = false from rfl,
      show ((6:Nat) == 3) = false from rfl,
      show ((6:Nat) == 4) = false from rfl,
      show ((6:Nat) == 5) = false from rfl,
      show ((6:Nat) == 6) = true from rfl,
      executeActions, buildEntries, capturedEntries,
      capturedBuild, refundedEntries, partialRefundEntries,
      findOrCreateAccount, saveProposed, persistOne,
      updateAccountBalance, findAccount, setBalanceFirst, proposedToEntry,
      sumProposed, balanceTolerance, emptyState, defaultConfig, cashCriteria,
      merchantCriteria, feeCriteria, fxCriteria, List.find?, List.filter,
      fxFeeRate, fxFeeLookup, alist.lookup, getExchangeRate, c8Payload,
      c8State]
  have hpr : partialRefundEntries ⟨none, some "USD", some "M1", none, none, some 100, some 30⟩
      c8State =
      (Except.ok
        [{ account_id := 2, entry_type := EntryType.Debit, amount := 30, currency := "USD" },
            { account_id := 1, entry_type := EntryType.Credit, amount := 30, currency := "USD" }], c8State) := by
    norm_num +decide [show (EntryType.Debit == EntryType.Debit) = true from rfl,
      show (EntryType.Debit == EntryType.Credit) = false from rfl,
      show (EntryType.Credit == EntryType.Debit) = false from rfl,
      show (EntryType.Credit == EntryType.Credit) = true from rfl,
      show "Cash - " ++ "USD" = "Cash - USD" from rfl,
      show "Cash - " ++ "EUR" = "Cash - EUR" from rfl,
      show "Merchant Payable - " ++ "M1" = "Merchant Payable - M1" from rfl,
      show ("Cash - USD" == "Cash - USD") = true from rfl,
      show ("Cash - USD" == "Merchant Payable - M1") = false from rfl,
      show ("Cash - USD" == "Transaction Fee Revenue") = false from rfl,
      show ("Cash - USD" == "FX Fee Revenue") = false from rfl,
      show ("Cash - USD" == "Cash - EUR") = false from rfl,
      show ("Merchant Payable - M1" == "Cash - USD") = false from rfl,
      show ("Merchant Payable - M1" == "Merchant Payable - M1") = true from rfl,
      show ("Merchant Payable - M1" == "Transaction Fee Revenue") = false from rfl,
      show ("Merchant Payable - M1" == "FX Fee Revenue") = false from rfl,
      show ("Merchant Payable - M1" == "Cash - EUR") = false from rfl,
      show ("Transaction Fee Revenue" == "Cash - USD") = false from rfl,
      show ("Transaction Fee Revenue" == "Merchant Payable - M1") = false from rfl,
      show ("Transaction Fee Revenue" == "Transaction Fee Revenue") = true from rfl,
      show ("Transaction Fee Revenue" == "FX Fee Revenue") = false from rfl,
      show ("Transaction Fee Revenue" == "Cash - EUR") = false from rfl,
      show ("FX Fee Revenue" == "Cash - USD") = false from rfl,
      show ("FX Fee Revenue" == "Merchant Payable - M1") = false from rfl,
      show ("FX Fee Revenue" == "Transaction Fee Revenue") = false from rfl,
      show ("FX Fee Revenue" == "FX Fee Revenue") = true from rfl,
      show ("FX Fee Revenue" == "Cash - EUR") = false from rfl,
      show ("Cash - EUR" == "Cash - USD") = false from rfl,
      show ("Cash - EUR" == "Merchant Payable - M1") = false from rfl,
      show ("Cash - EUR" == "Transaction Fee Revenue") = false from rfl,
      show ("Cash - EUR" == "FX Fee Revenue") = false from rfl,
      show ("Cash - EUR" == "Cash - EUR") = true from rfl,
      show ("USD" == "USD") = true from rfl,
      show ("USD" == "EUR") = false from rfl,
      show ("USD" == "GBP") = false from rfl,
      show ("USD" == "") = false from rfl,
      show ("EUR" == "USD") = false from rfl,
      show ("EUR" == "EUR") = true from rfl,
      show ("EUR" == "GBP") = false from rfl,
      show ("EUR" == "") = false from rfl,
      show ("GBP" == "USD") = false from rfl,
      show ("GBP" == "EUR") = false from rfl,
      show ("GBP" == "GBP") = true from rfl,
      show ("GBP" == "") = false from rfl,
      show ("" == "USD") = false from rfl,
      show ("" == "EUR") = false from rfl,
      show ("" == "GBP") = false from rfl,
      show ("" == "") = true from rfl,
      show ((0:Nat) == 0) = true from rfl,
      show ((0:Nat) == 1) = false from rfl,
      show ((0:Nat) == 2) = false from rfl,
      show ((0:Nat) == 3) = false from rfl,
      show ((0:Nat) == 4) = false from rfl,
      show ((0:Nat) == 5) = false from rfl,
      show ((0:Nat) == 6) = false from rfl,
      show ((1:Nat) == 0) = false from rfl,
      show ((1:Nat) == 1) = true from rfl,
      show ((1:Nat) == 2) = false from rfl,
      show ((1:Nat) == 3) = false from rfl,
      show ((1:Nat) == 4) = false from rfl,
      show ((1:Nat) == 5) = false from rfl,
      show ((1:Nat) == 6) = false from rfl,
      show ((2:Nat) == 0) = false from rfl,
      show ((2:Nat) == 1) = false from rfl,
      show ((2:Nat) == 2) = true from rfl,
      show ((2:Nat) == 3) = false from rfl,
      show ((2:Nat) == 4) = false from rfl,
      show ((2:Nat) == 5) = false from rfl,
      show ((2:Nat) == 6) = false from rfl,
      show ((3:Nat) == 0) = false from rfl,
      show ((3:Nat) == 1) = false from rfl,
      show ((3:Nat) == 2) = false from rfl,
      show ((3:Nat) == 3) = true from rfl,
      show ((3:Nat) == 4) = false from rfl,
      show ((3:Nat) == 5) = false from rfl,
      show ((3:Nat) == 6) = false from rfl,
      show ((4:Nat) == 0) = false from rfl,
      show ((4:Nat) == 1) = false from rfl,
      show ((4:Nat) == 2) = false from rfl,
      show ((4:Nat) == 3) = false from rfl,
      show ((4:Nat) == 4) = true from rfl,
      show ((4:Nat) == 5) = false from rfl,
      show ((4:Nat) == 6) = false from rfl,
      show ((5:Nat) == 0) = false from rfl,
      show ((5:Nat) == 1) = false from rfl,
      show ((5:Nat) == 2) = false from rfl,
      show ((5:Nat) == 3) = false from rfl,
      show ((5:Nat) == 4) = false from rfl,
      show ((5:Nat) == 5) = true from rfl,
      show ((5:Nat) == 6) = false from rfl,
      show ((6:Nat) == 0) = false from rfl,
      show ((6:Nat) == 1) = false from rfl,
      show ((6:Nat) == 2) = false from rfl,
      show ((6:Nat) == 3) = false from rfl,
      show ((6:Nat) == 4) = false from rfl,
      show ((6:Nat) == 5) = false from rfl,
      show ((6:Nat) == 6) = true from rfl,
      executeActions, buildEntries, capturedEntries,
      capturedBuild, refundedEntries, partialRefundEntries,
      findOrCreateAccount, saveProposed, persistOne,
      updateAccountBalance, findAccount, setBalanceFirst, proposedToEntry,
      sumProposed, balanceTolerance, emptyState, defaultConfig, cashCriteria,
      merchantCriteria, feeCriteria, fxCriteria, List.find?, List.filter,
      fxFeeRate, fxFeeLookup, alist.lookup, getExchangeRate, c8Payload,
      c8State]
  have hbneg : buildEntries defaultConfig "PaymentCaptured"
      ⟨some (-100), some "USD", some "M1", some 0, some "EUR", none, none⟩
      { emptyState with nextId := emptyState.nextId + 1 } =
      (Except.ok
        [{ account_id := 1, entry_type := EntryType.Debit, amount := -92, currency := "EUR" },
            { account_id := 2, entry_type := EntryType.Credit, amount := -2277/25, currency := "EUR" },
            { account_id := 3, entry_type := EntryType.Credit, amount := 0, currency := "EUR" }],
       { accounts := [{ account_id := 1, account_name := "Cash - EUR", account_type := "Asset", nature := EntryType.Debit, currency := "EUR", balance := 0 },
            { account_id := 2, account_name := "Merchant Payable - M1", account_type := "Liability", nature := EntryType.Credit, currency := "EUR", balance := 0 },
            { account_id := 3, account_name := "Transaction Fee Revenue", account_type := "Revenue", nature := EntryType.Credit, currency := "EUR", balance := 0 }], entries := [], nextId := 4 }) := by
    norm_num +decide [show (EntryType.Debit == EntryType.Debit) = true from rfl,
      show (EntryType.Debit == EntryType.Credit) = false from rfl,
      show (EntryType.Credit == EntryType.Debit) = false from rfl,
      show (EntryType.Credit == EntryType.Credit) = true from rfl,
      show "Cash - " ++ "USD" = "Cash - USD" from rfl,
      show "Cash - " ++ "EUR" = "Cash - EUR" from rfl,
      show "Merchant Payable - " ++ "M1" = "Merchant Payable - M1" from rfl,
      show ("Cash - USD" == "Cash - USD") = true from rfl,
      show ("Cash - USD" == "Merchant Payable - M1") = false from rfl,
      show ("Cash - USD" == "Transaction Fee Revenue") = false from rfl,
      show ("Cash - USD" == "FX Fee Revenue") = false from rfl,
      show ("Cash - USD" == "Cash - EUR") = false from rfl,
      show ("Merchant Payable - M1" == "Cash - USD") = false from rfl,
      show ("Merchant Payable - M1" == "Merchant Payable - M1") = true from rfl,
      show ("Merchant Payable - M1" == "Transaction Fee Revenue") = false from rfl,
      show ("Merchant Payable - M1" == "FX Fee Revenue") = false from rfl,
      show ("Merchant Payable - M1" == "Cash - EUR") = false from rfl,
      show ("Transaction Fee Revenue" == "Cash - USD") = false from rfl,
      show ("Transaction Fee Revenue" == "Merchant Payable - M1") = false from rfl,
      show ("Transaction Fee Revenue" == "Transaction Fee Revenue") = true from rfl,
      show ("Transaction Fee Revenue" == "FX Fee Revenue") = false from rfl,
      show ("Transaction Fee Revenue" == "Cash - EUR") = false from rfl,
      show ("FX Fee Revenue" == "Cash - USD") = false from rfl,
      show ("FX Fee Revenue" == "Merchant Payable - M1") = false from rfl,
      show ("FX Fee Revenue" == "Transaction Fee Revenue") = false from rfl,
      show ("FX Fee Revenue" == "FX Fee Revenue") = true from rfl,
      show ("FX Fee Revenue" == "Cash - EUR") = false from rfl,
      show ("Cash - EUR" == "Cash - USD") = false from rfl,
      show ("Cash - EUR" == "Merchant Payable - M1") = false from rfl,
      show ("Cash - EUR" == "Transaction Fee Revenue") = false from rfl,
      show ("Cash - EUR" == "FX Fee Revenue") = false from rfl,
      show ("Cash - EUR" == "Cash - EUR") = true from rfl,
      show ("USD" == "USD") = true from rfl,
      show ("USD" == "EUR") = false from rfl,
      show ("USD" == "GBP") = false from rfl,
      show ("USD" == "") = false from rfl,
      show ("EUR" == "USD") = false from rfl,
      show ("EUR" == "EUR") = true from rfl,
      show ("EUR" == "GBP") = false from rfl,
      show ("EUR" == "") = false from rfl,
      show ("GBP" == "USD") = false from rfl,
      show ("GBP" == "EUR") = false from rfl,
      show ("GBP" == "GBP") = true from rfl,
      show ("GBP" == "") = false from rfl,
      show ("" == "USD") = false from rfl,
      show ("" == "EUR") = false from rfl,
      show ("" == "GBP") = false from rfl,
      show ("" == "") = true from rfl,
      show ((0:Nat) == 0) = true from rfl,
      show ((0:Nat) == 1) = false from rfl,
      show ((0:Nat) == 2) = false from rfl,
      show ((0:Nat) == 3) = false from rfl,
      show ((0:Nat) == 4) = false from rfl,
      show ((0:Nat) == 5) = false from rfl,
      show ((0:Nat) == 6) = false from rfl,
      show ((1:Nat) == 0) = false from rfl,
      show ((1:Nat) == 1) = true from rfl,
      show ((1:Nat) == 2) = false from rfl,
      show ((1:Nat) == 3) = false from rfl,
      show ((1:Nat) == 4) = false from rfl,
      show ((1:Nat) == 5) = false from rfl,
      show ((1:Nat) == 6) = false from rfl,
      show ((2:Nat) == 0) = false from rfl,
      show ((2:Nat) == 1) = false from rfl,
      show ((2:Nat) == 2) = true from rfl,
      show ((2:Nat) == 3) = false from rfl,
      show ((2:Nat) == 4) = false from rfl,
      show ((2:Nat) == 5) = false from rfl,
      show ((2:Nat) == 6) = false from rfl,
      show ((3:Nat) == 0) = false from rfl,
      show ((3:Nat) == 1) = false from rfl,
      show ((3:Nat) == 2) = false from rfl,
      show ((3:Nat) == 3) = true from rfl,
      show ((3:Nat) == 4) = false from rfl,
      show ((3:Nat) == 5) = false from rfl,
      show ((3:Nat) == 6) = false from rfl,
      show ((4:Nat) == 0) = false from rfl,
      show ((4:Nat) == 1) = false from rfl,
      show ((4:Nat) == 2) = false from rfl,
      show ((4:Nat) == 3) = false from rfl,
      show ((4:Nat) == 4) = true from rfl,
      show ((4:Nat) == 5) = false from rfl,
      show ((4:Nat) == 6) = false from rfl,
      show ((5:Nat) == 0) = false from rfl,
      show ((5:Nat) == 1) = false from rfl,
      show ((5:Nat) == 2) = false from rfl,
      show ((5:Nat) == 3) = false from rfl,
      show ((5:Nat) == 4) = false from rfl,
      show ((5:Nat) == 5) = true from rfl,
      show ((5:Nat) == 6) = false from rfl,
      show ((6:Nat) == 0) = false from rfl,
      show ((6:Nat) == 1) = false from rfl,
      show ((6:Nat) == 2) = false from rfl,
      show ((6:Nat) == 3) = false from rfl,
      show ((6:Nat) == 4) = false from rfl,
      show ((6:Nat) == 5) = false from rfl,
      show ((6:Nat) == 6) = true from rfl,
      executeActions, buildEntries, capturedEntries,
      capturedBuild, refundedEntries, partialRefundEntries,
      findOrCreateAccount, saveProposed, persistOne,
      updateAccountBalance, findAccount, setBalanceFirst, proposedToEntry,
      sumProposed, balanceTolerance, emptyState, defaultConfig, cashCriteria,
      merchantCriteria, feeCriteria, fxCriteria, List.find?, List.filter,
      fxFeeRate, fxFeeLookup, alist.lookup, getExchangeRate, c8Payload,
      c8State]
  have hgneg : |sumProposed EntryType.Debit
        [{ account_id := 1, entry_type := EntryType.Debit, amount := -92, currency := "EUR" },
            { account_id := 2, entry_type := EntryType.Credit, amount := -2277/25, currency := "EUR" },
            { account_id := 3, entry_type := EntryType.Credit, amount := 0, currency := "EUR" }] -
      sumProposed EntryType.Credit
        [{ account_id := 1, entry_type := EntryType.Debit, amount := -92, currency := "EUR" },
            { account_id := 2, entry_type := EntryType.Credit, amount := -2277/25, currency := "EUR" },
            { account_id := 3, entry_type := EntryType.Credit, amount := 0, currency := "EUR" }]| > balanceTolerance := by
    have hsum : sumProposed EntryType.Debit
          [{ account_id := 1, entry_type := EntryType.Debit, amount := -92, currency := "EUR" },
            { account_id := 2, entry_type := EntryType.Credit, amount := -2277/25, currency := "EUR" },
            { account_id := 3, entry_type := EntryType.Credit, amount := 0, currency := "EUR" }] -
        sumProposed EntryType.Credit
          [{ account_id := 1, entry_type := EntryType.Debit, amount := -92, currency := "EUR" },
            { account_id := 2, entry_type := EntryType.Credit, amount := -2277/25, currency := "EUR" },
            { account_id := 3, entry_type := EntryType.Credit, amount := 0, currency := "EUR" }] = -23/25 := by
      norm_num [sumProposed_cons, sumProposed_nil,
        show (EntryType.Debit == EntryType.Debit) = true from rfl,
        show (EntryType.Debit == EntryType.Credit) = false from rfl,
        show (EntryType.Credit == EntryType.Debit) = false from rfl,
        show (EntryType.Credit == EntryType.Credit) = true from rfl]
    rw [hsum, balanceTolerance, abs_of_neg (by norm_num : (-23/25 : ℚ) < 0)]
    norm_num
  exact ⟨⟨hexec, C1_balance_gate.1 _ _ _ _ _ _ hexec⟩,
    ⟨hcap, (C1_balance_gate.2.1 defaultConfig c8Payload emptyState _ _).2.1
      hcap (by simp [hfx0])⟩,
    ⟨href, (C1_balance_gate.2.1 defaultConfig _ c8State _ _).2.2.1 href⟩,
    ⟨hpr, (C1_balance_gate.2.1 defaultConfig _ c8State _ _).2.2.2 hpr⟩,
    (C1_balance_gate.2.2 defaultConfig "PaymentCaptured" _ emptyState _ _
      hbneg hgneg).1⟩

theorem capturedBuild_ids (cfg : LedgerConfig) (st : LedgerState)
    (sc mid : String) (A F fx : Rat) :
    (capturedBuild cfg st sc mid A F fx).1.map (fun pe => pe.account_id) =
      [(findOrCreateAccount st (cashCriteria sc)).1.account_id,
       (findOrCreateAccount (findOrCreateAccount st (cashCriteria sc)).2
         (merchantCriteria mid sc)).1.account_id,
       (findOrCreateAccount (findOrCreateAccount (findOrCreateAccount st
         (cashCriteria sc)).2 (merchantCriteria mid sc)).2
         (feeCriteria cfg sc)).1.account_id] ++
      (if fx > 0 then
        [(findOrCreateAccount (findOrCreateAccount (findOrCreateAccount
          (findOrCreateAccount st (cashCriteria sc)).2
          (merchantCriteria mid sc)).2 (feeCriteria cfg sc)).2
          (fxCriteria cfg sc)).1.account_id]
       else []) := by
  by_cases hfx : fx > 0
  · simp [capturedBuild, hfx]
  · simp [capturedBuild, hfx]

theorem capturedBuild_length (cfg : LedgerConfig) (st : LedgerState)
    (sc mid : String) (A F fx : Rat) :
    0 < fx ↔ (capturedBuild cfg st sc mid A F fx).1.length = 4 := by
  by_cases hfx : fx > 0
  · simp [capturedBuild, hfx]
  · simp [capturedBuild, hfx]

/-- C2: for a `PaymentCaptured` payload passing validation whose source
currency differs from the (non-empty) settlement currency, with
`rate(source, settlement) = r`, the rule emits exactly, in settlement
currency: a Debit of `amount * r` to Cash, a Credit of
`amount * r - fee * r - fxFee` to Merchant Payable, a Credit of `fee * r`
to Transaction Fee Revenue, and a Credit of
`fxFee = amount * fxFeeRate * r` to FX Fee Revenue, the last entry present
(making four entries rather than three) exactly when `fxFee > 0`. -/
theorem C2_capture_conversion_emission (cfg : LedgerConfig) (p : Payload)
    (st : LedgerState) (A F r : Rat) (c sc m : String)
    (hA : p.amount = some A) (hC : p.currency = some c)
    (hM : p.merchantId = some m) (hF : p.transactionFee = some F)
    (hSC : p.settlementCurrency = some sc)
    (hA0 : A ≠ 0) (hC0 : c ≠ "") (hM0 : m ≠ "") (hsc0 : sc ≠ "")
    (hdiff : c ≠ sc)
    (hr : getExchangeRate cfg c sc = Except.ok r) :
    capturedEntries cfg p st =
      (Except.ok (capturedBuild cfg st sc m (A * r) (F * r) (A * fxFeeRate cfg c sc * r)).1, (capturedBuild cfg st sc m (A * r) (F * r) (A * fxFeeRate cfg c sc * r)).2) ∧
    (capturedBuild cfg st sc m (A * r) (F * r) (A * fxFeeRate cfg c sc * r)).1.map (fun pe => (pe.entry_type, pe.amount, pe.currency)) =
      [(EntryType.Debit, A * r, sc),
       (EntryType.Credit, A * r - F * r - A * fxFeeRate cfg c sc * r, sc),
       (EntryType.Credit, F * r, sc)] ++
        (if A * fxFeeRate cfg c sc * r > 0 then
          [(EntryType.Credit, A * fxFeeRate cfg c sc * r, sc)] else []) ∧
    (capturedBuild cfg st sc m (A * r) (F * r) (A * fxFeeRate cfg c sc * r)).1.map (fun pe => pe.account_id) =
      [(findOrCreateAccount st (cashCriteria sc)).1.account_id,
       (findOrCreateAccount (findOrCreateAccount st (cashCriteria sc)).2 (merchantCriteria m sc)).1.account_id,
       (findOrCreateAccount (findOrCreateAccount (findOrCreateAccount st (cashCriteria sc)).2 (merchantCriteria m sc)).2 (feeCriteria cfg sc)).1.account_id] ++
      (if A * fxFeeRate cfg c sc * r > 0 then
        [(findOrCreateAccount (findOrCreateAccount (findOrCreateAccount (findOrCreateAccount st (cashCriteria sc)).2 (merchantCriteria m sc)).2 (feeCriteria cfg sc)).2 (fxCriteria cfg sc)).1.account_id] else []) ∧
    (findOrCreateAccount st (cashCriteria sc)).1.account_name = "Cash - " ++ sc ∧
    (findOrCreateAccount st (cashCriteria sc)).1.currency = sc ∧
    (findOrCreateAccount (findOrCreateAccount st (cashCriteria sc)).2 (merchantCriteria m sc)).1.account_name = "Merchant Payable - " ++ m ∧
    (findOrCreateAccount (findOrCreateAccount st (cashCriteria sc)).2 (merchantCriteria m sc)).1.currency = sc ∧
    (findOrCreateAccount (findOrCreateAccount (findOrCreateAccount st (cashCriteria sc)).2 (merchantCriteria m sc)).2 (feeCriteria cfg sc)).1.account_name = cfg.revenue_transaction_fees.account_name ∧
    (findOrCreateAccount (findOrCreateAccount (findOrCreateAccount st (cashCriteria sc)).2 (merchantCriteria m sc)).2 (feeCriteria cfg sc)).1.currency = sc ∧
    (findOrCreateAccount (findOrCreateAccount (findOrCreateAccount (findOrCreateAccount st (cashCriteria sc)).2 (merchantCriteria m sc)).2 (feeCriteria cfg sc)).2 (fxCriteria cfg sc)).1.account_name = cfg.revenue_fx_fees.account_name ∧
    (findOrCreateAccount (findOrCreateAccount (findOrCreateAccount (findOrCreateAccount st (cashCriteria sc)).2 (merchantCriteria m sc)).2 (feeCriteria cfg sc)).2 (fxCriteria cfg sc)).1.currency = sc ∧
    (0 < A * fxFeeRate cfg c sc * r ↔ (capturedBuild cfg st sc m (A * r) (F * r) (A * fxFeeRate cfg c sc * r)).1.length = 4) := by
  rcases p with ⟨pa, pc, pm, pf, psc, po, pr⟩
  simp only [Payload.mk.injEq] at hA hC hM hF hSC
  cases hA
  cases hC
  cases hM
  cases hF
  cases hSC
  have hval : (A == 0 || c == "" || m == "") = false := by
    simp [hA0, hC0, hM0]
  have hsc : (sc == "") = false := by simp [hsc0]
  have hsrc : (c == sc) = false := by simp [hdiff]
  have heq : capturedEntries cfg
      ⟨some A, some c, some m, some F, some sc, po, pr⟩ st =
      (Except.ok (capturedBuild cfg st sc m (A * r) (F * r) (A * fxFeeRate cfg c sc * r)).1, (capturedBuild cfg st sc m (A * r) (F * r) (A * fxFeeRate cfg c sc * r)).2) := by
    simp [capturedEntries, hval, hsc, hsrc, hr]
  refine ⟨heq, capturedBuild_entries cfg st sc m (A * r) (F * r)
      (A * fxFeeRate cfg c sc * r),
    capturedBuild_ids cfg st sc m (A * r) (F * r)
      (A * fxFeeRate cfg c sc * r),
    ?_, (findOrCreateAccount_spec st (cashCriteria sc)).2.1,
    ?_, (findOrCreateAccount_spec _ (merchantCriteria m sc)).2.1,
    (findOrCreateAccount_spec _ (feeCriteria cfg sc)).1,
    (findOrCreateAccount_spec _ (feeCriteria cfg sc)).2.1,
    (findOrCreateAccount_spec _ (fxCriteria cfg sc)).1,
    (findOrCreateAccount_spec _ (fxCriteria cfg sc)).2.1,
    capturedBuild_length cfg st sc m (A * r) (F * r)
      (A * fxFeeRate cfg c sc * r)⟩
  · exact (findOrCreateAccount_spec st (cashCriteria sc)).1
  · exact (findOrCreateAccount_spec _ (merchantCriteria m sc)).1

theorem C2_witness :
    capturedEntries defaultConfig examplePayload emptyState =
      (Except.ok
        [{ account_id := 0, entry_type := EntryType.Debit, amount := 92, currency := "EUR" },
            { account_id := 1, entry_type := EntryType.Credit, amount := 88412/1000, currency := "EUR" },
            { account_id := 2, entry_type := EntryType.Credit, amount := 2668/1000, currency := "EUR" },
            { account_id := 3, entry_type := EntryType.Credit, amount := 92/100, currency := "EUR" }],
       { accounts := [{ account_id := 0, account_name := "Cash - EUR", account_type := "Asset", nature := EntryType.Debit, currency := "EUR", balance := 0 },
            { account_id := 1, account_name := "Merchant Payable - M1", account_type := "Liability", nature := EntryType.Credit, currency := "EUR", balance := 0 },
            { account_id := 2, account_name := "Transaction Fee Revenue", account_type := "Revenue", nature := EntryType.Credit, currency := "EUR", balance := 0 },
            { account_id := 3, account_name := "FX Fee Revenue", account_type := "Revenue", nature := EntryType.Credit, currency := "EUR", balance := 0 }], entries := [], nextId := 4 }) ∧
    sumProposed EntryType.Debit
        [{ account_id := 0, entry_type := EntryType.Debit, amount := 92, currency := "EUR" },
            { account_id := 1, entry_type := EntryType.Credit, amount := 88412/1000, currency := "EUR" },
            { account_id := 2, entry_type := EntryType.Credit, amount := 2668/1000, currency := "EUR" },
            { account_id := 3, entry_type := EntryType.Credit, amount := 92/100, currency := "EUR" }] = 92 ∧
    sumProposed EntryType.Credit
        [{ account_id := 0, entry_type := EntryType.Debit, amount := 92, currency := "EUR" },
            { account_id := 1, entry_type := EntryType.Credit, amount := 88412/1000, currency := "EUR" },
            { account_id := 2, entry_type := EntryType.Credit, amount := 2668/1000, currency := "EUR" },
            { account_id := 3, entry_type := EntryType.Credit, amount := 92/100, currency := "EUR" }] = 92 := by
  have hr : getExchangeRate defaultConfig "USD" "EUR" =
      Except.ok (92/100) := by
    norm_num [show (EntryType.Debit == EntryType.Debit) = true from rfl,
      show (EntryType.Debit == EntryType.Credit) = false from rfl,
      show (EntryType.Credit == EntryType.Debit) = false from rfl,
      show (EntryType.Credit == EntryType.Credit) = true from rfl,
      show "Cash - " ++ "USD" = "Cash - USD" from rfl,
      show "Cash - " ++ "EUR" = "Cash - EUR" from rfl,
      show "Merchant Payable - " ++ "M1" = "Merchant Payable - M1" from rfl,
      show ("Cash - USD" == "Cash - USD") = true from rfl,
      show ("Cash - USD" == "Merchant Payable - M1") = false from rfl,
      show ("Cash - USD" == "Transaction Fee Revenue") = false from rfl,
      show ("Cash - USD" == "FX Fee Revenue") = false from rfl,
      show ("Cash - USD" == "Cash - EUR") = false from rfl,
      show ("Merchant Payable - M1" == "Cash - USD") = false from rfl,
      show ("Merchant Payable - M1" == "Merchant Payable - M1") = true from rfl,
      show ("Merchant Payable - M1" == "Transaction Fee Revenue") = false from rfl,
      show ("Merchant Payable - M1" == "FX Fee Revenue") = false from rfl,
      show ("Merchant Payable - M1" == "Cash - EUR") = false from rfl,
      show ("Transaction Fee Revenue" == "Cash - USD") = false from rfl,
      show ("Transaction Fee Revenue" == "Merchant Payable - M1") = false from rfl,
      show ("Transaction Fee Revenue" == "Transaction Fee Revenue") = true from rfl,
      show ("Transaction Fee Revenue" == "FX Fee Revenue") = false from rfl,
      show ("Transaction Fee Revenue" == "Cash - EUR") = false from rfl,
      show ("FX Fee Revenue" == "Cash - USD") = false from rfl,
      show ("FX Fee Revenue" == "Merchant Payable - M1") = false from rfl,
      show ("FX Fee Revenue" == "Transaction Fee Revenue") = false from rfl,
      show ("FX Fee Revenue" == "FX Fee Revenue") = true from rfl,
      show ("FX Fee Revenue" == "Cash - EUR") = false from rfl,
      show ("Cash - EUR" == "Cash - USD") = false from rfl,
      show ("Cash - EUR" == "Merchant Payable - M1") = false from rfl,
      show ("Cash - EUR" == "Transaction Fee Revenue") = false from rfl,
      show ("Cash - EUR" == "FX Fee Revenue") = false from rfl,
      show ("Cash - EUR" == "Cash - EUR") = true from rfl,
      show ("USD" == "USD") = true from rfl,
      show ("USD" == "EUR") = false from rfl,
      show ("USD" == "GBP") = false from rfl,
      show ("USD" == "") = false from rfl,
      show ("EUR" == "USD") = false from rfl,
      show ("EUR" == "EUR") = true from rfl,
      show ("EUR" == "GBP") = false from rfl,
      show ("EUR" == "") = false from rfl,
      show ("GBP" == "USD") = false from rfl,
      show ("GBP" == "EUR") = false from rfl,
      show ("GBP" == "GBP") = true from rfl,
      show ("GBP" == "") = false from rfl,
      show ("" == "USD") = false from rfl,
      show ("" == "EUR") = false from rfl,
      show ("" == "GBP") = false from rfl,
      show ("" == "") = true from rfl,
      show ((0:Nat) == 0) = true from rfl,
      show ((0:Nat) == 1) = false from rfl,
      show ((0:Nat) == 2) = false from rfl,
      show ((0:Nat) == 3) = false from rfl,
      show ((0:Nat) == 4) = false from rfl,
      show ((1:Nat) == 0) = false from rfl,
      show ((1:Nat) == 1) = true from rfl,
      show ((1:Nat) == 2) = false from rfl,
      show ((1:Nat) == 3) = false from rfl,
      show ((1:Nat) == 4) = false from rfl,
      show ((2:Nat) == 0) = false from rfl,
      show ((2:Nat) == 1) = false from rfl,
      show ((2:Nat) == 2) = true from rfl,
      show ((2:Nat) == 3) = false from rfl,
      show ((2:Nat) == 4) = false from rfl,
      show ((3:Nat) == 0) = false from rfl,
      show ((3:Nat) == 1) = false from rfl,
      show ((3:Nat) == 2) = false from rfl,
      show ((3:Nat) == 3) = true from rfl,
      show ((3:Nat) == 4) = false from rfl,
      show ((4:Nat) == 0) = false from rfl,
      show ((4:Nat) == 1) = false from rfl,
      show ((4:Nat) == 2) = false from rfl,
      show ((4:Nat) == 3) = false from rfl,
      show ((4:Nat) == 4) = true from rfl,
      getExchangeRate, defaultConfig, alist.lookup, List.find?]
  have hgen := (C2_capture_conversion_emission defaultConfig examplePayload
    emptyState 100 (29/10) (92/100) "USD" "EUR" "M1" rfl rfl rfl rfl rfl
    (by norm_num) (by decide) (by decide) (by decide) (by decide) hr).1
  have hcb : capturedBuild defaultConfig emptyState "EUR" "M1"
      (100 * (92/100)) ((29/10) * (92/100))
      (100 * fxFeeRate defaultConfig "USD" "EUR" * (92/100)) =
      ([{ account_id := 0, entry_type := EntryType.Debit, amount := 92, currency := "EUR" },
            { account_id := 1, entry_type := EntryType.Credit, amount := 88412/1000, currency := "EUR" },
            { account_id := 2, entry_type := EntryType.Credit, amount := 2668/1000, currency := "EUR" },
            { account_id := 3, entry_type := EntryType.Credit, amount := 92/100, currency := "EUR" }],
       { accounts := [{ account_id := 0, account_name := "Cash - EUR", account_type := "Asset", nature := EntryType.Debit, currency := "EUR", balance := 0 },
            { account_id := 1, account_name := "Merchant Payable - M1", account_type := "Liability", nature := EntryType.Credit, currency := "EUR", balance := 0 },
            { account_id := 2, account_name := "Transaction Fee Revenue", account_type := "Revenue", nature := EntryType.Credit, currency := "EUR", balance := 0 },
            { account_id := 3, account_name := "FX Fee Revenue", account_type := "Revenue", nature := EntryType.Credit, currency := "EUR", balance := 0 }], entries := [], nextId := 4 }) := by
    norm_num [show (EntryType.Debit == EntryType.Debit) = true from rfl,
      show (EntryType.Debit == EntryType.Credit) = false from rfl,
      show (EntryType.Credit == EntryType.Debit) = false from rfl,
      show (EntryType.Credit == EntryType.Credit) = true from rfl,
      show "Cash - " ++ "USD" = "Cash - USD" from rfl,
      show "Cash - " ++ "EUR" = "Cash - EUR" from rfl,
      show "Merchant Payable - " ++ "M1" = "Merchant Payable - M1" from rfl,
      show ("Cash - USD" == "Cash - USD") = true from rfl,
      show ("Cash - USD" == "Merchant Payable - M1") = false from rfl,
      show ("Cash - USD" == "Transaction Fee Revenue") = false from rfl,
      show ("Cash - USD" == "FX Fee Revenue") = false from rfl,
      show ("Cash - USD" == "Cash - EUR") = false from rfl,
      show ("Merchant Payable - M1" == "Cash - USD") = false from rfl,
      show ("Merchant Payable - M1" == "Merchant Payable - M1") = true from rfl,
      show ("Merchant Payable - M1" == "Transaction Fee Revenue") = false from rfl,
      show ("Merchant Payable - M1" == "FX Fee Revenue") = false from rfl,
      show ("Merchant Payable - M1" == "Cash - EUR") = false from rfl,
      show ("Transaction Fee Revenue" == "Cash - USD") = false from rfl,
      show ("Transaction Fee Revenue" == "Merchant Payable - M1") = false from rfl,
      show ("Transaction Fee Revenue" == "Transaction Fee Revenue") = true from rfl,
      show ("Transaction Fee Revenue" == "FX Fee Revenue") = false from rfl,
      show ("Transaction Fee Revenue" == "Cash - EUR") = false from rfl,
      show ("FX Fee Revenue" == "Cash - USD") = false from rfl,
      show ("FX Fee Revenue" == "Merchant Payable - M1") = false from rfl,
      show ("FX Fee Revenue" == "Transaction Fee Revenue") = false from rfl,
      show ("FX Fee Revenue" == "FX Fee Revenue") = true from rfl,
      show ("FX Fee Revenue" == "Cash - EUR") = false from rfl,
      show ("Cash - EUR" == "Cash - USD") = false from rfl,
      show ("Cash - EUR" == "Merchant Payable - M1") = false from rfl,
      show ("Cash - EUR" == "Transaction Fee Revenue") = false from rfl,
      show ("Cash - EUR" == "FX Fee Revenue") = false from rfl,
      show ("Cash - EUR" == "Cash - EUR") = true from rfl,
      show ("USD" == "USD") = true from rfl,
      show ("USD" == "EUR") = false from rfl,
      show ("USD" == "GBP") = false from rfl,
      show ("USD" == "") = false from rfl,
      show ("EUR" == "USD") = false from rfl,
      show ("EUR" == "EUR") = true from rfl,
      show ("EUR" == "GBP") = false from rfl,
      show ("EUR" == "") = false from rfl,
      show ("GBP" == "USD") = false from rfl,
      show ("GBP" == "EUR") = false from rfl,
      show ("GBP" == "GBP") = true from rfl,
      show ("GBP" == "") = false from rfl,
      show ("" == "USD") = false from rfl,
      show ("" == "EUR") = false from rfl,
      show ("" == "GBP") = false from rfl,
      show ("" == "") = true from rfl,
      show ((0:Nat) == 0) = true from rfl,
      show ((0:Nat) == 1) = false from rfl,
      show ((0:Nat) == 2) = false from rfl,
      show ((0:Nat) == 3) = false from rfl,
      show ((0:Nat) == 4) = false from rfl,
      show ((1:Nat) == 0) = false from rfl,
      show ((1:Nat) == 1) = true from rfl,
      show ((1:Nat) == 2) = false from rfl,
      show ((1:Nat) == 3) = false from rfl,
      show ((1:Nat) == 4) = false from rfl,
      show ((2:Nat) == 0) = false from rfl,
      show ((2:Nat) == 1) = false from rfl,
      show ((2:Nat) == 2) = true from rfl,
      show ((2:Nat) == 3) = false from rfl,
      show ((2:Nat) == 4) = false from rfl,
      show ((3:Nat) == 0) = false from rfl,
      show ((3:Nat) == 1) = false from rfl,
      show ((3:Nat) == 2) = false from rfl,
      show ((3:Nat) == 3) = true from rfl,
      show ((3:Nat) == 4) = false from rfl,
      show ((4:Nat) == 0) = false from rfl,
      show ((4:Nat) == 1) = false from rfl,
      show ((4:Nat) == 2) = false from rfl,
      show ((4:Nat) == 3) = false from rfl,
      show ((4:Nat) == 4) = true from rfl,
      capturedBuild, findOrCreateAccount, findAccount, emptyState,
      defaultConfig, cashCriteria, merchantCriteria, feeCriteria, fxCriteria,
      List.find?, fxFeeRate, fxFeeLookup, alist.lookup]
  refine ⟨?_, ?_, ?_⟩
  · rw [hgen, hcb]
  · norm_num [sumProposed_cons, sumProposed_nil,
      show (EntryType.Debit == EntryType.Debit) = true from rfl,
      show (EntryType.Debit == EntryType.Credit) = false from rfl,
      show (EntryType.Credit == EntryType.Debit) = false from rfl,
      show (EntryType.Credit == EntryType.Credit) = true from rfl]
  · norm_num [sumProposed_cons, sumProposed_nil,
      show (EntryType.Debit == EntryType.Debit) = true from rfl,
      show (EntryType.Debit == EntryType.Credit) = false from rfl,
      show (EntryType.Credit == EntryType.Debit) = false from rfl,
      show (EntryType.Credit == EntryType.Credit) = true from rfl]

theorem flipType_beq (x t : EntryType) :
    (flipType x == t) = (x == flipType t) := by
  cases x <;> cases t <;> rfl

theorem sumEntries_flip : ∀ {orig res : List LedgerEntry},
    List.Forall₂ (fun oe re => re.entry_type = flipType oe.entry_type ∧
      re.amount = oe.amount) orig res →
    ∀ t, sumEntries t res = sumEntries (flipType t) orig := by
  intro orig res h
  induction h with
  | nil => intro t; rfl
  | cons hr hrest ih =>
      intro t
      rename_i oe re l1 l2
      rw [sumEntries_cons, sumEntries_cons, hr.1, hr.2, flipType_beq, ih t]

theorem forall₂_and_left {α β : Type} {R : α → β → Prop} {P : α → Prop} :
    ∀ {l1 : List α} {l2 : List β}, List.Forall₂ R l1 l2 →
    (∀ x ∈ l1, P x) → List.Forall₂ (fun a b => P a ∧ R a b) l1 l2 := by
  intro l1 l2 h hp
  induction h with
  | nil => exact List.Forall₂.nil
  | cons hr hrest ih =>
      exact List.Forall₂.cons ⟨hp _ (List.mem_cons_self _ _), hr⟩
        (ih (fun x hx => hp x (List.mem_cons_of_mem _ hx)))

theorem reversalAmountOf_of_match {cfg : LedgerConfig} {st : LedgerState}
    {e : LedgerEntry} {a : Account}
    (hf : findAccount st.accounts e.account_id = some a)
    (hc : a.currency = e.currency) :
    reversalAmountOf cfg st e = e.amount := by
  unfold reversalAmountOf
  rw [hf]
  simp [hc]

theorem reversalAmountOf_nextId (cfg : LedgerConfig) (st : LedgerState)
    (n : Nat) (e : LedgerEntry) :
    reversalAmountOf cfg { st with nextId := n } e =
      reversalAmountOf cfg st e := rfl

theorem reverseEntryGroup_success (cfg : LedgerConfig) (st : LedgerState)
    (gid : Nat)
    (horig : (st.entries.filter
      (fun e => e.entryGroupId == gid)).isEmpty = false)
    (hnorev : ((st.entries.filter (fun e => e.entryGroupId == gid)).any
      (fun e => e.isReversed)) = false)
    (hacct : ∀ e ∈ st.entries.filter (fun e => e.entryGroupId == gid),
      ∃ a, findAccount st.accounts e.account_id = some a ∧
        (a.currency = e.currency ∨
          ∃ r, getExchangeRate cfg e.currency a.currency = Except.ok r)) :
    ∃ res st2, reverseEntryGroup cfg st gid =
        (Except.ok (st.nextId, res), st2) ∧
      st2.entries = markAll st.entries
          ((st.entries.filter (fun e => e.entryGroupId == gid)).map
            (fun e => e.entry_id)) ++ res ∧
      accountsShape st.accounts st2.accounts ∧
      List.Forall₂ (fun oe re =>
        re.entry_type = flipType oe.entry_type ∧
        re.amount = reversalAmountOf cfg st oe ∧
        re.isReversal = true ∧ re.originalEntryId = some oe.entry_id ∧
        re.entryGroupId = st.nextId ∧ re.account_id = oe.account_id)
        (st.entries.filter (fun e => e.entryGroupId == gid)) res := by
  have hpre : ∀ oe ∈ st.entries.filter (fun e => e.entryGroupId == gid),
      ∃ a, findAccount
        ({ st with nextId := st.nextId + 1 } : LedgerState).accounts
        oe.account_id = some a ∧
        (a.currency = oe.currency ∨
          ∃ r, getExchangeRate cfg oe.currency a.currency = Except.ok r) :=
    hacct
  obtain ⟨res, st1, hb⟩ := buildReversalEntries_success
    (st.entries.filter (fun e => e.entryGroupId == gid)) cfg
    { st with nextId := st.nextId + 1 } st.nextId hpre
  have hok := buildReversalEntries_ok _ cfg _ _ hb
  have hpers_pre : ∀ e ∈ res, ∃ a, findAccount st1.accounts e.account_id =
      some a ∧ a.currency = e.currency := by
    intro e he
    obtain ⟨oe, _, hrel⟩ := forall₂_mem_right hok.2.2 e he
    obtain ⟨a, hfa, hca⟩ := hrel.2.2.2.2.2.2
    refine ⟨a, ?_, hca⟩
    rw [hok.1]
    exact hfa
  obtain ⟨st2, hrun, hent2, hnid2, hshape2, hwf2⟩ :=
    persistAndApply_ok res st1 hpers_pre
  refine ⟨res, st2, ?_, ?_, ?_, ?_⟩
  · simp [reverseEntryGroup, horig, hnorev, hb, hrun]
  · rw [hent2, hok.2.1]
  · have h1 : st1.accounts = st.accounts := hok.1
    rw [← h1]
    exact hshape2
  · refine List.Forall₂.imp ?_ hok.2.2
    intro a b hrel
    exact ⟨hrel.1, hrel.2.1, hrel.2.2.1, hrel.2.2.2.1, hrel.2.2.2.2.1,
      hrel.2.2.2.2.2.1⟩


theorem sumEntries_nil (t : EntryType) : sumEntries t [] = 0 := rfl

/-- C3 counterexample: in `editedCurrencyState` the stored group 5 balances
exactly (Debit 100 USD against Credit 100 USD), but the first account's
currency was edited to EUR, so the reversal converts only that inverse
entry (100 USD to 92 EUR) while the other stays at 100 USD: the inverse
group it persists is off by 8, far beyond the 0.001 tolerance, and no
balance gate runs on the reversal path. -/
theorem C3_counterexample :
    sumEntries EntryType.Debit (editedCurrencyState.entries.filter
        (fun e => e.entryGroupId == 5)) =
      sumEntries EntryType.Credit (editedCurrencyState.entries.filter
        (fun e => e.entryGroupId == 5)) ∧
    reverseEntryGroup defaultConfig editedCurrencyState 5 =
      (Except.ok (20,
        [{ entry_id := 21, entryGroupId := 20, account_id := 0, entry_type := EntryType.Credit, amount := 92, currency := "EUR", isReversal := true, isReversed := false, originalEntryId := some 10, metaExchangeRate := some (92/100) },
         { entry_id := 22, entryGroupId := 20, account_id := 1, entry_type := EntryType.Debit, amount := 100, currency := "USD", isReversal := true, isReversed := false, originalEntryId := some 11, metaExchangeRate := some 1 }]),
       { accounts := [{ account_id := 0, account_name := "Cash - USD", account_type := "Asset", nature := EntryType.Debit, currency := "EUR", balance := -92 },
                      { account_id := 1, account_name := "Merchant Payable - M1", account_type := "Liability", nature := EntryType.Credit, currency := "USD", balance := -100 }],
         entries := [{ entry_id := 10, entryGroupId := 5, account_id := 0, entry_type := EntryType.Debit, amount := 100, currency := "USD", isReversal := false, isReversed := true, originalEntryId := none, metaExchangeRate := none },
                     { entry_id := 11, entryGroupId := 5, account_id := 1, entry_type := EntryType.Credit, amount := 100, currency := "USD", isReversal := false, isReversed := true, originalEntryId := none, metaExchangeRate := none },
                     { entry_id := 21, entryGroupId := 20, account_id := 0, entry_type := EntryType.Credit, amount := 92, currency := "EUR", isReversal := true, isReversed := false, originalEntryId := some 10, metaExchangeRate := some (92/100) },
                     { entry_id := 22, entryGroupId := 20, account_id := 1, entry_type := EntryType.Debit, amount := 100, currency := "USD", isReversal := true, isReversed := false, originalEntryId := some 11, metaExchangeRate := some 1 }], nextId := 23 }) ∧
    |sumEntries EntryType.Debit
        [{ entry_id := 21, entryGroupId := 20, account_id := 0, entry_type := EntryType.Credit, amount := 92, currency := "EUR", isReversal := true, isReversed := false, originalEntryId := some 10, metaExchangeRate := some (92/100) },
         { entry_id := 22, entryGroupId := 20, account_id := 1, entry_type := EntryType.Debit, amount := 100, currency := "USD", isReversal := true, isReversed := false, originalEntryId := some 11, metaExchangeRate := some 1 }] -
      sumEntries EntryType.Credit
        [{ entry_id := 21, entryGroupId := 20, account_id := 0, entry_type := EntryType.Credit, amount := 92, currency := "EUR", isReversal := true, isReversed := false, originalEntryId := some 10, metaExchangeRate := some (92/100) },
         { entry_id := 22, entryGroupId := 20, account_id := 1, entry_type := EntryType.Debit, amount := 100, currency := "USD", isReversal := true, isReversed := false, originalEntryId := some 11, metaExchangeRate := some 1 }]| > balanceTolerance := by
  refine ⟨?_, ?_, ?_⟩
  · norm_num [sumEntries_cons, sumEntries_nil, List.filter, editedCurrencyState,
      usdDebitEntry, usdCreditEntry,
      show (EntryType.Debit == EntryType.Debit) = true from rfl,
      show (EntryType.Debit == EntryType.Credit) = false from rfl,
      show (EntryType.Credit == EntryType.Debit) = false from rfl,
      show (EntryType.Credit == EntryType.Credit) = true from rfl,
      show ((5:Nat) == 5) = true from rfl]
  · norm_num +decide [show (EntryType.Debit == EntryType.Debit) = true from rfl,
      show (EntryType.Debit == EntryType.Credit) = false from rfl,
      show (EntryType.Credit == EntryType.Debit) = false from rfl,
      show (EntryType.Credit == EntryType.Credit) = true from rfl,
      show ("USD" == "USD") = true from rfl,
      show ("USD" == "EUR") = false from rfl,
      show ("USD" == "GBP") = false from rfl,
      show ("USD" == "") = false from rfl,
      show ("EUR" == "USD") = false from rfl,
      show ("EUR" == "EUR") = true from rfl,
      show ("EUR" == "GBP") = false from rfl,
      show ("EUR" == "") = false from rfl,
      show ("GBP" == "USD") = false from rfl,
      show ("GBP" == "EUR") = false from rfl,
      show ("GBP" == "GBP") = true from rfl,
      show ("GBP" == "") = false from rfl,
      show ("" == "USD") = false from rfl,
      show ("" == "EUR") = false from rfl,
      show ("" == "GBP") = false from rfl,
      show ("" == "") = true from rfl,
      show ((0:Nat) == 0) = true from rfl,
      show ((0:Nat) == 1) = false from rfl,
      show ((0:Nat) == 5) = false from rfl,
      show ((0:Nat) == 10) = false from rfl,
      show ((0:Nat) == 11) = false from rfl,
      show ((0:Nat) == 20) = false from rfl,
      show ((0:Nat) == 21) = false from rfl,
      show ((0:Nat) == 22) = false from rfl,
      show ((0:Nat) == 23) = false from rfl,
      show ((1:Nat) == 0) = false from rfl,
      show ((1:Nat) == 1) = true from rfl,
      show ((1:Nat) == 5) = false from rfl,
      show ((1:Nat) == 10) = false from rfl,
      show ((1:Nat) == 11) = false from rfl,
      show ((1:Nat) == 20) = false from rfl,
      show ((1:Nat) == 21) = false from rfl,
      show ((1:Nat) == 22) = false from rfl,
      show ((1:Nat) == 23) = false from rfl,
      show ((5:Nat) == 0) = false from rfl,
      show ((5:Nat) == 1) = false from rfl,
      show ((5:Nat) == 5) = true from rfl,
      show ((5:Nat) == 10) = false from rfl,
      show ((5:Nat) == 11) = false from rfl,
      show ((5:Nat) == 20) = false from rfl,
      show ((5:Nat) == 21) = false from rfl,
      show ((5:Nat) == 22) = false from rfl,
      show ((5:Nat) == 23) = false from rfl,
      show ((10:Nat) == 0) = false from rfl,
      show ((10:Nat) == 1) = false from rfl,
      show ((10:Nat) == 5) = false from rfl,
      show ((10:Nat) == 10) = true from rfl,
      show ((10:Nat) == 11) = false from rfl,
      show ((10:Nat) == 20) = false from rfl,
      show ((10:Nat) == 21) = false from rfl,
      show ((10:Nat) == 22) = false from rfl,
      show ((10:Nat) == 23) = false from rfl,
      show ((11:Nat) == 0) = false from rfl,
      show ((11:Nat) == 1) = false from rfl,
      show ((11:Nat) == 5) = false from rfl,
      show ((11:Nat) == 10) = false from rfl,
      show ((11:Nat) == 11) = true from rfl,
      show ((11:Nat) == 20) = false from rfl,
      show ((11:Nat) == 21) = false from rfl,
      show ((11:Nat) == 22) = false from rfl,
      show ((11:Nat) == 23) = false from rfl,
      show ((20:Nat) == 0) = false from rfl,
      show ((20:Nat) == 1) = false from rfl,
      show ((20:Nat) == 5) = false from rfl,
      show ((20:Nat) == 10) = false from rfl,
      show ((20:Nat) == 11) = false from rfl,
      show ((20:Nat) == 20) = true from rfl,
      show ((20:Nat) == 21) = false from rfl,
      show ((20:Nat) == 22) = false from rfl,
      show ((20:Nat) == 23) = false from rfl,
      show ((21:Nat) == 0) = false from rfl,
      show ((21:Nat) == 1) = false from rfl,
      show ((21:Nat) == 5) = false from rfl,
      show ((21:Nat) == 10) = false from rfl,
      show ((21:Nat) == 11) = false from rfl,
      show ((21:Nat) == 20) = false from rfl,
      show ((21:Nat) == 21) = true from rfl,
      show ((21:Nat) == 22) = false from rfl,
      show ((21:Nat) == 23) = false from rfl,
      show ((22:Nat) == 0) = false from rfl,
      show ((22:Nat) == 1) = false from rfl,
      show ((22:Nat) == 5) = false from rfl,
      show ((22:Nat) == 10) = false from rfl,
      show ((22:Nat) == 11) = false from rfl,
      show ((22:Nat) == 20) = false from rfl,
      show ((22:Nat) == 21) = false from rfl,
      show ((22:Nat) == 22) = true from rfl,
      show ((22:Nat) == 23) = false from rfl,
      show ((23:Nat) == 0) = false from rfl,
      show ((23:Nat) == 1) = false from rfl,
      show ((23:Nat) == 5) = false from rfl,
      show ((23:Nat) == 10) = false from rfl,
      show ((23:Nat) == 11) = false from rfl,
      show ((23:Nat) == 20) = false from rfl,
      show ((23:Nat) == 21) = false from rfl,
      show ((23:Nat) == 22) = false from rfl,
      show ((23:Nat) == 23) = true from rfl,
      reverseEntryGroup, buildReversalEntries, persistAndApply, persistOne,
      reversalConversion, reversalEntryOf, flipType, markReversed,
      updateAccountBalance, findAccount, setBalanceFirst, getExchangeRate,
      alist.lookup, List.find?, List.filter, editedCurrencyState,
      editedCashAccount, usdPayableAccount, usdDebitEntry, usdCreditEntry,
      defaultConfig, sumEntries, balanceTolerance]
  · have hsum : sumEntries EntryType.Debit
        [{ entry_id := 21, entryGroupId := 20, account_id := 0, entry_type := EntryType.Credit, amount := 92, currency := "EUR", isReversal := true, isReversed := false, originalEntryId := some 10, metaExchangeRate := some (92/100) },
         { entry_id := 22, entryGroupId := 20, account_id := 1, entry_type := EntryType.Debit, amount := 100, currency := "USD", isReversal := true, isReversed := false, originalEntryId := some 11, metaExchangeRate := some 1 }] -
        sumEntries EntryType.Credit
        [{ entry_id := 21, entryGroupId := 20, account_id := 0, entry_type := EntryType.Credit, amount := 92, currency := "EUR", isReversal := true, isReversed := false, originalEntryId := some 10, metaExchangeRate := some (92/100) },
         { entry_id := 22, entryGroupId := 20, account_id := 1, entry_type := EntryType.Debit, amount := 100, currency := "USD", isReversal := true, isReversed := false, originalEntryId := some 11, metaExchangeRate := some 1 }] = 8 := by
      norm_num [sumEntries_cons, sumEntries_nil,
        show (EntryType.Debit == EntryType.Debit) = true from rfl,
        show (EntryType.Debit == EntryType.Credit) = false from rfl,
        show (EntryType.Credit == EntryType.Debit) = false from rfl,
        show (EntryType.Credit == EntryType.Credit) = true from rfl]
    rw [hsum, balanceTolerance, abs_of_pos (by norm_num : (0:ℚ) < 8)]
    norm_num

/-- C3 (amended): for a stored entry group that is nonempty and not yet
reversed, when every entry's account still carries the currency stored on
the entry (so the conversion branch is not taken), the reversal succeeds
and the inverse group balances exactly: its Debit total equals the
original group's Credit total and vice versa, so if the original group
balances the inverse group balances (within any tolerance, in particular
0.001).  When an account's current currency differs from its entry's
stored currency the inverse entry is converted through the rate table and
the inverse group need not balance (see the counterexample). -/
theorem C3_reversal_balance (cfg : LedgerConfig) (st : LedgerState)
    (gid : Nat)
    (horig : (st.entries.filter
      (fun e => e.entryGroupId == gid)).isEmpty = false)
    (hnorev : ((st.entries.filter (fun e => e.entryGroupId == gid)).any
      (fun e => e.isReversed)) = false)
    (hacct : ∀ e ∈ st.entries.filter (fun e => e.entryGroupId == gid),
      ∃ a, findAccount st.accounts e.account_id = some a ∧
        a.currency = e.currency) :
    ∃ res st2, reverseEntryGroup cfg st gid =
        (Except.ok (st.nextId, res), st2) ∧
      sumEntries EntryType.Debit res =
        sumEntries EntryType.Credit
          (st.entries.filter (fun e => e.entryGroupId == gid)) ∧
      sumEntries EntryType.Credit res =
        sumEntries EntryType.Debit
          (st.entries.filter (fun e => e.entryGroupId == gid)) ∧
      (sumEntries EntryType.Debit
          (st.entries.filter (fun e => e.entryGroupId == gid)) =
        sumEntries EntryType.Credit
          (st.entries.filter (fun e => e.entryGroupId == gid)) →
       |sumEntries EntryType.Debit res -
          sumEntries EntryType.Credit res| ≤ balanceTolerance) := by
  obtain ⟨res, st2, hrun, hent, hshape, hrel⟩ :=
    reverseEntryGroup_success cfg st gid horig hnorev
      (fun e he => by
        obtain ⟨a, hfa, hca⟩ := hacct e he
        exact ⟨a, hfa, Or.inl hca⟩)
  have hrel2 : List.Forall₂ (fun oe re =>
      re.entry_type = flipType oe.entry_type ∧ re.amount = oe.amount)
      (st.entries.filter (fun e => e.entryGroupId == gid)) res := by
    refine List.Forall₂.imp ?_ (forall₂_and_left hrel hacct)
    intro oe re hp
    obtain ⟨⟨a, hfa, hca⟩, hr⟩ := hp
    refine ⟨hr.1, ?_⟩
    rw [hr.2.1]
    exact reversalAmountOf_of_match hfa hca
  have hflip := sumEntries_flip hrel2
  have hD := hflip EntryType.Debit
  have hC := hflip EntryType.Credit
  rw [show flipType EntryType.Debit = EntryType.Credit from rfl] at hD
  rw [show flipType EntryType.Credit = EntryType.Debit from rfl] at hC
  refine ⟨res, st2, hrun, hD, hC, ?_⟩
  intro hbal
  rw [hD, hC, hbal]
  simp [balanceTolerance]

theorem C3_witness :
    ∃ res st2, reverseEntryGroup defaultConfig c8State 0 =
        (Except.ok (7, res), st2) ∧
      sumEntries EntryType.Debit res =
        sumEntries EntryType.Credit
          (c8State.entries.filter (fun e => e.entryGroupId == 0)) ∧
      sumEntries EntryType.Credit res =
        sumEntries EntryType.Debit
          (c8State.entries.filter (fun e => e.entryGroupId == 0)) ∧
      (sumEntries EntryType.Debit
          (c8State.entries.filter (fun e => e.entryGroupId == 0)) =
        sumEntries EntryType.Credit
          (c8State.entries.filter (fun e => e.entryGroupId == 0)) →
       |sumEntries EntryType.Debit res -
          sumEntries EntryType.Credit res| ≤ balanceTolerance) := by
  refine C3_reversal_balance defaultConfig c8State 0 rfl rfl ?_
  intro e he
  simp only [c8State, List.mem_filter, List.mem_cons,
    List.not_mem_nil, or_false] at he
  rcases he with ⟨h | h | h, -⟩
  · subst h
    exact ⟨{ account_id := 1, account_name := "Cash - USD",
             account_type := "Asset", nature := EntryType.Debit,
             currency := "USD", balance := 100 }, rfl, rfl⟩
  · subst h
    exact ⟨{ account_id := 2, account_name := "Merchant Payable - M1",
             account_type := "Liability", nature := EntryType.Credit,
             currency := "USD", balance := 100 }, rfl, rfl⟩
  · subst h
    exact ⟨{ account_id := 3, account_name := "Transaction Fee Revenue",
             account_type := "Revenue", nature := EntryType.Credit,
             currency := "USD", balance := 0 }, rfl, rfl⟩

/-- C4: (i) reversing a group with no stored entries fails with the
not-found error and leaves storage untouched; (ii) reversing a group one
of whose entries already has `isReversed = true` fails with the
already-reversed error and leaves storage untouched; (iii) for a nonempty
group with no reversed entry whose accounts all resolve (with matching
currency or an available rate) and whose id differs from the fresh group
id, the reversal succeeds under the fresh group id `st.nextId` and returns
one inverse entry per original — type flipped, amount the post-conversion
amount, `isReversal = true`, `originalEntryId` pointing at the original,
group id the fresh one — the stored originals are all marked
`isReversed = true`, and reversing the same group again on the resulting
storage fails with the already-reversed error. -/
theorem C4_reversal_contract :
    (∀ (cfg : LedgerConfig) (st : LedgerState) (gid : Nat),
        st.entries.filter (fun e => e.entryGroupId == gid) = [] →
        reverseEntryGroup cfg st gid =
          (Except.error LedgerError.entryGroupNotFound, st)) ∧
    (∀ (cfg : LedgerConfig) (st : LedgerState) (gid : Nat),
        ((st.entries.filter (fun e => e.entryGroupId == gid)).any
          (fun e => e.isReversed)) = true →
        reverseEntryGroup cfg st gid =
          (Except.error LedgerError.alreadyReversed, st)) ∧
    (∀ (cfg : LedgerConfig) (st : LedgerState) (gid : Nat),
        (st.entries.filter
          (fun e => e.entryGroupId == gid)).isEmpty = false →
        ((st.entries.filter (fun e => e.entryGroupId == gid)).any
          (fun e => e.isReversed)) = false →
        gid ≠ st.nextId →
        (∀ e ∈ st.entries.filter (fun e => e.entryGroupId == gid),
          ∃ a, findAccount st.accounts e.account_id = some a ∧
            (a.currency = e.currency ∨
              ∃ r, getExchangeRate cfg e.currency a.currency =
                Except.ok r)) →
        ∃ res st2, reverseEntryGroup cfg st gid =
            (Except.ok (st.nextId, res), st2) ∧
          res.length = (st.entries.filter
            (fun e => e.entryGroupId == gid)).length ∧
          List.Forall₂ (fun oe re =>
            re.entry_type = flipType oe.entry_type ∧
            re.amount = reversalAmountOf cfg st oe ∧
            re.isReversal = true ∧ re.originalEntryId = some oe.entry_id ∧
            re.entryGroupId = st.nextId ∧ re.account_id = oe.account_id)
            (st.entries.filter (fun e => e.entryGroupId == gid)) res ∧
          st2.entries = markAll st.entries
            ((st.entries.filter (fun e => e.entryGroupId == gid)).map
              (fun e => e.entry_id)) ++ res ∧
          (∀ x ∈ st2.entries, x.entryGroupId = gid → x.isReversed = true) ∧
          reverseEntryGroup cfg st2 gid =
            (Except.error LedgerError.alreadyReversed, st2)) := by
  refine ⟨?_, ?_, ?_⟩
  · intro cfg st gid h
    simp [reverseEntryGroup, h]
  · intro cfg st gid hany
    have hne : st.entries.filter (fun e => e.entryGroupId == gid) ≠ [] := by
      intro hnil
      rw [hnil] at hany
      simp at hany
    have hemp : (st.entries.filter
        (fun e => e.entryGroupId == gid)).isEmpty = false := by
      cases hfl : st.entries.filter (fun e => e.entryGroupId == gid) with
      | nil => exact absurd hfl hne
      | cons e0 tl => rfl
    simp [reverseEntryGroup, hemp, hany]
  · intro cfg st gid horig hnorev hfresh hacct
    obtain ⟨res, st2, hrun, hent, hshape, hrel⟩ :=
      reverseEntryGroup_success cfg st gid horig hnorev hacct
    have hmark : ∀ x ∈ st2.entries, x.entryGroupId = gid →
        x.isReversed = true := by
      intro x hx hg
      rw [hent] at hx
      rcases List.mem_append.mp hx with hx | hx
      · obtain ⟨e, he, hfe⟩ := List.mem_map.mp hx
        by_cases hid : e.entry_id ∈
            (st.entries.filter (fun e => e.entryGroupId == gid)).map
              (fun e => e.entry_id)
        · rw [if_pos hid] at hfe
          rw [← hfe]
        · rw [if_neg hid] at hfe
          exfalso
          apply hid
          refine List.mem_map.mpr ⟨e, ?_, rfl⟩
          refine List.mem_filter.mpr ⟨he, ?_⟩
          rw [hfe]
          exact beq_iff_eq.mpr hg
      · obtain ⟨oe, _, hr⟩ := forall₂_mem_right hrel x hx
        exfalso
        apply hfresh
        rw [← hg, hr.2.2.2.2.1]
    have hexists : ∃ e0, e0 ∈ st.entries.filter
        (fun e => e.entryGroupId == gid) := by
      cases hfl : st.entries.filter (fun e => e.entryGroupId == gid) with
      | nil =>
          rw [hfl] at horig
          simp at horig
      | cons e0 tl => exact ⟨e0, List.mem_cons_self _ _⟩
    obtain ⟨e0, he0⟩ := hexists
    have he0m : ({ e0 with isReversed := true } : LedgerEntry) ∈
        st2.entries := by
      rw [hent]
      refine List.mem_append.mpr (Or.inl ?_)
      refine List.mem_map.mpr ⟨e0, (List.mem_filter.mp he0).1, ?_⟩
      rw [if_pos (List.mem_map.mpr ⟨e0, he0, rfl⟩)]
    have he0g : ({ e0 with isReversed := true } : LedgerEntry).entryGroupId
        = gid := beq_iff_eq.mp (List.mem_filter.mp he0).2
    have he0f : ({ e0 with isReversed := true } : LedgerEntry) ∈
        st2.entries.filter (fun e => e.entryGroupId == gid) :=
      List.mem_filter.mpr ⟨he0m, beq_iff_eq.mpr he0g⟩
    have hemp2 : (st2.entries.filter
        (fun e => e.entryGroupId == gid)).isEmpty = false := by
      cases hfl2 : st2.entries.filter (fun e => e.entryGroupId == gid) with
      | nil =>
          rw [hfl2] at he0f
          exact absurd he0f (List.not_mem_nil _)
      | cons y tl => rfl
    have hany2 : ((st2.entries.filter (fun e => e.entryGroupId == gid)).any
        (fun e => e.isReversed)) = true :=
      List.any_eq_true.mpr ⟨_, he0f, rfl⟩
    have hsecond : reverseEntryGroup cfg st2 gid =
        (Except.error LedgerError.alreadyReversed, st2) := by
      simp [reverseEntryGroup, hemp2, hany2]
    exact ⟨res, st2, hrun, (List.Forall₂.length_eq hrel).symm, hrel, hent,
      hmark, hsecond⟩


theorem C4_witness :
    reverseEntryGroup defaultConfig c8State 99 =
      (Except.error LedgerError.entryGroupNotFound, c8State) ∧
    reverseEntryGroup defaultConfig
      { accounts := [], entries := [{ entry_id := 0, entryGroupId := 3, account_id := 0, entry_type := EntryType.Debit, amount := 1, currency := "USD", isReversal := false, isReversed := true, originalEntryId := none, metaExchangeRate := none }], nextId := 5 } 3 =
      (Except.error LedgerError.alreadyReversed,
       { accounts := [], entries := [{ entry_id := 0, entryGroupId := 3, account_id := 0, entry_type := EntryType.Debit, amount := 1, currency := "USD", isReversal := false, isReversed := true, originalEntryId := none, metaExchangeRate := none }], nextId := 5 }) ∧
    ∃ res st2, reverseEntryGroup defaultConfig c8State 0 =
        (Except.ok (7, res), st2) ∧
      res.length = (c8State.entries.filter
        (fun e => e.entryGroupId == 0)).length ∧
      List.Forall₂ (fun oe re =>
        re.entry_type = flipType oe.entry_type ∧
        re.amount = reversalAmountOf defaultConfig c8State oe ∧
        re.isReversal = true ∧ re.originalEntryId = some oe.entry_id ∧
        re.entryGroupId = 7 ∧ re.account_id = oe.account_id)
        (c8State.entries.filter (fun e => e.entryGroupId == 0)) res ∧
      st2.entries = markAll c8State.entries
        ((c8State.entries.filter (fun e => e.entryGroupId == 0)).map
          (fun e => e.entry_id)) ++ res ∧
      (∀ x ∈ st2.entries, x.entryGroupId = 0 → x.isReversed = true) ∧
      reverseEntryGroup defaultConfig st2 0 =
        (Except.error LedgerError.alreadyReversed, st2) := by
  refine ⟨C4_reversal_contract.1 defaultConfig c8State 99 rfl,
    C4_reversal_contract.2.1 defaultConfig _ 3 rfl,
    C4_reversal_contract.2.2 defaultConfig c8State 0 rfl rfl
      (by decide) ?_⟩
  intro e he
  simp only [c8State, List.mem_filter, List.mem_cons,
    List.not_mem_nil, or_false] at he
  rcases he with ⟨h | h | h, -⟩
  · subst h
    exact ⟨{ account_id := 1, account_name := "Cash - USD",
             account_type := "Asset", nature := EntryType.Debit,
             currency := "USD", balance := 100 }, rfl, Or.inl rfl⟩
  · subst h
    exact ⟨{ account_id := 2, account_name := "Merchant Payable - M1",
             account_type := "Liability", nature := EntryType.Credit,
             currency := "USD", balance := 100 }, rfl, Or.inl rfl⟩
  · subst h
    exact ⟨{ account_id := 3, account_name := "Transaction Fee Revenue",
             account_type := "Revenue", nature := EntryType.Credit,
             currency := "USD", balance := 0 }, rfl, Or.inl rfl⟩
